import Mathlib

/-! Activity-upgrades payment server: reconciliation and receipt flow.

A shallow embedding of the request handlers of the payment server
(`src/tests.js`): `/create-checkout-session`, `/create-and-redirect-checkout`,
`/verify-payment`, `processSuccessfulPayment` and `/send-receipt-email`, and of
the receipt generator `generateReceiptHtml` (`src/receipt-generator.js`).

Modelling conventions.
* JavaScript primitive values are `JSVal`; a number is written as the rational
  it denotes, with `NaN` as a separate value, and the arithmetic operations
  and `toFixed` work on its Number value, the nearest IEEE 754 double
  (`toDouble`), and return Number values. Comparisons and `===` read the
  rational itself, which is the Number value for every rational that is a
  double. Objects and arrays are not `JSVal`s: they are the typed records and
  lists below.
* The document store is explicit state (`Store`); every handler takes a `World`
  and returns the next one. A `World` also carries the trace of external calls
  (gateway calls, attempted store writes, e-mails handed to the transport), so
  "no write happened" is a statement about the trace, not only about equal
  contents.
* Everything the handlers read from outside is a field of `Env`: the
  `firebaseInitialized` flag, the gateway, the clock, the random source, and
  `fails`, which says for each call site of an external operation whether that
  operation rejects. An update of a document that does not exist rejects by
  itself; a rejection for any other reason (transport, permissions, a value
  the store refuses) is what `fails` stands for.
* Request bodies are well-typed: identifiers are strings when present, `items`
  is an array of objects when present. Document ids are opaque strings.
-/

set_option autoImplicit false

namespace UpgradesPayment

/-! ## JavaScript values -/

/-- JavaScript primitive values. -/
inductive JSVal where
  | undefined
  | null
  | bool (b : Bool)
  | num (q : ℚ)
  | nan
  | str (s : String)
  deriving DecidableEq

namespace JSVal

/-- ToBoolean: `undefined`, `null`, `false`, `0`, `NaN` and `""` are falsy. -/
def truthy : JSVal → Bool
  | undefined => false
  | null => false
  | bool b => b
  | num q => decide (q ≠ 0)
  | nan => false
  | str s => decide (s ≠ "")

/-- The operator `a || b`. -/
def or (a b : JSVal) : JSVal := if a.truthy then a else b

/-- The operator `a && b`. -/
def and (a b : JSVal) : JSVal := if a.truthy then b else a

/-- The operator `a === b` on primitives (`NaN` is not equal to itself). -/
def strictEq : JSVal → JSVal → Bool
  | undefined, undefined => true
  | null, null => true
  | bool a, bool b => decide (a = b)
  | num a, num b => decide (a = b)
  | str a, str b => decide (a = b)
  | _, _ => false

/-- A property that is absent reads as `undefined`. -/
def ofOptStr : Option String → JSVal
  | none => undefined
  | some s => str s

end JSVal

/-! ## Data model -/

/-- A cart / receipt line: `{activityId, title, price, quantity}`. An object that
has no `activityId` property has `activityId = undefined`. -/
structure Item where
  activityId : JSVal
  title : JSVal
  price : JSVal
  quantity : JSVal
  deriving DecidableEq

/-- A gateway line item (`session.line_items.data[i]`). -/
structure LineItem where
  description : Option String
  amount_total : Int
  quantity : Option Nat
  deriving DecidableEq

/-- The gateway's checkout session, as returned by `retrieve`. -/
structure StripeSession where
  id : String
  payment_status : String
  amount_total : Int
  metadata : Option (List (String × String))
  line_items : Option (List LineItem)
  payment_intent : Option String
  customer : Option String
  deriving DecidableEq

/-- The value `metadata.k`, where `metadata = session.metadata || {}`. -/
def StripeSession.metadataField (s : StripeSession) (k : String) : JSVal :=
  match s.metadata with
  | none => JSVal.undefined
  | some m => JSVal.ofOptStr (m.lookup k)

/-- A document of the `checkoutSessions` collection. -/
structure CheckoutDoc where
  userId : JSVal
  items : Option (List Item)
  status : JSVal
  paymentStatus : JSVal
  stripeSessionId : JSVal
  stripePaymentId : JSVal
  bookingId : JSVal
  updatedAt : Option Nat
  processedItems : Option (List Item)
  adminNotified : JSVal
  adminNotifiedAt : Option Nat
  customerEmail : JSVal
  customerName : JSVal
  receiptSent : JSVal
  receiptSentAt : Option Nat
  deriving DecidableEq

/-- A document of the `purchasedActivities` collection. -/
structure PurchasedItem where
  userId : JSVal
  activityId : JSVal
  title : JSVal
  price : JSVal
  quantity : JSVal
  purchaseDate : Nat
  checkoutSessionId : String
  stripeSessionId : String
  bookingId : JSVal
  status : String
  deriving DecidableEq

/-- A document of the `carts` collection. -/
structure CartDoc where
  items : List Item
  lastUpdated : Option Nat
  deriving DecidableEq

/-- A document of the `sentReceipts` collection. -/
structure SentReceipt where
  email : String
  name : JSVal
  sessionId : String
  bookingId : JSVal
  amount : JSVal
  originalAmount : JSVal
  discountAmount : JSVal
  couponCode : JSVal
  userId : JSVal
  sentAt : Nat
  deriving DecidableEq

/-- The booking data handed to the notification and receipt functions. -/
structure BookingData where
  packageId : JSVal
  packageName : JSVal
  originalAmount : JSVal
  amount : JSVal
  finalAmount : JSVal
  discountAmount : JSVal
  couponCode : JSVal
  userId : JSVal
  customerName : JSVal
  customerEmail : JSVal
  paymentDate : Nat
  timestamp : Nat
  bookingId : JSVal
  receiptNumber : JSVal
  paymentId : String
  deriving DecidableEq

/-- The document store: the four collections the server touches. -/
structure Store where
  checkoutSessions : List (String × CheckoutDoc)
  purchasedActivities : List PurchasedItem
  carts : List (String × CartDoc)
  sentReceipts : List SentReceipt
  deriving DecidableEq

/-- External calls made by the handlers, in the order they are made. A store
write is recorded when it is attempted, whether or not the store accepts it. -/
inductive Event where
  | gatewayCreate (bookingId : JSVal)
  | gatewayRetrieve (sessionId : String)
  | storeUpdate (collection : String) (docId : String)
  | storeBatchCommit (collection : String) (count : Nat)
  | storeAdd (collection : String)
  | adminNotification (booking : BookingData) (items : List Item)
  | receiptEmail (recipient : String) (html : String) (booking : BookingData)
  deriving DecidableEq

/-- Is this event a write to the document store? -/
def Event.isStoreWrite : Event → Bool
  | Event.storeUpdate _ _ => true
  | Event.storeBatchCommit _ _ => true
  | Event.storeAdd _ => true
  | _ => false

/-- Is this event an invocation of `sendAdminNotification`? -/
def Event.isAdminNotification : Event → Bool
  | Event.adminNotification _ _ => true
  | _ => false

/-- Store contents plus the trace of external calls so far. -/
structure World where
  store : Store
  trace : List Event
  deriving DecidableEq

/-- Append an event to the trace. -/
def World.emit (w : World) (e : Event) : World :=
  { w with trace := w.trace ++ [e] }

/-- The call sites of external operations that may reject. -/
inductive Op where
  | pspGet
  | pspUpdateSession
  | pspCommit
  | pspClearCart
  | vpGetItems
  | vpNotify
  | vpStoreProcessed
  | ccUpdateSession
  | srGetItems
  | srSend
  | srUpdateSession
  | srAddReceipt
  deriving DecidableEq

/-- Everything a handler reads from outside the store. -/
structure Env where
  /-- The process-wide flag `firebaseInitialized`. -/
  firebaseInitialized : Bool
  /-- The gateway call `stripe.checkout.sessions.retrieve(id)`; `none` when it throws. -/
  retrieve : String → Option StripeSession
  /-- The gateway call `stripe.checkout.sessions.create(...)`: the new session's
  `id` and `url`; `none` when it throws. -/
  create : Option (String × Option String)
  /-- The text `Math.random().toString(36).substring(2, 8).toUpperCase()`. -/
  randomCode : String
  /-- The clock (`Date.now()`, server timestamps). -/
  now : Nat
  /-- Which external operations reject on this call. -/
  fails : Op → Bool
  /-- The built-in `parseFloat` on strings. -/
  parseFloat : String → JSVal
  /-- The renderer `generateReceiptHtml(bookingData, items)`; `none` when it throws. -/
  generateReceiptHtml : BookingData → List Item → Option String

/-- How a call ended: normally, or by throwing. -/
inductive Outcome where
  | ok
  | threw (message : String)
  deriving DecidableEq

/-! ## Store operations -/

/-- The operation `collection(c).doc(id).get()`: the document, if it exists. -/
def getDoc {α : Type} (c : List (String × α)) (id : String) : Option α :=
  c.lookup id

/-- The field-merging operation `collection(c).doc(id).update(fields)`, on the contents. -/
def updateDoc {α : Type} (c : List (String × α)) (id : String) (f : α → α) :
    List (String × α) :=
  c.map (fun p => if p.1 = id then (p.1, f p.2) else p)

/-- The fields written by the status update of `processSuccessfulPayment`. -/
def markCompleted (env : Env) (stripeSession : StripeSession) (bookingId : JSVal)
    (d : CheckoutDoc) : CheckoutDoc :=
  { d with
    status := JSVal.str "completed"
    paymentStatus := JSVal.str "paid"
    stripePaymentId := JSVal.ofOptStr stripeSession.payment_intent
    bookingId := bookingId
    updatedAt := some env.now }

/-- The record set in the batch for one item of the checkout session. -/
def purchaseOf (env : Env) (userId : JSVal) (checkoutSessionId : String)
    (stripeSession : StripeSession) (bookingId : JSVal) (item : Item) : PurchasedItem :=
  { userId := userId
    activityId := item.activityId
    title := item.title
    price := item.price
    quantity := item.quantity
    purchaseDate := env.now
    checkoutSessionId := checkoutSessionId
    stripeSessionId := stripeSession.id
    bookingId := bookingId
    status := "active" }

/-- The guard `checkoutData.status === 'completed' && checkoutData.paymentStatus === 'paid'`. -/
def alreadyProcessed (d : CheckoutDoc) : Bool :=
  JSVal.strictEq d.status (JSVal.str "completed") &&
    JSVal.strictEq d.paymentStatus (JSVal.str "paid")

/-- The cart update of `processSuccessfulPayment`:
`collection('carts').doc(userId).update({items: [], lastUpdated})`. Building the
document reference throws unless `userId` is a non-empty string; the update
rejects when the store fails or the cart document does not exist. -/
def clearCart (env : Env) (userId : JSVal) (w : World) : World × Outcome :=
  match userId with
  | JSVal.str u =>
    if u = "" then (w, Outcome.threw "invalid document path")
    else
      let w1 := w.emit (Event.storeUpdate "carts" u)
      if env.fails Op.pspClearCart then (w1, Outcome.threw "cart update failed")
      else
        match getDoc w1.store.carts u with
        | none => (w1, Outcome.threw "no document to update")
        | some _ =>
          ({ w1 with store := { w1.store with
              carts := updateDoc w1.store.carts u
                (fun c => { c with items := [], lastUpdated := some env.now }) } },
            Outcome.ok)
  | _ => (w, Outcome.threw "invalid document path")

/-- The function `processSuccessfulPayment(checkoutSessionId, stripeSession, bookingId)`. -/
def processSuccessfulPayment (env : Env) (checkoutSessionId : String)
    (stripeSession : StripeSession) (bookingId : JSVal) (w : World) : World × Outcome :=
  if !env.firebaseInitialized then (w, Outcome.threw "Firebase not initialized")
  else if env.fails Op.pspGet then (w, Outcome.threw "checkout session read failed")
  else
    match getDoc w.store.checkoutSessions checkoutSessionId with
    | none => (w, Outcome.threw ("Checkout session " ++ checkoutSessionId ++ " not found"))
    | some checkoutData =>
      if alreadyProcessed checkoutData then (w, Outcome.ok)
      else
        let w1 := w.emit (Event.storeUpdate "checkoutSessions" checkoutSessionId)
        if env.fails Op.pspUpdateSession then (w1, Outcome.threw "checkout session update failed")
        else
          let w2 : World := { w1 with store := { w1.store with
            checkoutSessions := updateDoc w1.store.checkoutSessions checkoutSessionId
              (markCompleted env stripeSession bookingId) } }
          let userId := checkoutData.userId
          match checkoutData.items with
          | some (i :: rest) =>
            let batch := (i :: rest).map
              (purchaseOf env userId checkoutSessionId stripeSession bookingId)
            let w3 := w2.emit (Event.storeBatchCommit "purchasedActivities" batch.length)
            if env.fails Op.pspCommit then (w3, Outcome.threw "batch commit failed")
            else
              let w4 : World := { w3 with store := { w3.store with
                purchasedActivities := w3.store.purchasedActivities ++ batch } }
              clearCart env userId w4
          | _ => (w2, Outcome.ok)

/-! ## `/verify-payment` -/

/-- The object built from one gateway line item:
`{title: item.description || 'Safari Package', price: item.amount_total / 100,
quantity: item.quantity || 1}`. -/
def purchasedItemOf (li : LineItem) : Item :=
  { activityId := JSVal.undefined
    title := JSVal.or (JSVal.ofOptStr li.description) (JSVal.str "Safari Package")
    price := JSVal.num ((li.amount_total : ℚ) / 100)
    quantity :=
      JSVal.or (match li.quantity with
        | none => JSVal.null
        | some n => JSVal.num (n : ℚ)) (JSVal.num 1) }

/-- The list `purchasedItems` extracted from `session.line_items.data`. -/
def purchasedItemsOf (session : StripeSession) : List Item :=
  match session.line_items with
  | none => []
  | some data => data.map purchasedItemOf

/-- The test `purchasedItems.some(item => item.title === fbItem.title &&
item.price === fbItem.price)`. -/
def itemExists (purchasedItems : List Item) (fbItem : Item) : Bool :=
  purchasedItems.any (fun item =>
    JSVal.strictEq item.title fbItem.title && JSVal.strictEq item.price fbItem.price)

/-- The object pushed for a store item:
`{title: fbItem.title, price: fbItem.price, quantity: fbItem.quantity || 1}`. -/
def appendedItemOf (fbItem : Item) : Item :=
  { activityId := JSVal.undefined
    title := fbItem.title
    price := fbItem.price
    quantity := JSVal.or fbItem.quantity (JSVal.num 1) }

/-- The merge loop of `/verify-payment`: `allItems` starts as a copy of
`purchasedItems`; each store item that does not exist in `purchasedItems` is pushed. -/
def mergeItems (purchasedItems firebaseItems : List Item) : List Item :=
  firebaseItems.foldl
    (fun allItems fbItem =>
      if !itemExists purchasedItems fbItem then allItems ++ [appendedItemOf fbItem]
      else allItems)
    purchasedItems

/-- The call `parseFloat(v)`: a string is parsed, a number is returned as it is,
anything else gives `NaN`. -/
def parseFloatOf (env : Env) : JSVal → JSVal
  | JSVal.str s => env.parseFloat s
  | JSVal.num q => JSVal.num q
  | _ => JSVal.nan

/-- The value `session.amount_total / 100`. -/
def finalAmountOf (session : StripeSession) : JSVal :=
  JSVal.num ((session.amount_total : ℚ) / 100)

/-- The value `parseFloat(metadata.originalAmount || (session.amount_total / 100))`. -/
def originalAmountOf (env : Env) (session : StripeSession) : JSVal :=
  parseFloatOf env (JSVal.or (session.metadataField "originalAmount") (finalAmountOf session))

/-- The value `parseFloat(metadata.discountAmount || 0)`. -/
def discountAmountOf (env : Env) (session : StripeSession) : JSVal :=
  parseFloatOf env (JSVal.or (session.metadataField "discountAmount") (JSVal.num 0))

/-- The value `metadata.couponCode !== 'none' ? metadata.couponCode : null`. -/
def couponCodeOf (session : StripeSession) : JSVal :=
  if !JSVal.strictEq (session.metadataField "couponCode") (JSVal.str "none") then
    session.metadataField "couponCode"
  else JSVal.null

/-- The freshly generated identifier `KOB-` followed by the random code. -/
def generatedBookingId (env : Env) : JSVal :=
  JSVal.str ("KOB-" ++ env.randomCode)

/-- The booking id of `/verify-payment`: `metadata.bookingId || KOB-<random>`. -/
def verifyBookingId (env : Env) (session : StripeSession) : JSVal :=
  JSVal.or (session.metadataField "bookingId") (generatedBookingId env)

/-- The value `requestId || metadata.checkoutSessionId`. -/
def savedCheckoutIdOf (requestId : Option String) (session : StripeSession) : JSVal :=
  JSVal.or (JSVal.ofOptStr requestId) (session.metadataField "checkoutSessionId")

/-- The document id behind a truthy `savedCheckoutId`. -/
def docIdOf : JSVal → Option String
  | JSVal.str s => if s = "" then none else some s
  | _ => none

/-- The body of `POST /verify-payment`. -/
structure VerifyRequest where
  sessionId : Option String
  checkoutSessionId : Option String
  deriving DecidableEq

/-- The JSON answered on the paid path. -/
structure PaidResponse where
  amount : JSVal
  originalAmount : JSVal
  discountAmount : JSVal
  finalAmount : JSVal
  couponCode : JSVal
  customerId : JSVal
  bookingId : JSVal
  items : List Item
  metadata : Option (List (String × String))
  firebaseProcessed : JSVal
  adminNotified : Bool
  deriving DecidableEq

/-- The responses of `/verify-payment`. -/
inductive VerifyResponse where
  | badRequest (error : String)
  | serverError
  | notPaid (status : String) (metadata : Option (List (String × String)))
  | paid (r : PaidResponse)
  deriving DecidableEq

/-- The `bookingData` object built by `/verify-payment`. -/
def verifyBookingData (env : Env) (sessionId : String) (session : StripeSession) : BookingData :=
  { packageId := JSVal.or (session.metadataField "packageId") (JSVal.str "unknown")
    packageName := JSVal.or (session.metadataField "packageName") (JSVal.str "Safari Package")
    originalAmount := originalAmountOf env session
    amount := finalAmountOf session
    finalAmount := finalAmountOf session
    discountAmount := discountAmountOf env session
    couponCode := couponCodeOf session
    userId := session.metadataField "userId"
    customerName := JSVal.undefined
    customerEmail := JSVal.undefined
    paymentDate := env.now
    timestamp := env.now
    bookingId := verifyBookingId env session
    receiptNumber := verifyBookingId env session
    paymentId := sessionId }

/-- The first store block of the paid path: `processSuccessfulPayment` inside
`try`/`catch`, run when `savedCheckoutId && firebaseInitialized`. -/
def verifyProcess (env : Env) (savedCheckoutId : JSVal) (session : StripeSession)
    (w : World) : World :=
  match docIdOf savedCheckoutId with
  | some cid =>
    if env.firebaseInitialized then
      (processSuccessfulPayment env cid session (verifyBookingId env session) w).1
    else w
  | none => w

/-- The second store block: read the session's `items` (`[]` on any failure). -/
def verifyFirebaseItems (env : Env) (savedCheckoutId : JSVal) (w : World) : List Item :=
  match docIdOf savedCheckoutId with
  | some cid =>
    if env.firebaseInitialized then
      if env.fails Op.vpGetItems then []
      else
        match getDoc w.store.checkoutSessions cid with
        | some checkoutData =>
          match checkoutData.items with
          | some items => items
          | none => []
        | none => []
    else []
  | none => []

/-- The last store block: write `processedItems` and `adminNotified` inside
`try`/`catch`. -/
def verifyStoreProcessed (env : Env) (savedCheckoutId : JSVal) (allItems : List Item)
    (w : World) : World :=
  match docIdOf savedCheckoutId with
  | some cid =>
    if env.firebaseInitialized then
      let w1 := w.emit (Event.storeUpdate "checkoutSessions" cid)
      if env.fails Op.vpStoreProcessed then w1
      else
        { w1 with store := { w1.store with
            checkoutSessions := updateDoc w1.store.checkoutSessions cid
              (fun d => { d with
                processedItems := some allItems
                adminNotified := JSVal.bool true
                adminNotifiedAt := some env.now }) } }
    else w
  | none => w

/-- The call `sendAdminNotification(bookingData, allItems)`: the invocation is
recorded, and the call rejects when the dispatcher fails. -/
def notifyAdmin (env : Env) (bookingData : BookingData) (allItems : List Item)
    (w : World) : World × Outcome :=
  let w1 := w.emit (Event.adminNotification bookingData allItems)
  if env.fails Op.vpNotify then (w1, Outcome.threw "admin notification failed")
  else (w1, Outcome.ok)

/-- The paid branch of `/verify-payment`. The admin notification is invoked
after the merge, inside `try`/`catch`: its outcome is dropped. -/
def verifyPaid (env : Env) (sessionId : String) (requestId : Option String)
    (session : StripeSession) (w : World) : World × VerifyResponse :=
  let savedCheckoutId := savedCheckoutIdOf requestId session
  let purchasedItems := purchasedItemsOf session
  let w1 := verifyProcess env savedCheckoutId session w
  let firebaseItems := verifyFirebaseItems env savedCheckoutId w1
  let allItems := mergeItems purchasedItems firebaseItems
  let bookingData := verifyBookingData env sessionId session
  let w2 := (notifyAdmin env bookingData allItems w1).1
  let w3 := verifyStoreProcessed env savedCheckoutId allItems w2
  (w3, VerifyResponse.paid
    { amount := finalAmountOf session
      originalAmount := originalAmountOf env session
      discountAmount := discountAmountOf env session
      finalAmount := finalAmountOf session
      couponCode := couponCodeOf session
      customerId := JSVal.ofOptStr session.customer
      bookingId := verifyBookingId env session
      items := allItems
      metadata := session.metadata
      firebaseProcessed := JSVal.and savedCheckoutId (JSVal.bool env.firebaseInitialized)
      adminNotified := true })

/-- The handler of `POST /verify-payment`. -/
def verifyPayment (env : Env) (req : VerifyRequest) (w : World) : World × VerifyResponse :=
  match docIdOf (JSVal.ofOptStr req.sessionId) with
  | none => (w, VerifyResponse.badRequest "Session ID is required")
  | some sessionId =>
    let w0 := w.emit (Event.gatewayRetrieve sessionId)
    match env.retrieve sessionId with
    | none => (w0, VerifyResponse.serverError)
    | some session =>
      if session.payment_status = "paid" then
        verifyPaid env sessionId req.checkoutSessionId session w0
      else (w0, VerifyResponse.notPaid session.payment_status session.metadata)

/-! ## `/send-receipt-email` -/

/-- The body of `POST /send-receipt-email`. -/
structure ReceiptRequest where
  email : Option String
  name : Option String
  sessionId : Option String
  checkoutId : Option String
  deriving DecidableEq

/-- The responses of `/send-receipt-email`: 400 with a message, 500, or
`{success: true}`. -/
inductive ReceiptResponse where
  | badRequest (error : String)
  | serverError
  | success
  deriving DecidableEq

/-- The booking id of `/send-receipt-email`: `metadata.bookingId ||
(savedCheckoutId ? savedCheckoutId.substring(0, 8) : null) || KOB-<random>`. -/
def receiptBookingId (env : Env) (savedCheckoutId : JSVal) (session : StripeSession) : JSVal :=
  JSVal.or
    (JSVal.or (session.metadataField "bookingId")
      (match docIdOf savedCheckoutId with
        | some cid => JSVal.str (cid.take 8)
        | none => JSVal.null))
    (generatedBookingId env)

/-- The supplementary items read by `/send-receipt-email`: `processedItems` when
the session has them, else its `items`, and `[]` on any failure. -/
def receiptFirebaseItems (env : Env) (savedCheckoutId : JSVal) (w : World) : List Item :=
  match docIdOf savedCheckoutId with
  | some cid =>
    if env.firebaseInitialized then
      if env.fails Op.srGetItems then []
      else
        match getDoc w.store.checkoutSessions cid with
        | some checkoutData =>
          match checkoutData.processedItems with
          | some processed => processed
          | none =>
            match checkoutData.items with
            | some items => items
            | none => []
        | none => []
    else []
  | none => []

/-- The `bookingData` object built by `/send-receipt-email`. -/
def receiptBookingData (env : Env) (email : String) (name : Option String) (sessionId : String)
    (savedCheckoutId : JSVal) (session : StripeSession) : BookingData :=
  { packageId := JSVal.or (session.metadataField "packageId") (JSVal.str "unknown")
    packageName :=
      JSVal.or (JSVal.or (session.metadataField "packageName")
        (session.metadataField "description")) (JSVal.str "Safari Package")
    originalAmount := originalAmountOf env session
    amount := finalAmountOf session
    finalAmount := finalAmountOf session
    discountAmount := discountAmountOf env session
    couponCode := couponCodeOf session
    userId := session.metadataField "userId"
    customerName := JSVal.or (JSVal.ofOptStr name) (JSVal.str "Valued Customer")
    customerEmail := JSVal.str email
    paymentDate := env.now
    timestamp := env.now
    bookingId := receiptBookingId env savedCheckoutId session
    receiptNumber := receiptBookingId env savedCheckoutId session
    paymentId := sessionId }

/-- The store block that follows a delivered receipt, inside `try`/`catch`: the
session update (when there is a `savedCheckoutId`), then the `sentReceipts`
record. A rejected update skips the record. -/
def saveReceipt (env : Env) (email : String) (name : Option String) (sessionId : String)
    (savedCheckoutId : JSVal) (booking : BookingData) (w : World) : World :=
  let addReceipt (w : World) : World :=
    let w1 := w.emit (Event.storeAdd "sentReceipts")
    if env.fails Op.srAddReceipt then w1
    else
      { w1 with store := { w1.store with
          sentReceipts := w1.store.sentReceipts ++
            [{ email := email
               name := JSVal.or (JSVal.ofOptStr name) JSVal.null
               sessionId := sessionId
               bookingId := booking.bookingId
               amount := booking.finalAmount
               originalAmount := booking.originalAmount
               discountAmount := booking.discountAmount
               couponCode := booking.couponCode
               userId := booking.userId
               sentAt := env.now }] } }
  match docIdOf savedCheckoutId with
  | some cid =>
    let w1 := w.emit (Event.storeUpdate "checkoutSessions" cid)
    if env.fails Op.srUpdateSession then w1
    else
      match getDoc w1.store.checkoutSessions cid with
      | none => w1
      | some _ =>
        addReceipt { w1 with store := { w1.store with
          checkoutSessions := updateDoc w1.store.checkoutSessions cid
            (fun d => { d with
              customerEmail := JSVal.str email
              customerName := JSVal.or (JSVal.ofOptStr name) JSVal.null
              receiptSent := JSVal.bool true
              receiptSentAt := some env.now }) } }
  | none => addReceipt w

/-- The part of `/send-receipt-email` that follows the paid check. -/
def sendReceiptPaid (env : Env) (email : String) (name : Option String) (sessionId : String)
    (checkoutId : Option String) (session : StripeSession) (w : World) :
    World × ReceiptResponse :=
  let savedCheckoutId := savedCheckoutIdOf checkoutId session
  let purchasedItems := purchasedItemsOf session
  let firebaseItems := receiptFirebaseItems env savedCheckoutId w
  let allItems := if purchasedItems.length > 0 then purchasedItems else firebaseItems
  let bookingData := receiptBookingData env email name sessionId savedCheckoutId session
  match env.generateReceiptHtml bookingData allItems with
  | none => (w, ReceiptResponse.serverError)
  | some receiptHtml =>
    let w1 := w.emit (Event.receiptEmail email receiptHtml bookingData)
    if env.fails Op.srSend then (w1, ReceiptResponse.serverError)
    else if env.firebaseInitialized then
      (saveReceipt env email name sessionId savedCheckoutId bookingData w1,
        ReceiptResponse.success)
    else (w1, ReceiptResponse.success)

/-- The handler of `POST /send-receipt-email`. -/
def sendReceiptEmailRoute (env : Env) (req : ReceiptRequest) (w : World) :
    World × ReceiptResponse :=
  match docIdOf (JSVal.ofOptStr req.email), docIdOf (JSVal.ofOptStr req.sessionId) with
  | some email, some sessionId =>
    let w0 := w.emit (Event.gatewayRetrieve sessionId)
    match env.retrieve sessionId with
    | none => (w0, ReceiptResponse.serverError)
    | some session =>
      if session.payment_status ≠ "paid" then
        (w0, ReceiptResponse.badRequest "Payment has not been completed")
      else sendReceiptPaid env email req.name sessionId req.checkoutId session w0
  | _, _ => (w, ReceiptResponse.badRequest "Email and session ID are required")

/-! ## `/create-checkout-session` and `/create-and-redirect-checkout` -/

/-- The fields read from the request of the two checkout-creation routes. -/
structure CheckoutRequest where
  userId : JSVal
  items : Option (List Item)
  amount : JSVal
  originalAmount : JSVal
  discountAmount : JSVal
  couponCode : JSVal
  type : JSVal
  checkoutSessionId : Option String
  deriving DecidableEq

/-- The three validation failures shared by the two routes. -/
inductive CheckoutInvalid where
  | missingUserId
  | missingAmount
  | missingItems
  deriving DecidableEq

/-- The test `items && Array.isArray(items) && items.length > 0`. -/
def hasItems : Option (List Item) → Bool
  | some (_ :: _) => true
  | _ => false

/-- The validation at the head of both routes: `!userId`; then, when `amount` is
`undefined` or `null` and there are no items to compute it from, the amount is
missing; then the items must be a non-empty array. -/
def validateCheckout (req : CheckoutRequest) : Option CheckoutInvalid :=
  if !req.userId.truthy then some CheckoutInvalid.missingUserId
  else if (req.amount = JSVal.undefined ∨ req.amount = JSVal.null) ∧ hasItems req.items = false then
    some CheckoutInvalid.missingAmount
  else if hasItems req.items = false then some CheckoutInvalid.missingItems
  else none

/-- The store block of both routes, inside `try`/`catch`, run when
`checkoutSessionId && firebaseInitialized`: the update writes `stripeSessionId`,
`status: 'awaiting_payment'`, `bookingId` and `updatedAt`. -/
def recordGatewaySession (env : Env) (checkoutSessionId : Option String) (stripeId : String)
    (bookingId : JSVal) (w : World) : World :=
  match docIdOf (JSVal.ofOptStr checkoutSessionId) with
  | some cid =>
    if env.firebaseInitialized then
      let w1 := w.emit (Event.storeUpdate "checkoutSessions" cid)
      if env.fails Op.ccUpdateSession then w1
      else
        { w1 with store := { w1.store with
            checkoutSessions := updateDoc w1.store.checkoutSessions cid
              (fun d => { d with
                stripeSessionId := JSVal.str stripeId
                status := JSVal.str "awaiting_payment"
                bookingId := bookingId
                updatedAt := some env.now }) } }
    else w
  | none => w

/-- The responses of `/create-checkout-session`: 400 with a message, 500, or
200 with `{id, timestamp, bookingId, url}`. -/
inductive CheckoutResponse where
  | badRequest (error : String)
  | serverError
  | created (id : String) (timestamp : Nat) (bookingId : JSVal) (url : Option String)
  deriving DecidableEq

/-- The handler of `POST /create-checkout-session`, as far as the store and the
response go: validation, the generated booking id, the gateway call, the store
update. -/
def createCheckoutSession (env : Env) (req : CheckoutRequest) (w : World) :
    World × CheckoutResponse :=
  match validateCheckout req with
  | some CheckoutInvalid.missingUserId => (w, CheckoutResponse.badRequest "Missing userId")
  | some CheckoutInvalid.missingAmount => (w, CheckoutResponse.badRequest "Missing amount")
  | some CheckoutInvalid.missingItems => (w, CheckoutResponse.badRequest "Missing items")
  | none =>
    let bookingId := generatedBookingId env
    let w0 := w.emit (Event.gatewayCreate bookingId)
    match env.create with
    | none => (w0, CheckoutResponse.serverError)
    | some (id, url) =>
      (recordGatewaySession env req.checkoutSessionId id bookingId w0,
        CheckoutResponse.created id env.now bookingId url)

/-- The responses of `/create-and-redirect-checkout`: 400 with a text, 500, or a
303 redirect to the gateway's page. -/
inductive RedirectResponse where
  | badRequest (text : String)
  | serverError
  | redirect (url : String)
  deriving DecidableEq

/-- The handler of `GET /create-and-redirect-checkout`; `data` is the parsed
`data` query parameter, `none` when it is not valid JSON. -/
def createAndRedirectCheckout (env : Env) (data : Option CheckoutRequest) (w : World) :
    World × RedirectResponse :=
  match data with
  | none => (w, RedirectResponse.badRequest "Invalid request data")
  | some req =>
    match validateCheckout req with
    | some CheckoutInvalid.missingUserId => (w, RedirectResponse.badRequest "Missing userId")
    | some CheckoutInvalid.missingAmount =>
      (w, RedirectResponse.badRequest "Cannot determine amount")
    | some CheckoutInvalid.missingItems => (w, RedirectResponse.badRequest "Missing items")
    | none =>
      let bookingId := generatedBookingId env
      let w0 := w.emit (Event.gatewayCreate bookingId)
      match env.create with
      | none => (w0, RedirectResponse.serverError)
      | some (id, url) =>
        let w1 := recordGatewaySession env req.checkoutSessionId id bookingId w0
        match docIdOf (JSVal.ofOptStr url) with
        | some u => (w1, RedirectResponse.redirect u)
        | none => (w1, RedirectResponse.serverError)

/-- Does this checkout-creation request reach the store update of session `cid`
and have it accepted? It does when the request is valid, the gateway call
succeeds, the request names `cid`, the store is connected and the update is not
rejected. -/
def resetsStatus (env : Env) (req : CheckoutRequest) (cid : String) : Bool :=
  decide (validateCheckout req = none) && env.create.isSome &&
    decide (docIdOf (JSVal.ofOptStr req.checkoutSessionId) = some cid) &&
    env.firebaseInitialized && !env.fails Op.ccUpdateSession

/-- Do two items have the same title and the same price? -/
def sameKey (a b : Item) : Bool :=
  decide (a.title = b.title ∧ a.price = b.price)

/-- The `bookingId` of a response, when it is the paid response. -/
def VerifyResponse.bookingId : VerifyResponse → Option JSVal
  | VerifyResponse.paid r => some r.bookingId
  | _ => none

/-! ## Store contents after each write -/

/-- The contents of the store after the cart of `u` has been cleared. -/
def cartCleared (env : Env) (u : String) (st : Store) : Store :=
  { st with
    carts := updateDoc st.carts u (fun c => { c with items := [], lastUpdated := some env.now }) }

/-- The contents of the store after the session `cid` has been marked completed. -/
def sessionMarked (env : Env) (cid : String) (s : StripeSession) (b : JSVal) (st : Store) :
    Store :=
  { st with checkoutSessions := updateDoc st.checkoutSessions cid (markCompleted env s b) }

/-- The contents of the store after the batch for `items` has been committed. -/
def purchasesAdded (env : Env) (userId : JSVal) (cid : String) (s : StripeSession) (b : JSVal)
    (items : List Item) (st : Store) : Store :=
  { st with
    purchasedActivities := st.purchasedActivities ++ items.map (purchaseOf env userId cid s b) }

/-- The items of a session document, `[]` when it has none. -/
def itemsOf (d : CheckoutDoc) : List Item :=
  match d.items with
  | some items => items
  | none => []

/-- Every session that is `completed` in `c` is still there and `completed` in `c'`. -/
def StaysCompleted (c c' : List (String × CheckoutDoc)) : Prop :=
  ∀ k d, getDoc c k = some d → d.status = JSVal.str "completed" →
    ∃ d', getDoc c' k = some d' ∧ d'.status = JSVal.str "completed"

/-! ## JavaScript operations of the receipt generator and of the checkout metadata -/

/-- The operations of the JavaScript runtime and of the libraries that the
receipt generator and the checkout routes call, taken as given. -/
structure Runtime where
  /-- ToString of a finite number (`String(x)`, `x.toString()`, interpolation). -/
  numberToString : ℚ → String
  /-- ToNumber of a string: the number it denotes, `NaN` when it denotes none. -/
  stringToNumber : String → JSVal
  /-- The text `new Date(v).toLocaleDateString('en-GB', ...)` with day, month,
  year, hour and minute. -/
  formatPaymentDate : JSVal → String
  /-- The text `new Date(v).toLocaleDateString('en-GB', ...)` with day, month and
  year. -/
  formatBookingDate : JSVal → String
  /-- The clock `Date.now()`. -/
  now : Nat
  /-- The year `new Date().getFullYear()`. -/
  currentYear : Nat
  /-- The text `Math.random().toString(36).substring(2, 8).toUpperCase()`. -/
  randomCode : String
  /-- The renderer `QRCode.toDataURL(text)`; `none` when it rejects. -/
  toDataURL : String → Option String
  /-- The built-in `encodeURIComponent`. -/
  encodeURIComponent : String → String
  /-- The JSON text of a string, quotes and escapes included. -/
  quoteJSONString : String → String

/-- ToNumber: the number a value coerces to, `NaN` when there is none. -/
def toNumber (rt : Runtime) : JSVal → JSVal
  | JSVal.undefined => JSVal.nan
  | JSVal.null => JSVal.num 0
  | JSVal.bool b => JSVal.num (if b then 1 else 0)
  | JSVal.num q => JSVal.num q
  | JSVal.nan => JSVal.nan
  | JSVal.str s =>
    match rt.stringToNumber s with
    | JSVal.num q => JSVal.num q
    | _ => JSVal.nan

/-- The comparison `v > 0`. -/
def gtZero (rt : Runtime) (v : JSVal) : Bool :=
  match toNumber rt v with
  | JSVal.num q => decide (0 < q)
  | _ => false

/-- The number of binary digits of `n`, counted in at most `count` halvings. -/
def binaryDigits : Nat → Nat → Nat
  | 0, _ => 0
  | count + 1, n => if n = 0 then 0 else binaryDigits count (n / 2) + 1

/-- The number of binary digits of `n`: 0 for 0, else `⌊log₂ n⌋ + 1`. -/
def bitLength (n : Nat) : Nat := binaryDigits n n

/-- The quotient `a / b` rounded to the nearest integer, a tie going to the even
one. -/
def divRoundEven (a b : Nat) : Nat :=
  if 2 * (a % b) < b then a / b
  else if b < 2 * (a % b) then a / b + 1
  else if (a / b) % 2 = 0 then a / b
  else a / b + 1

/-- The binary exponent of the double nearest to `n / d`, for positive `n` and
`d`: with `L = ⌊log₂ (n / d)⌋` it is `L - 52`, so that the significand has 53
binary digits, and `-1074` in the subnormal range. `L` is `k` or `k - 1` for
`k` the difference of the bit lengths. -/
def doubleExponent (n d : Nat) : Int :=
  let k : Int := (bitLength n : Int) - (bitLength d : Int)
  let floorLog : Int := if d * 2 ^ k.toNat ≤ n * 2 ^ (-k).toNat then k else k - 1
  max (floorLog - 52) (-1074)

/-- The Number value of the ratio `n / d`: the IEEE 754 double nearest to it,
a tie going to the even significand, which is what an arithmetic operation
with this exact result returns and what a numeric literal denotes. With `e`
the binary exponent, the significand is `m = n / (d * 2 ^ e)` rounded, and the
value is `m * 2 ^ e`. From `2 ^ 1024` on the value is an infinity; no infinity
is a `JSVal`, so `NaN` stands for it, as for a zero divisor. -/
def roundRatio (n : Int) (d : Nat) : JSVal :=
  if n = 0 ∨ d = 0 then (if d = 0 then JSVal.nan else JSVal.num 0)
  else
    let e := doubleExponent n.natAbs d
    let m := divRoundEven (n.natAbs * 2 ^ (-e).toNat) (d * 2 ^ e.toNat)
    if 971 < e ∨ (e = 971 ∧ m = 2 ^ 53) then JSVal.nan
    else
      JSVal.num (mkRat ((if n < 0 then -1 else 1) * (m * 2 ^ e.toNat : Nat)) (2 ^ (-e).toNat))

/-- The Number value of `q`: the double that `JSVal.num q` stands for in
arithmetic and in `toFixed`. -/
def toDouble (q : ℚ) : JSVal :=
  roundRatio q.num q.den

/-- The product `a * b`: the exact product of the two Number values, rounded to
the nearest double. -/
def times (rt : Runtime) (a b : JSVal) : JSVal :=
  match toNumber rt a, toNumber rt b with
  | JSVal.num x, JSVal.num y =>
    match toDouble x, toDouble y with
    | JSVal.num x, JSVal.num y => roundRatio (x.num * y.num) (x.den * y.den)
    | _, _ => JSVal.nan
  | _, _ => JSVal.nan

/-- The quotient `a / b`: the exact quotient of the two Number values, rounded
to the nearest double. A zero divisor gives an infinity or `NaN`; neither
infinity is a `JSVal`, so `NaN` stands for both (the receipt generator divides
by a positive number only). -/
def divide (rt : Runtime) (a b : JSVal) : JSVal :=
  match toNumber rt a, toNumber rt b with
  | JSVal.num x, JSVal.num y =>
    match toDouble x, toDouble y with
    | JSVal.num x, JSVal.num y =>
      if y = 0 then JSVal.nan
      else roundRatio (x.num * y.den * (if y.num < 0 then -1 else 1)) (x.den * y.num.natAbs)
    | _, _ => JSVal.nan
  | _, _ => JSVal.nan

/-- The sum `a + b` of two numbers: the exact sum of the two Number values,
rounded to the nearest double. -/
def plus (a b : JSVal) : JSVal :=
  match a, b with
  | JSVal.num x, JSVal.num y =>
    match toDouble x, toDouble y with
    | JSVal.num x, JSVal.num y => roundRatio (x.num * y.den + y.num * x.den) (x.den * y.den)
    | _, _ => JSVal.nan
  | _, _ => JSVal.nan

/-- ToString, as in a template interpolation or `v.toString()`. -/
def display (rt : Runtime) : JSVal → String
  | JSVal.undefined => "undefined"
  | JSVal.null => "null"
  | JSVal.bool b => if b then "true" else "false"
  | JSVal.num q => rt.numberToString q
  | JSVal.nan => "NaN"
  | JSVal.str s => s

/-- The test `typeof v === 'number'`. -/
def isNumber : JSVal → Bool
  | JSVal.num _ => true
  | JSVal.nan => true
  | _ => false

/-- The decimal digits of `n`, padded with zeros on the left to `width`. -/
def padDigits (width n : Nat) : String :=
  String.mk (List.replicate (width - (Nat.repr n).length) '0') ++ Nat.repr n

/-- The text `x.toFixed(digits)` of a finite number: the sign, then the integer
`n` nearest to `|y| * 10 ^ digits` (the larger one on a tie) written with
`digits` fractional digits, where `y` is the Number value of `x`. From
`|y| = 10 ^ 21` on, the text is ToString of `y`. The number is `y.num / y.den`,
and the arithmetic is done on these two. -/
def toFixed (rt : Runtime) (x : ℚ) (digits : Nat) : String :=
  match toDouble x with
  | JSVal.num y =>
    if 10 ^ 21 * y.den ≤ y.num.natAbs then rt.numberToString y
    else
      let n : Nat := (2 * y.num.natAbs * 10 ^ digits + y.den) / (2 * y.den)
      let whole := Nat.repr (n / 10 ^ digits)
      let body :=
        if digits = 0 then whole else whole ++ "." ++ padDigits digits (n % 10 ^ digits)
      if y.num < 0 then "-" ++ body else body
  | _ => rt.numberToString x

/-- The call `v.toFixed(digits)`: defined on numbers; on any other value there is
no such method and the call throws (`none`). -/
def callToFixed (rt : Runtime) (v : JSVal) (digits : Nat) : Option String :=
  match v with
  | JSVal.num q => some (toFixed rt q digits)
  | JSVal.nan => some "NaN"
  | _ => none

/-- The JSON text of a property value; `none` for `undefined`, whose property
`JSON.stringify` leaves out. -/
def jsonValue (rt : Runtime) : JSVal → Option String
  | JSVal.undefined => none
  | JSVal.null => some "null"
  | JSVal.bool b => some (if b then "true" else "false")
  | JSVal.num q => some (rt.numberToString q)
  | JSVal.nan => some "null"
  | JSVal.str s => some (rt.quoteJSONString s)

/-- The text `JSON.stringify(obj)` of an object given as its properties in order. -/
def jsonStringify (rt : Runtime) (props : List (String × JSVal)) : String :=
  "\x7b" ++ ",".intercalate (props.filterMap (fun p =>
    (jsonValue rt p.2).map (fun text => rt.quoteJSONString p.1 ++ ":" ++ text))) ++ "\x7d"

/-! ## The receipt generator (`src/receipt-generator.js`) -/

/-- The `bookingData` argument of `generateReceiptHtml`: the properties the
generator reads. A property the object does not have is `undefined`. The user
id is an identifier: a string when present. -/
structure ReceiptData where
  bookingId : JSVal
  receiptNumber : JSVal
  packageName : JSVal
  packageId : JSVal
  originalAmount : JSVal
  amount : JSVal
  finalAmount : JSVal
  discountAmount : JSVal
  couponCode : JSVal
  customerName : JSVal
  customerEmail : JSVal
  userId : Option String
  paymentDate : JSVal
  timestamp : JSVal
  deriving DecidableEq

/-- The receipt number: `bookingData.bookingId || bookingData.receiptNumber ||
KOB-<random>`. -/
def receiptNumberOf (rt : Runtime) (d : ReceiptData) : JSVal :=
  JSVal.or (JSVal.or d.bookingId d.receiptNumber) (JSVal.str ("KOB-" ++ rt.randomCode))

/-- The value `hasDiscount = bookingData.discountAmount > 0 && bookingData.couponCode`. -/
def hasDiscountOf (rt : Runtime) (d : ReceiptData) : JSVal :=
  JSVal.and (JSVal.bool (gtZero rt d.discountAmount)) d.couponCode

/-- The value `originalAmount = bookingData.originalAmount || bookingData.amount || 0`. -/
def originalAmountUsed (d : ReceiptData) : JSVal :=
  JSVal.or (JSVal.or d.originalAmount d.amount) (JSVal.num 0)

/-- The value `discountAmount = bookingData.discountAmount || 0`. -/
def discountAmountUsed (d : ReceiptData) : JSVal :=
  JSVal.or d.discountAmount (JSVal.num 0)

/-- The value `finalAmount = bookingData.finalAmount || bookingData.amount || 0`. -/
def finalAmountUsed (d : ReceiptData) : JSVal :=
  JSVal.or (JSVal.or d.finalAmount d.amount) (JSVal.num 0)

/-- The value `couponCode = bookingData.couponCode || 'None'`. -/
def couponCodeUsed (d : ReceiptData) : JSVal :=
  JSVal.or d.couponCode (JSVal.str "None")

/-- The value `discountPercentage`: `0`, replaced by `(discountAmount /
originalAmount) * 100` when `discountAmount > 0 && originalAmount > 0`. -/
def discountPercentageOf (rt : Runtime) (d : ReceiptData) : JSVal :=
  if gtZero rt (discountAmountUsed d) && gtZero rt (originalAmountUsed d) then
    times rt (divide rt (discountAmountUsed d) (originalAmountUsed d)) (JSVal.num 100)
  else JSVal.num 0

/-- The text `discountPercentage.toFixed(1)`. -/
def percentFixedOf (rt : Runtime) (d : ReceiptData) : String :=
  match discountPercentageOf rt d with
  | JSVal.num q => toFixed rt q 1
  | _ => "NaN"

/-- The value `couponInfo.isFreeBooking = finalAmount === 0 && hasDiscount`. -/
def isFreeBookingOf (rt : Runtime) (d : ReceiptData) : JSVal :=
  JSVal.and (JSVal.bool (JSVal.strictEq (finalAmountUsed d) (JSVal.num 0))) (hasDiscountOf rt d)

/-- The text `couponInfo.description`; `none` when `discountAmount.toFixed` throws. -/
def couponDescriptionOf (rt : Runtime) (d : ReceiptData) : Option String :=
  if (hasDiscountOf rt d).truthy then
    (callToFixed rt (discountAmountUsed d) 2).map (fun fixed =>
      display rt (couponCodeUsed d) ++ " (£" ++ fixed ++ " discount - " ++
        percentFixedOf rt d ++ "%)")
  else some "No coupon applied"

/-- The formatted payment date: `bookingData.paymentDate || Date.now()`, formatted. -/
def paymentDateOf (rt : Runtime) (d : ReceiptData) : String :=
  rt.formatPaymentDate (JSVal.or d.paymentDate (JSVal.num rt.now))

/-- The properties of the object serialized into the QR code, in order. -/
def qrCodeProps (rt : Runtime) (d : ReceiptData) : List (String × JSVal) :=
  [("receiptNumber", receiptNumberOf rt d),
   ("bookingId", JSVal.or d.bookingId (receiptNumberOf rt d)),
   ("packageName", d.packageName),
   ("amount", originalAmountUsed d),
   ("finalAmount", finalAmountUsed d),
   ("discount", discountAmountUsed d),
   ("couponCode", couponCodeUsed d),
   ("date", JSVal.str (paymentDateOf rt d)),
   ("userId", JSVal.ofOptStr d.userId)]

/-- The text `qrCodeData`. -/
def qrCodeDataOf (rt : Runtime) (d : ReceiptData) : String :=
  jsonStringify rt (qrCodeProps rt d)

/-- The image source `qrCodeUrl`: the renderer's data URL, or the remote
renderer's URL when the renderer rejects. -/
def qrCodeUrlOf (rt : Runtime) (d : ReceiptData) : String :=
  match rt.toDataURL (qrCodeDataOf rt d) with
  | some url => url
  | none =>
    "https://api.qrserver.com/v1/create-qr-code/?size=120x120&data=" ++
      rt.encodeURIComponent (qrCodeDataOf rt d)

/-- The amount text `typeof v === 'number' ? v.toFixed(2) : '0.00'`. -/
def guardedFixed (rt : Runtime) (v : JSVal) : String :=
  match v with
  | JSVal.num q => toFixed rt q 2
  | JSVal.nan => "NaN"
  | _ => "0.00"

/-- The customer id text: `userId ? userId.substring(0, 10) + '...' : 'Not
available'` (the first ten characters; identifiers are plain ASCII). -/
def customerIdOf (d : ReceiptData) : String :=
  match d.userId with
  | some u => if u = "" then "Not available" else u.take 10 ++ "..."
  | none => "Not available"

/-- The payment method text: `couponInfo.isFreeBooking ? 'Coupon (100%
discount)' : 'Credit Card (Stripe)'`. -/
def paymentMethodOf (rt : Runtime) (d : ReceiptData) : String :=
  if (isFreeBookingOf rt d).truthy then "Coupon (100% discount)" else "Credit Card (Stripe)"

/-- The values that fill the holes of the receipt template, already as text. -/
structure ReceiptView where
  receiptNumber : String
  paymentDate : String
  packageName : String
  packageId : String
  customerName : String
  customerEmail : String
  customerId : String
  itemsHtml : String
  couponSection : String
  bookingDate : String
  paymentMethod : String
  originalPrice : String
  discountRow : String
  totalPaid : String
  qrCodeUrl : String
  year : String
  deriving DecidableEq

/-- The opening of the items table, `itemsHtml` before the rows. -/
def itemsHeadSegments : List String :=
  [
    "\n",
    "        <!-- Purchased Items -->\n",
    "        <h3 style=\"margin: 30px 0 20px; font-size: 18px; color: #e67e22; border-bottom: 2px solid #e67e22; padding-bottom: 10px;\">",
    "Purchased Upgrades",
    "</h3>\n",
    "        <table width=\"100%\" cellpadding=\"0\" cellspacing=\"0\" border=\"0\" style=\"margin-bottom: 20px; border-collapse: collapse;\">\n",
    "          <tr style=\"background-color: #f5f5f5;\">\n",
    "            <th style=\"text-align: left; padding: 10px; border: 1px solid #ddd; font-size: 14px;\">Item</th>\n",
    "            <th style=\"text-align: center; padding: 10px; border: 1px solid #ddd; font-size: 14px;\">Quantity</th>\n",
    "            <th style=\"text-align: right; padding: 10px; border: 1px solid #ddd; font-size: 14px;\">Price</th>\n",
    "          </tr>\n",
    "      " ]

/-- One row of the items table, given the three cell texts. -/
def itemRowSegments (title quantity price : String) : List String :=
  [
    "\n",
    "          <tr>\n",
    "            <td style=\"padding: 10px; border: 1px solid #ddd;\">",
    title,
    "</td>\n",
    "            <td style=\"text-align: center; padding: 10px; border: 1px solid #ddd;\">",
    quantity,
    "</td>\n",
    "            <td style=\"text-align: right; padding: 10px; border: 1px solid #ddd;\">£",
    price,
    "</td>\n",
    "          </tr>\n",
    "        " ]

/-- The badge shown in the coupon breakdown of a free booking. -/
def freeBookingBadge : String :=
  String.join [
    "<p style=\"margin-top: 5px; display: inline-block; padding: 3px 10px; background-color: #27ae60; color: white; border-radius: 12px; font-size: 12px; font-weight: 600;\">",
    "Free Booking",
    "</p>" ]

/-- The coupon breakdown, the branch of the coupon section taken when
`hasDiscount` is truthy, given the texts of its holes. -/
def couponBreakdownSegments (couponCode freeBadge discountFixed percentFixed originalFixed
    finalFixed : String) : List String :=
  [
    "\n",
    "              <table width=\"100%\" cellpadding=\"0\" cellspacing=\"0\" border=\"0\">\n",
    "                <tr>\n",
    "                  <td width=\"50%\" valign=\"top\" style=\"padding-bottom: 15px;\">\n",
    "                    <p style=\"margin: 0 0 5px; font-size: 12px; color: #666; text-transform: uppercase; font-weight: bold;\">Coupon Code</p>\n",
    "                    <p style=\"margin: 0; font-size: 16px; font-weight: 600;\">",
    couponCode,
    "</p>\n",
    "                    ",
    freeBadge,
    "\n",
    "                  </td>\n",
    "                  <td width=\"50%\" valign=\"top\" style=\"padding-bottom: 15px;\">\n",
    "                    <p style=\"margin: 0 0 5px; font-size: 12px; color: #666; text-transform: uppercase; font-weight: bold;\">Discount</p>\n",
    "                    <p style=\"margin: 0; font-size: 16px; font-weight: 600;\">£",
    discountFixed,
    " (",
    percentFixed,
    "%)</p>\n",
    "                  </td>\n",
    "                </tr>\n",
    "                <tr>\n",
    "                  <td width=\"50%\" valign=\"top\">\n",
    "                    <p style=\"margin: 0 0 5px; font-size: 12px; color: #666; text-transform: uppercase; font-weight: bold;\">Original Price</p>\n",
    "                    <p style=\"margin: 0; font-size: 16px; font-weight: 600;\">£",
    originalFixed,
    "</p>\n",
    "                  </td>\n",
    "                  <td width=\"50%\" valign=\"top\">\n",
    "                    <p style=\"margin: 0 0 5px; font-size: 12px; color: #666; text-transform: uppercase; font-weight: bold;\">Final Price</p>\n",
    "                    <p style=\"margin: 0; font-size: 16px; font-weight: 600;\">£",
    finalFixed,
    "</p>\n",
    "                  </td>\n",
    "                </tr>\n",
    "              </table>\n",
    "              " ]

/-- The notice that is the other branch of the coupon section. -/
def noCouponNoticeSegments : List String :=
  [
    "\n",
    "              <p style=\"margin: 0; font-size: 16px; color: #666; font-style: italic;\">",
    "No coupon was applied to this booking.",
    "</p>\n",
    "              " ]

/-- The discount row of the payment summary, rendered when `hasDiscount` is
truthy. -/
def discountRowSegments (couponCode discountShown : String) : List String :=
  [
    "\n",
    "                <tr>\n",
    "                  <td style=\"padding-bottom: 10px;\">\n",
    "                    <table width=\"100%\" cellpadding=\"0\" cellspacing=\"0\" border=\"0\">\n",
    "                      <tr>\n",
    "                        <td style=\"font-size: 16px; color: #444;\">Discount (",
    couponCode,
    ")</td>\n",
    "                        <td style=\"font-size: 16px; color: #27ae60; text-align: right; font-weight: 600;\">-£",
    discountShown,
    "</td>\n",
    "                      </tr>\n",
    "                    </table>\n",
    "                  </td>\n",
    "                </tr>\n",
    "                " ]

/-- The template `emailReceiptHtml`, one literal per source line, with the
holes filled from the view. -/
def receiptSegments (v : ReceiptView) : List String :=
  [
    "\n",
    "<!DOCTYPE html>\n",
    "<html lang=\"en\">\n",
    "<head>\n",
    "  <meta charset=\"UTF-8\">\n",
    "  <meta name=\"viewport\" content=\"width=device-width, initial-scale=1.0\">\n",
    "  <title>Payment Receipt - KenyaOnABudget Safaris</title>\n",
    "</head>\n",
    "<body style=\"font-family: Arial, Helvetica, sans-serif; line-height: 1.6; color: #333; margin: 0; padding: 0; background-color: #f7f7f7;\">\n",
    "  <table cellpadding=\"0\" cellspacing=\"0\" border=\"0\" width=\"100%\" style=\"max-width: 650px; margin: 0 auto; background-color: #ffffff;\">\n",
    "    <!-- Header -->\n",
    "    <tr>\n",
    "      <td style=\"padding: 20px; text-align: center; background-color: #ffffff; border-bottom: 1px solid #e0e0e0;\">\n",
    "        <table width=\"100%\" cellpadding=\"0\" cellspacing=\"0\" border=\"0\">\n",
    "          <tr>\n",
    "            <td>\n",
    "              <div style=\"display: inline-block; width: 50px; height: 50px; background-color: #f5f5f5; border-radius: 8px; text-align: center; line-height: 50px; font-weight: bold; font-size: 24px; color: #e67e22;\">K</div>\n",
    "            </td>\n",
    "            <td style=\"padding-left: 15px; text-align: left;\">\n",
    "              <h1 style=\"margin: 0; font-size: 24px; color: #e67e22;\">KenyaOnABudget Safaris</h1>\n",
    "              <p style=\"margin: 5px 0 0; font-size: 14px; color: #666;\">Kenya On Your Terms: Smart Or Grand We Make it Happen!</p>\n",
    "            </td>\n",
    "          </tr>\n",
    "        </table>\n",
    "        <p style=\"margin-top: 15px; font-size: 14px; color: #666; text-align: right;\">\n",
    "          ",
    "Paid Receipt #",
    v.receiptNumber,
    "<br>\n",
    "          ",
    v.paymentDate,
    "\n",
    "        </p>\n",
    "      </td>\n",
    "    </tr>\n",
    "    \n",
    "    <!-- Banner -->\n",
    "    <tr>\n",
    "      <td style=\"padding: 30px 20px; background-color: #e67e22; color: #ffffff;\">\n",
    "        <h2 style=\"margin: 0 0 10px; font-size: 24px;\">Booking Confirmation</h2>\n",
    "        <p style=\"margin: 0 0 15px; font-size: 18px;\">",
    v.packageName,
    "</p>\n",
    "        <p style=\"margin: 0; font-size: 16px; background-color: rgba(255,255,255,0.2); display: inline-block; padding: 5px 10px; border-radius: 4px;\">ID: ",
    v.packageId,
    "</p>\n",
    "      </td>\n",
    "    </tr>\n",
    "    \n",
    "    <!-- Customer Information -->\n",
    "    <tr>\n",
    "      <td style=\"padding: 30px 20px;\">\n",
    "        <h3 style=\"margin: 0 0 20px; font-size: 18px; color: #e67e22; border-bottom: 2px solid #e67e22; padding-bottom: 10px;\">Customer Information</h3>\n",
    "        <table width=\"100%\" cellpadding=\"0\" cellspacing=\"0\" border=\"0\" style=\"margin-bottom: 20px;\">\n",
    "          <tr>\n",
    "            <td width=\"50%\" valign=\"top\" style=\"padding-bottom: 15px;\">\n",
    "              <p style=\"margin: 0 0 5px; font-size: 12px; color: #666; text-transform: uppercase; font-weight: bold;\">Name</p>\n",
    "              <p style=\"margin: 0; font-size: 16px; font-weight: 600;\">",
    v.customerName,
    "</p>\n",
    "            </td>\n",
    "            <td width=\"50%\" valign=\"top\" style=\"padding-bottom: 15px;\">\n",
    "              <p style=\"margin: 0 0 5px; font-size: 12px; color: #666; text-transform: uppercase; font-weight: bold;\">Email</p>\n",
    "              <p style=\"margin: 0; font-size: 16px; font-weight: 600;\">",
    v.customerEmail,
    "</p>\n",
    "            </td>\n",
    "          </tr>\n",
    "          <tr>\n",
    "            <td width=\"50%\" valign=\"top\" style=\"padding-bottom: 15px;\">\n",
    "              <p style=\"margin: 0 0 5px; font-size: 12px; color: #666; text-transform: uppercase; font-weight: bold;\">Customer ID</p>\n",
    "              <p style=\"margin: 0; font-size: 16px; font-weight: 600;\">",
    v.customerId,
    "</p>\n",
    "            </td>\n",
    "            <td width=\"50%\" valign=\"top\" style=\"padding-bottom: 15px;\">\n",
    "              <p style=\"margin: 0 0 5px; font-size: 12px; color: #666; text-transform: uppercase; font-weight: bold;\">Payment Date</p>\n",
    "              <p style=\"margin: 0; font-size: 16px; font-weight: 600;\">",
    v.paymentDate,
    "</p>\n",
    "            </td>\n",
    "          </tr>\n",
    "          <tr>\n",
    "            <td width=\"50%\" valign=\"top\">\n",
    "              <p style=\"margin: 0 0 5px; font-size: 12px; color: #666; text-transform: uppercase; font-weight: bold;\">",
    "Booking ID",
    "</p>\n",
    "              <p style=\"margin: 0; font-size: 16px; font-weight: 600;\">",
    v.receiptNumber,
    "</p>\n",
    "            </td>\n",
    "          </tr>\n",
    "        </table>\n",
    "        \n",
    "        ",
    v.itemsHtml,
    "\n",
    "        \n",
    "        <!-- Coupon Information -->\n",
    "        <h3 style=\"margin: 30px 0 20px; font-size: 18px; color: #e67e22; border-bottom: 2px solid #e67e22; padding-bottom: 10px;\">Coupon Information</h3>\n",
    "        <table width=\"100%\" cellpadding=\"0\" cellspacing=\"0\" border=\"0\" style=\"margin-bottom: 20px; background-color: #FEF9E7; border-radius: 8px; border: 1px dashed #e67e22;\">\n",
    "          <tr>\n",
    "            <td style=\"padding: 20px;\">\n",
    "              ",
    v.couponSection,
    "\n",
    "            </td>\n",
    "          </tr>\n",
    "        </table>\n",
    "        \n",
    "        <!-- Booking Details -->\n",
    "        <h3 style=\"margin: 30px 0 20px; font-size: 18px; color: #e67e22; border-bottom: 2px solid #e67e22; padding-bottom: 10px;\">Booking Details</h3>\n",
    "        <table width=\"100%\" cellpadding=\"0\" cellspacing=\"0\" border=\"0\" style=\"margin-bottom: 20px;\">\n",
    "          <tr>\n",
    "            <td width=\"50%\" valign=\"top\" style=\"padding-bottom: 15px;\">\n",
    "              <p style=\"margin: 0 0 5px; font-size: 12px; color: #666; text-transform: uppercase; font-weight: bold;\">Package</p>\n",
    "              <p style=\"margin: 0; font-size: 16px; font-weight: 600;\">",
    v.packageName,
    "</p>\n",
    "            </td>\n",
    "            <td width=\"50%\" valign=\"top\" style=\"padding-bottom: 15px;\">\n",
    "              <p style=\"margin: 0 0 5px; font-size: 12px; color: #666; text-transform: uppercase; font-weight: bold;\">Package ID</p>\n",
    "              <p style=\"margin: 0; font-size: 16px; font-weight: 600;\">",
    v.packageId,
    "</p>\n",
    "            </td>\n",
    "          </tr>\n",
    "          <tr>\n",
    "            <td width=\"50%\" valign=\"top\">\n",
    "              <p style=\"margin: 0 0 5px; font-size: 12px; color: #666; text-transform: uppercase; font-weight: bold;\">Booking Date</p>\n",
    "              <p style=\"margin: 0; font-size: 16px; font-weight: 600;\">",
    v.bookingDate,
    "</p>\n",
    "            </td>\n",
    "            <td width=\"50%\" valign=\"top\">\n",
    "              <p style=\"margin: 0 0 5px; font-size: 12px; color: #666; text-transform: uppercase; font-weight: bold;\">",
    "Payment Method",
    "</p>\n",
    "              <p style=\"margin: 0; font-size: 16px; font-weight: 600;\">",
    v.paymentMethod,
    "</p>\n",
    "            </td>\n",
    "          </tr>\n",
    "        </table>\n",
    "        \n",
    "        <!-- Payment Summary -->\n",
    "        <table width=\"100%\" cellpadding=\"0\" cellspacing=\"0\" border=\"0\" style=\"margin: 20px 0; background-color: #f5f5f5; border-radius: 8px;\">\n",
    "          <tr>\n",
    "            <td style=\"padding: 20px;\">\n",
    "              <table width=\"100%\" cellpadding=\"0\" cellspacing=\"0\" border=\"0\">\n",
    "                <tr>\n",
    "                  <td style=\"padding-bottom: 10px;\">\n",
    "                    <table width=\"100%\" cellpadding=\"0\" cellspacing=\"0\" border=\"0\">\n",
    "                      <tr>\n",
    "                        <td style=\"font-size: 16px; color: #444;\">",
    v.packageName,
    "</td>\n",
    "                        <td style=\"font-size: 16px; color: #444; text-align: right; font-weight: 600;\">£",
    v.originalPrice,
    "</td>\n",
    "                      </tr>\n",
    "                    </table>\n",
    "                  </td>\n",
    "                </tr>\n",
    "                ",
    v.discountRow,
    "\n",
    "                <tr>\n",
    "                  <td style=\"padding-bottom: 10px;\">\n",
    "                    <table width=\"100%\" cellpadding=\"0\" cellspacing=\"0\" border=\"0\">\n",
    "                      <tr>\n",
    "                        <td style=\"font-size: 16px; color: #444;\">Processing Fee</td>\n",
    "                        <td style=\"font-size: 16px; color: #444; text-align: right; font-weight: 600;\">£0.00</td>\n",
    "                      </tr>\n",
    "                    </table>\n",
    "                  </td>\n",
    "                </tr>\n",
    "                <tr>\n",
    "                  <td style=\"padding-top: 15px; border-top: 2px dashed #e0e0e0;\">\n",
    "                    <table width=\"100%\" cellpadding=\"0\" cellspacing=\"0\" border=\"0\">\n",
    "                      <tr>\n",
    "                        <td style=\"font-size: 18px; color: #e67e22; font-weight: 700;\">",
    "Total Paid",
    "</td>\n",
    "                        <td style=\"font-size: 18px; color: #e67e22; text-align: right; font-weight: 700;\">£",
    v.totalPaid,
    "</td>\n",
    "                      </tr>\n",
    "                    </table>\n",
    "                  </td>\n",
    "                </tr>\n",
    "              </table>\n",
    "            </td>\n",
    "          </tr>\n",
    "        </table>\n",
    "        \n",
    "        <!-- QR Code -->\n",
    "        <table width=\"100%\" cellpadding=\"0\" cellspacing=\"0\" border=\"0\" style=\"margin: 30px 0; background-color: #f9f9f9; border-radius: 8px; border: 1px solid #e0e0e0;\">\n",
    "          <tr>\n",
    "            <td style=\"padding: 20px;\">\n",
    "              <table width=\"100%\" cellpadding=\"0\" cellspacing=\"0\" border=\"0\">\n",
    "                <tr>\n",
    "                  <td width=\"120\" valign=\"top\">\n",
    "                    <img src=\"",
    v.qrCodeUrl,
    "\" alt=\"Booking QR Code\" style=\"border: 1px solid #e0e0e0; padding: 5px; background-color: #ffffff; border-radius: 8px; width: 120px; height: 120px;\">\n",
    "                  </td>\n",
    "                  <td valign=\"top\" style=\"padding-left: 20px;\">\n",
    "                    <h4 style=\"margin: 0 0 10px; color: #e67e22; font-size: 16px;\">Booking Verification</h4>\n",
    "                    <p style=\"margin: 0; font-size: 14px; color: #444; line-height: 1.5;\">\n",
    "                      Scan this QR code to verify your booking or to check in at our office. This code contains your unique booking details and will be required during your safari adventure. Please ensure you have it available on your phone or as a printed copy.\n",
    "                    </p>\n",
    "                  </td>\n",
    "                </tr>\n",
    "              </table>\n",
    "            </td>\n",
    "          </tr>\n",
    "        </table>\n",
    "        \n",
    "        <!-- Thank You Message -->\n",
    "        <table width=\"100%\" cellpadding=\"0\" cellspacing=\"0\" border=\"0\" style=\"margin: 30px 0 10px; text-align: center; border-top: 1px dashed #e0e0e0; border-bottom: 1px dashed #e0e0e0;\">\n",
    "          <tr>\n",
    "            <td style=\"padding: 30px 0;\">\n",
    "              <h3 style=\"margin: 0 0 15px; color: #e67e22; font-size: 22px;\">Thank You For Your Booking!</h3>\n",
    "              <p style=\"margin: 0; font-size: 16px; color: #444; font-style: italic;\">\"We're excited to welcome you on your upcoming safari adventure where memories and wildlife encounters await.\"</p>\n",
    "            </td>\n",
    "          </tr>\n",
    "        </table>\n",
    "      </td>\n",
    "    </tr>\n",
    "    \n",
    "    <!-- Footer -->\n",
    "    <tr>\n",
    "      <td style=\"padding: 20px; background-color: #f5f5f5; text-align: center; font-size: 14px; color: #666;\">\n",
    "        <p style=\"margin: 0 0 10px; font-weight: 700; color: #555; font-size: 16px;\">KenyaOnABudget Safaris</p>\n",
    "        <p style=\"margin: 0 0 10px;\">FARINGDON (SN7), SHELLINGFORD, FERNHAM ROAD<br>UNITED KINGDOM</p>\n",
    "        <p style=\"margin: 10px 0;\">\n",
    "          Email: <a href=\"mailto:info@kenyaonabudgetsafaris.co.uk\" style=\"color: #e67e22; text-decoration: none;\">info@kenyaonabudgetsafaris.co.uk</a> | \n",
    "          Phone: +44 7376 642 148\n",
    "        </p>\n",
    "        <p style=\"margin: 20px 0 0; font-size: 12px; color: #777;\">\n",
    "          This receipt was automatically generated and is valid without signature.<br>\n",
    "          &copy; ",
    v.year,
    " KenyaOnABudget Safaris. All rights reserved.\n",
    "        </p>\n",
    "      </td>\n",
    "    </tr>\n",
    "  </table>\n",
    "</body>\n",
    "</html>" ]

/-- The document: the template with its holes filled. -/
def receiptTemplate (v : ReceiptView) : String :=
  String.join (receiptSegments v)

/-- The text `itemsHtml`: empty without items, else the table with one row per
item. -/
def itemsHtmlOf (rt : Runtime) (items : List Item) : String :=
  match items with
  | [] => ""
  | _ :: _ =>
    String.join itemsHeadSegments ++
      String.join (items.map (fun item =>
        String.join (itemRowSegments
          (display rt (JSVal.or item.title (JSVal.str "Unknown Item")))
          (display rt (JSVal.or item.quantity (JSVal.num 1)))
          (guardedFixed rt item.price)))) ++
      "</table>"

/-- The coupon section of the document: the breakdown when `hasDiscount` is
truthy, where the three unguarded `toFixed` calls may throw (`none`), else the
notice. -/
def couponSectionOf (rt : Runtime) (d : ReceiptData) : Option String :=
  if (hasDiscountOf rt d).truthy then
    match callToFixed rt (discountAmountUsed d) 2, callToFixed rt (originalAmountUsed d) 2,
      callToFixed rt (finalAmountUsed d) 2 with
    | some discountFixed, some originalFixed, some finalFixed =>
      some (String.join (couponBreakdownSegments (display rt (couponCodeUsed d))
        (if (isFreeBookingOf rt d).truthy then freeBookingBadge else "")
        discountFixed (percentFixedOf rt d) originalFixed finalFixed))
    | _, _, _ => none
  else some (String.join noCouponNoticeSegments)

/-- The discount row of the payment summary: present when `hasDiscount` is truthy. -/
def discountRowOf (rt : Runtime) (d : ReceiptData) : String :=
  if (hasDiscountOf rt d).truthy then
    String.join (discountRowSegments (display rt (couponCodeUsed d))
      (guardedFixed rt (discountAmountUsed d)))
  else ""

/-- The values shown by the document; `none` when building `couponInfo` or the
coupon section throws. -/
def receiptView (rt : Runtime) (d : ReceiptData) (items : List Item) : Option ReceiptView :=
  match couponDescriptionOf rt d, couponSectionOf rt d with
  | some _, some couponSection =>
    some
      { receiptNumber := display rt (receiptNumberOf rt d)
        paymentDate := paymentDateOf rt d
        packageName := display rt (JSVal.or d.packageName (JSVal.str "Safari Package"))
        packageId := display rt (JSVal.or d.packageId (JSVal.str "N/A"))
        customerName := display rt (JSVal.or d.customerName (JSVal.str "Not specified"))
        customerEmail := display rt (JSVal.or d.customerEmail (JSVal.str "Not specified"))
        customerId := customerIdOf d
        itemsHtml := itemsHtmlOf rt items
        couponSection := couponSection
        bookingDate := rt.formatBookingDate (JSVal.or d.timestamp (JSVal.num rt.now))
        paymentMethod := paymentMethodOf rt d
        originalPrice := guardedFixed rt (originalAmountUsed d)
        discountRow := discountRowOf rt d
        totalPaid := guardedFixed rt (finalAmountUsed d)
        qrCodeUrl := qrCodeUrlOf rt d
        year := rt.numberToString rt.currentYear }
  | _, _ => none

/-- The function `generateReceiptHtml(bookingData, items)`: the document, or
`none` when it throws. -/
def generateReceiptHtml (rt : Runtime) (d : ReceiptData) (items : List Item) : Option String :=
  (receiptView rt d items).map receiptTemplate

/-! ## The checkout metadata -/

/-- The value `calculatedAmount` of a request that passed validation: the
`amount` of the request, or, when that is `undefined` or `null`, the sum over
the items of `price * quantity`, added up from `0`. -/
def calculatedAmountOf (rt : Runtime) (req : CheckoutRequest) : JSVal :=
  if req.amount = JSVal.undefined ∨ req.amount = JSVal.null then
    List.foldl (fun acc (item : Item) => plus acc (times rt item.price item.quantity))
      (JSVal.num 0)
      (match req.items with
        | some items => items
        | none => [])
  else req.amount

/-- The `metadata` object both checkout routes pass to
`stripe.checkout.sessions.create`, as the gateway keeps it: key by key, each
value as text. -/
def checkoutMetadata (rt : Runtime) (timestamp : Nat) (bookingId : JSVal)
    (req : CheckoutRequest) : List (String × String) :=
  [("userId", display rt req.userId),
   ("timestamp", rt.numberToString timestamp),
   ("checkoutSessionId",
     display rt (JSVal.or (JSVal.ofOptStr req.checkoutSessionId) (JSVal.str ""))),
   ("type", display rt (JSVal.or req.type (JSVal.str "activity_upgrade"))),
   ("originalAmount",
     if req.originalAmount.truthy then display rt req.originalAmount
     else display rt (calculatedAmountOf rt req)),
   ("discountAmount",
     if req.discountAmount.truthy then display rt req.discountAmount else "0"),
   ("couponCode", display rt (JSVal.or req.couponCode (JSVal.str "none"))),
   ("bookingId", display rt bookingId)]

/-- The booking data built by a server route, as the argument of
`generateReceiptHtml`; `isoDate` is the ISO text of the payment instant. -/
def BookingData.toReceiptData (b : BookingData) (isoDate : String) : ReceiptData :=
  { bookingId := b.bookingId
    receiptNumber := b.receiptNumber
    packageName := b.packageName
    packageId := b.packageId
    originalAmount := b.originalAmount
    amount := b.amount
    finalAmount := b.finalAmount
    discountAmount := b.discountAmount
    couponCode := b.couponCode
    customerName := b.customerName
    customerEmail := b.customerEmail
    userId :=
      match b.userId with
      | JSVal.str u => some u
      | _ => none
    paymentDate := JSVal.str isoDate
    timestamp := JSVal.num b.timestamp }

/-! ## Text of a document -/

/-- The document `doc` contains the text `text`: some part of `doc`, taken
without gaps, is `text`. -/
def containsText (doc text : String) : Prop :=
  text.data <:+: doc.data

instance containsTextDecidable (doc text : String) : Decidable (containsText doc text) :=
  inferInstanceAs (Decidable (text.data <:+: doc.data))

/-- Does `text` start at some position of `seg`, in `seg` followed by `look`? -/
def startsIn (text look : List Char) : List Char → Bool
  | [] => false
  | c :: cs => text.isPrefixOf (c :: cs ++ look) || startsIn text look cs

/-- Does `text` occur in the concatenation of the segments? Each segment is
searched for the start of `text`, reading on into the following segments for
as many characters as `text` may still need. -/
def occursInSegments (text : List Char) : List (List Char) → Bool
  | [] => false
  | seg :: rest =>
    startsIn text (rest.flatten.take (text.length - 1)) seg || occursInSegments text rest

/-! ## The generated code, the serialized properties and the receipt items -/

/-- The call `text.substring(start, stop)` with `start ≤ stop`: the characters
at the positions `start` to `stop - 1`, as many of them as the text has. -/
def substring (text : String) (start stop : Nat) : String :=
  String.mk ((text.data.take stop).drop start)

/-- The call `text.toUpperCase()` on a text of digits and unaccented letters:
each small letter `a`-`z` becomes its capital, every other character stays. -/
def toUpperCase (text : String) : String :=
  String.mk (text.data.map Char.toUpper)

/-- The code drawn for a generated identifier,
`Math.random().toString(36).substring(2, 8).toUpperCase()`, given the radix-36
text `Math.random().toString(36)` of the number drawn. -/
def randomCodeOf (radixText : String) : String :=
  toUpperCase (substring radixText 2 8)

/-- The properties `JSON.stringify` writes for an object: the name and the JSON
text of each property whose value is not `undefined`, in order. -/
def jsonEntries (rt : Runtime) (props : List (String × JSVal)) : List (String × String) :=
  props.filterMap (fun p => (jsonValue rt p.2).map (fun text => (p.1, text)))

/-- The row appended to `itemsHtml` for one item. -/
def itemRowOf (rt : Runtime) (item : Item) : String :=
  String.join (itemRowSegments
    (display rt (JSVal.or item.title (JSVal.str "Unknown Item")))
    (display rt (JSVal.or item.quantity (JSVal.num 1)))
    (guardedFixed rt item.price))

/-- The list `allItems` of `/send-receipt-email`: `purchasedItems.length > 0 ?
purchasedItems : firebaseItems`. -/
def receiptItemsOf (env : Env) (checkoutId : Option String) (session : StripeSession)
    (w : World) : List Item :=
  if (purchasedItemsOf session).length > 0 then purchasedItemsOf session
  else receiptFirebaseItems env (savedCheckoutIdOf checkoutId session) w

/-! ## Sample data -/

/-- An environment in which the store is connected and nothing fails. -/
def sampleEnv : Env :=
  { firebaseInitialized := true
    retrieve := fun _ => none
    create := some ("cs_test_1", some "https://checkout.example/pay")
    randomCode := "A1B2C3"
    now := 1000
    fails := fun _ => false
    parseFloat := fun _ => JSVal.nan
    generateReceiptHtml := fun _ _ => some "<html></html>" }

/-- A store item: two game drives at 50 each. -/
def gameDrive : Item :=
  { activityId := JSVal.str "act-1"
    title := JSVal.str "Game Drive"
    price := JSVal.num 50
    quantity := JSVal.num 2 }

/-- A checkout session document awaiting payment, with the given items. -/
def awaitingDoc (items : Option (List Item)) : CheckoutDoc :=
  { userId := JSVal.str "user-1"
    items := items
    status := JSVal.str "awaiting_payment"
    paymentStatus := JSVal.undefined
    stripeSessionId := JSVal.str "cs_test_1"
    stripePaymentId := JSVal.undefined
    bookingId := JSVal.str "KOB-OLD123"
    updatedAt := none
    processedItems := none
    adminNotified := JSVal.undefined
    adminNotifiedAt := none
    customerEmail := JSVal.undefined
    customerName := JSVal.undefined
    receiptSent := JSVal.undefined
    receiptSentAt := none }

/-- A paid gateway session for 100.00 whose metadata carries the given pairs. -/
def paidSession (metadata : List (String × String)) : StripeSession :=
  { id := "cs_test_1"
    payment_status := "paid"
    amount_total := 10000
    metadata := some metadata
    line_items := some [{ description := some "Game Drive", amount_total := 10000,
                          quantity := some 2 }]
    payment_intent := some "pi_1"
    customer := none }

/-- A world with one checkout session `chk-1` and the cart of `user-1`. -/
def sampleWorld (doc : CheckoutDoc) (cartItems : List Item) : World :=
  { store :=
      { checkoutSessions := [("chk-1", doc)]
        purchasedActivities := []
        carts := [("user-1", { items := cartItems, lastUpdated := none })]
        sentReceipts := [] }
    trace := [] }



/-- The sample environment with the batch commit rejected by the store. -/
def commitFailsEnv : Env :=
  { sampleEnv with fails := fun op => decide (op = Op.pspCommit) }

/-- A checkout session document that has been reconciled and notified. -/
def completedDoc (items : Option (List Item)) : CheckoutDoc :=
  { awaitingDoc items with
    status := JSVal.str "completed"
    paymentStatus := JSVal.str "paid"
    adminNotified := JSVal.bool true
    adminNotifiedAt := some 900 }

/-- A valid checkout request that names the checkout session `chk-1`. -/
def sampleCheckoutRequest : CheckoutRequest :=
  { userId := JSVal.str "user-1"
    items := some [gameDrive]
    amount := JSVal.undefined
    originalAmount := JSVal.undefined
    discountAmount := JSVal.undefined
    couponCode := JSVal.undefined
    type := JSVal.undefined
    checkoutSessionId := some "chk-1" }

/-- A verification request for the gateway session `cs_test_1` and the checkout
session `chk-1`. -/
def sampleVerifyRequest : VerifyRequest :=
  { sessionId := some "cs_test_1"
    checkoutSessionId := some "chk-1" }

/-- The sample environment with a gateway that returns the given session. -/
def gatewayEnv (session : StripeSession) : Env :=
  { sampleEnv with retrieve := fun _ => some session }

/-- The gateway item `{A, 10}` of the merge example. -/
def itemA : Item :=
  { activityId := JSVal.undefined
    title := JSVal.str "A"
    price := JSVal.num 10
    quantity := JSVal.num 1 }

/-- The store item `{A, 10}` of the merge example. -/
def storeA : Item :=
  { activityId := JSVal.str "act-A"
    title := JSVal.str "A"
    price := JSVal.num 10
    quantity := JSVal.num 1 }

/-- The store item `{B, 5}` of the merge example, stored without a quantity. -/
def storeB : Item :=
  { activityId := JSVal.str "act-B"
    title := JSVal.str "B"
    price := JSVal.num 5
    quantity := JSVal.undefined }

/-- The merged entry for `storeB`: `{B, 5}` with quantity 1. -/
def mergedB : Item :=
  { activityId := JSVal.undefined
    title := JSVal.str "B"
    price := JSVal.num 5
    quantity := JSVal.num 1 }

/-- A gateway line item: one "A" charged 10.00. -/
def lineA : LineItem :=
  { description := some "A"
    amount_total := 1000
    quantity := some 1 }

/-- A gateway environment whose random source returns another code. -/
def secondDrawEnv (session : StripeSession) : Env :=
  { gatewayEnv session with randomCode := "Z9Y8X7" }

/-- The decimal value of a run of digits; `none` when a character is not a digit. -/
def digitsValue : List Char → Option Nat
  | [] => some 0
  | cs => cs.foldl (fun acc c =>
      match acc with
      | some n => if c.isDigit then some (n * 10 + (c.toNat - 48)) else none
      | none => none) (some 0)

/-- A decimal reader for the samples: an optional minus sign and digits denote
an integer, anything else denotes no number. -/
def readInteger (s : String) : JSVal :=
  match s.data with
  | [] => JSVal.nan
  | '-' :: cs =>
    match cs, digitsValue cs with
    | _ :: _, some n => JSVal.num (-(n : ℚ))
    | _, _ => JSVal.nan
  | cs =>
    match digitsValue cs with
    | some n => JSVal.num (n : ℚ)
    | none => JSVal.nan

/-- A number printer for the samples, exact on integers (the samples use
integer amounts only; other numbers are written as a fraction). -/
def writeInteger (q : ℚ) : String :=
  (if q.num < 0 then "-" else "") ++ Nat.repr q.num.natAbs ++
    (if q.den = 1 then "" else "/" ++ Nat.repr q.den)

/-- A runtime for the samples: integer amounts, a fixed clock and date texts, a
QR renderer that succeeds. -/
def sampleRuntime : Runtime :=
  { numberToString := writeInteger
    stringToNumber := readInteger
    formatPaymentDate := fun _ => "01 January 2025 at 10:00"
    formatBookingDate := fun _ => "01 January 2025"
    now := 1000
    currentYear := 2025
    randomCode := "A1B2C3"
    toDataURL := fun _ => some "data:image/png;base64,QR"
    encodeURIComponent := fun s => s
    quoteJSONString := fun s => "\"" ++ s ++ "\"" }

/-- The booking data with no property at all. -/
def emptyReceiptData : ReceiptData :=
  { bookingId := JSVal.undefined
    receiptNumber := JSVal.undefined
    packageName := JSVal.undefined
    packageId := JSVal.undefined
    originalAmount := JSVal.undefined
    amount := JSVal.undefined
    finalAmount := JSVal.undefined
    discountAmount := JSVal.undefined
    couponCode := JSVal.undefined
    customerName := JSVal.undefined
    customerEmail := JSVal.undefined
    userId := none
    paymentDate := JSVal.undefined
    timestamp := JSVal.undefined }

/-- The gateway environment with the sample decimal reader as `parseFloat`. -/
def decimalEnv (session : StripeSession) : Env :=
  { gatewayEnv session with parseFloat := readInteger }

/-- A checkout request with the given original amount, discount and coupon, and
an amount of 50. -/
def amountsRequest (originalAmount discountAmount couponCode : JSVal) : CheckoutRequest :=
  { sampleCheckoutRequest with
    amount := JSVal.num 50
    originalAmount := originalAmount
    discountAmount := discountAmount
    couponCode := couponCode }

/-- The paid gateway session that carries the metadata written for a request. -/
def sessionOf (req : CheckoutRequest) : StripeSession :=
  paidSession (checkoutMetadata sampleRuntime 1000 (JSVal.str "KOB-A1B2C3") req)

/-- Booking data with a discount of zero and nothing else. -/
def zeroDiscountData : ReceiptData :=
  { emptyReceiptData with discountAmount := JSVal.num 0 }

/-- Booking data of a free booking: original amount 200, discount 200, coupon
`FREE100`, neither `amount` nor `finalAmount`. -/
def freeBookingData : ReceiptData :=
  { emptyReceiptData with
    originalAmount := JSVal.num 200
    discountAmount := JSVal.num 200
    couponCode := JSVal.str "FREE100" }

/-- Booking data with a discount of 50 on 200, paid 150, coupon `SAVE50`. -/
def quarterDiscountData : ReceiptData :=
  { emptyReceiptData with
    originalAmount := JSVal.num 200
    discountAmount := JSVal.num 50
    finalAmount := JSVal.num 150
    couponCode := JSVal.str "SAVE50" }

/-- Booking data whose original and final amounts are 0 while `amount` is 50. -/
def zeroAmountsData : ReceiptData :=
  { emptyReceiptData with
    originalAmount := JSVal.num 0
    finalAmount := JSVal.num 0
    amount := JSVal.num 50 }

/-- Booking data with a negative discount amount on an original amount of 200. -/
def negativeDiscountData : ReceiptData :=
  { emptyReceiptData with
    originalAmount := JSVal.num 200
    discountAmount := JSVal.num (-50)
    couponCode := JSVal.str "SAVE50" }

/-- Booking data whose discount amount is the numeric string `"20"`. -/
def stringDiscountData : ReceiptData :=
  { emptyReceiptData with
    originalAmount := JSVal.num 100
    discountAmount := JSVal.str "20"
    finalAmount := JSVal.num 80
    couponCode := JSVal.str "SAVE20" }

/-- Booking data whose original amount is the numeric string `"100"`. -/
def stringOriginalData : ReceiptData :=
  { emptyReceiptData with
    originalAmount := JSVal.str "100"
    discountAmount := JSVal.num 20
    finalAmount := JSVal.num 80
    couponCode := JSVal.str "SAVE20" }

/-- The booking data with a string original amount, without its coupon code. -/
def stringOriginalNoCoupon : ReceiptData :=
  { stringOriginalData with couponCode := JSVal.undefined }

/-- Booking data that carries only a booking id and a receipt number. -/
def identifiedData (bookingId receiptNumber : JSVal) : ReceiptData :=
  { emptyReceiptData with
    bookingId := bookingId
    receiptNumber := receiptNumber }

/-- The radix-36 digit of a value below 36: `0`-`9`, then `a`-`z`. -/
def radixDigit (n : Nat) : Char :=
  if n < 10 then Char.ofNat (48 + n) else Char.ofNat (87 + n)

/-- The first `count` radix-36 digits after the point of `num / den`, a number
below 1, stopping where the expansion ends. -/
def radixFraction (den : Nat) : Nat → Nat → List Char
  | 0, _ => []
  | count + 1, num =>
    if num = 0 then []
    else radixDigit (36 * num / den) :: radixFraction den count (36 * num % den)

/-- The text `r.toString(36)` of a number `0 ≤ r < 1` whose radix-36 expansion
ends within ten digits: `0` for zero, else `0.` and the digits of the expansion
(`0.i` for one half, `0.9` for a quarter). -/
def radix36Text (r : ℚ) : String :=
  if r.num = 0 then "0" else "0." ++ String.mk (radixFraction r.den 10 r.num.natAbs)

/-- The sample environment after the random source returned `r`. -/
def drawEnv (r : ℚ) : Env :=
  { sampleEnv with randomCode := randomCodeOf (radix36Text r) }

/-- The sample runtime after the random source returned `r`. -/
def drawRuntime (r : ℚ) : Runtime :=
  { sampleRuntime with randomCode := randomCodeOf (radix36Text r) }

/-- A paid gateway session whose metadata has no booking id. -/
def unbookedSession : StripeSession :=
  paidSession [("userId", "user-1")]

/-- Booking data with every property present: a booking of 100 without a
discount, identified as `KOB-OLD123`. -/
def completeReceiptData : ReceiptData :=
  { bookingId := JSVal.str "KOB-OLD123"
    receiptNumber := JSVal.str "KOB-OLD123"
    packageName := JSVal.str "Game Drive"
    packageId := JSVal.str "pkg-1"
    originalAmount := JSVal.num 100
    amount := JSVal.num 100
    finalAmount := JSVal.num 100
    discountAmount := JSVal.num 0
    couponCode := JSVal.null
    customerName := JSVal.str "Ada"
    customerEmail := JSVal.str "ada@example.com"
    userId := some "user-1"
    paymentDate := JSVal.str "2025-01-01T10:00:00.000Z"
    timestamp := JSVal.num 1000 }

/-- The sample runtime with a QR renderer that rejects. -/
def failingQrRuntime : Runtime :=
  { sampleRuntime with toDataURL := fun _ => none }

/-- The sample runtime with another draw of the random source. -/
def secondDrawRuntime : Runtime :=
  { sampleRuntime with randomCode := "Z9Y8X7" }

/-- The sample runtime one year later. -/
def nextYearRuntime : Runtime :=
  { sampleRuntime with now := 31536001000, currentYear := 2026 }

/-- A gateway environment in which every store operation, the admin
notification and the e-mail transport reject. -/
def allFailEnv (session : StripeSession) : Env :=
  { gatewayEnv session with fails := fun _ => true }

/-- A receipt request for the gateway session `cs_test_1` and the checkout
session `chk-1`. -/
def sampleReceiptRequest : ReceiptRequest :=
  { email := some "ada@example.com"
    name := some "Ada"
    sessionId := some "cs_test_1"
    checkoutId := some "chk-1" }

/-- A gateway environment whose receipt renderer throws. -/
def renderFailsEnv (session : StripeSession) : Env :=
  { gatewayEnv session with generateReceiptHtml := fun _ _ => none }

/-- The gateway entry of the scenario: "Game Drive" with the line total 100 and
quantity 2. -/
def gatewayGameDrive : Item :=
  { activityId := JSVal.undefined
    title := JSVal.str "Game Drive"
    price := JSVal.num 100
    quantity := JSVal.num 2 }

/-- The merged entry for the store item `gameDrive`: "Game Drive" at the unit
price 50, quantity 2. -/
def mergedGameDrive : Item :=
  { activityId := JSVal.undefined
    title := JSVal.str "Game Drive"
    price := JSVal.num 50
    quantity := JSVal.num 2 }

/-- Booking data with the given discount on the given original amount, under
the coupon `SAVE`. -/
def discountedData (discount original : ℚ) : ReceiptData :=
  { emptyReceiptData with
    originalAmount := JSVal.num original
    discountAmount := JSVal.num discount
    couponCode := JSVal.str "SAVE" }

/-- A checkout request without an amount whose only item has the given price
and quantity. -/
def pricedRequest (price quantity : ℚ) : CheckoutRequest :=
  { sampleCheckoutRequest with
    items := some [{ activityId := JSVal.undefined, title := JSVal.str "Game Drive",
                     price := JSVal.num price, quantity := JSVal.num quantity }] }

/-! ## Store lemmas -/

theorem getDoc_updateDoc {α : Type} (c : List (String × α)) (id k : String) (f : α → α) :
    getDoc (updateDoc c id f) k = (getDoc c k).map (fun d => if k = id then f d else d) := by
  induction c with
  | nil => rfl
  | cons p c ih =>
    obtain ⟨a, v⟩ := p
    simp only [getDoc, updateDoc, List.map_cons, List.lookup_cons] at ih ⊢
    by_cases hid : a = id
    · by_cases hk : k = a
      · subst hk; simp [hid]
      · have hk2 : (k == a) = false := by simpa using hk
        simp only [hid, if_true] at ih ⊢
        rw [hid] at hk2
        simp only [List.lookup, hk2]
        exact ih
    · by_cases hk : k = a
      · subst hk; simp [hid]
      · have hk2 : (k == a) = false := by simpa using hk
        rw [show (if (a, v).1 = id then ((a, v).1, f (a, v).2) else (a, v)) = (a, v) from
          if_neg hid]
        simp only [List.lookup, hk2]
        exact ih

theorem clearCart_ok {env : Env} {uid : JSVal} {w w1 : World}
    (h : clearCart env uid w = (w1, Outcome.ok)) :
    ∃ u, uid = JSVal.str u ∧ u ≠ "" ∧ env.fails Op.pspClearCart = false ∧
      (getDoc w.store.carts u).isSome = true ∧
      w1 = { store := cartCleared env u w.store,
             trace := w.trace ++ [Event.storeUpdate "carts" u] } := by
  unfold clearCart at h
  split at h
  · rename_i u
    split at h
    · simp at h
    · rename_i hu
      simp only [World.emit] at h
      split at h
      · simp at h
      · rename_i hf
        split at h
        · simp at h
        · rename_i c hc
          refine ⟨u, rfl, hu, by simpa using hf, by simp [hc], ?_⟩
          simp only [Prod.mk.injEq, and_true] at h
          rw [← h]
          simp only [cartCleared]
  · simp at h

theorem clearCart_threw {env : Env} {uid : JSVal} {w w1 : World} {m : String}
    (h : clearCart env uid w = (w1, Outcome.threw m)) : w1.store = w.store := by
  unfold clearCart at h
  split at h
  · split at h
    · simp only [Prod.mk.injEq] at h; rw [← h.1]
    · simp only [World.emit] at h
      split at h
      · simp only [Prod.mk.injEq] at h; rw [← h.1]
      · split at h
        · simp only [Prod.mk.injEq] at h; rw [← h.1]
        · simp at h
  · simp only [Prod.mk.injEq] at h; rw [← h.1]

theorem psp_ok_fresh {env : Env} {cid : String} {s : StripeSession} {b : JSVal}
    {w w1 : World} {doc : CheckoutDoc}
    (hdoc : getDoc w.store.checkoutSessions cid = some doc)
    (hfresh : alreadyProcessed doc = false)
    (h : processSuccessfulPayment env cid s b w = (w1, Outcome.ok)) :
    (itemsOf doc = [] ∧
      w1 = { store := sessionMarked env cid s b w.store,
             trace := w.trace ++ [Event.storeUpdate "checkoutSessions" cid] }) ∨
    (itemsOf doc ≠ [] ∧ ∃ u, doc.userId = JSVal.str u ∧ u ≠ "" ∧
      (getDoc w.store.carts u).isSome = true ∧
      w1 = { store := cartCleared env u
               (purchasesAdded env doc.userId cid s b (itemsOf doc)
                 (sessionMarked env cid s b w.store)),
             trace := w.trace ++ [Event.storeUpdate "checkoutSessions" cid,
               Event.storeBatchCommit "purchasedActivities" (itemsOf doc).length,
               Event.storeUpdate "carts" u] }) := by
  unfold processSuccessfulPayment at h
  split at h
  · simp at h
  split at h
  · simp at h
  rw [hdoc] at h
  simp only [hfresh, Bool.false_eq_true, if_false, World.emit] at h
  split at h
  · simp at h
  split at h
  · rename_i i rest hitems
    split at h
    · simp at h
    · obtain ⟨u, hu, hne, -, hcart, hw⟩ := clearCart_ok h
      right
      refine ⟨by simp [itemsOf, hitems], u, hu, hne, hcart, ?_⟩
      rw [hw]
      simp [itemsOf, hitems, cartCleared, purchasesAdded, sessionMarked]
  · rename_i hitems
    left
    have hnil : itemsOf doc = [] := by
      unfold itemsOf
      cases hi : doc.items with
      | none => rfl
      | some l =>
        cases l with
        | nil => rfl
        | cons i rest => exact absurd hi (hitems i rest)
    refine ⟨hnil, ?_⟩
    simp only [Prod.mk.injEq, and_true] at h
    rw [← h]
    simp only [sessionMarked]

theorem psp_threw {env : Env} {cid : String} {s : StripeSession} {b : JSVal}
    {w w1 : World} {m : String}
    (h : processSuccessfulPayment env cid s b w = (w1, Outcome.threw m)) :
    w1.store = w.store ∨
    (∃ doc, getDoc w.store.checkoutSessions cid = some doc ∧ alreadyProcessed doc = false ∧
      itemsOf doc ≠ [] ∧ env.fails Op.pspUpdateSession = false ∧
      env.fails Op.pspCommit = true ∧
      w1.store = sessionMarked env cid s b w.store) ∨
    (∃ doc, getDoc w.store.checkoutSessions cid = some doc ∧ alreadyProcessed doc = false ∧
      itemsOf doc ≠ [] ∧ env.fails Op.pspUpdateSession = false ∧
      env.fails Op.pspCommit = false ∧
      w1.store = purchasesAdded env doc.userId cid s b (itemsOf doc)
        (sessionMarked env cid s b w.store)) := by
  unfold processSuccessfulPayment at h
  split at h
  · simp only [Prod.mk.injEq] at h; left; rw [← h.1]
  split at h
  · simp only [Prod.mk.injEq] at h; left; rw [← h.1]
  split at h
  · simp only [Prod.mk.injEq] at h; left; rw [← h.1]
  rename_i doc hdoc
  split at h
  · simp at h
  rename_i hfresh
  simp only [World.emit] at h
  split at h
  · simp only [Prod.mk.injEq] at h; left; rw [← h.1]
  rename_i hupd
  split at h
  · rename_i i rest hitems
    have hne : itemsOf doc ≠ [] := by simp [itemsOf, hitems]
    split at h
    · rename_i hc
      right; left
      refine ⟨doc, hdoc, by simpa using hfresh, hne, by simpa using hupd, hc, ?_⟩
      simp only [Prod.mk.injEq] at h
      rw [← h.1]
      simp only [sessionMarked]
    · rename_i hc
      right; right
      refine ⟨doc, hdoc, by simpa using hfresh, hne, by simpa using hupd, by simpa using hc, ?_⟩
      rw [clearCart_threw h]
      simp [itemsOf, hitems, purchasesAdded, sessionMarked]
  · simp at h

theorem alreadyProcessed_markCompleted (env : Env) (s : StripeSession) (b : JSVal)
    (d : CheckoutDoc) : alreadyProcessed (markCompleted env s b d) = true := by
  simp [alreadyProcessed, markCompleted, JSVal.strictEq]

theorem psp_noop_of_processed (env : Env) (s : StripeSession) (b : JSVal) {cid : String}
    {w : World} {d : CheckoutDoc}
    (hdoc : getDoc w.store.checkoutSessions cid = some d) (hp : alreadyProcessed d = true) :
    (processSuccessfulPayment env cid s b w).1 = w := by
  unfold processSuccessfulPayment
  split
  · rfl
  split
  · rfl
  rw [hdoc]
  simp [hp]

/-- C1. Reconciliation mutates inventory exactly once. For a checkout session
with a non-empty item list, let a run of `processSuccessfulPayment` succeed and
leave the world `w1`. Then a second run on `w1` (any gateway session, booking id
and environment) returns `w1` itself: the store is the same and the trace has
no new entry, so no status update, no batch and no cart update was even
attempted; the second run succeeds when the store can be read. When the first
run is the session's first reconciliation (the session was not yet completed
and paid), the number of `purchasedActivities` records created over both runs
is the number of items of the session. -/
theorem reconciliation_mutates_once (env1 env2 : Env) (cid : String) (s1 s2 : StripeSession)
    (b1 b2 : JSVal) (w w1 : World) (doc : CheckoutDoc)
    (hdoc : getDoc w.store.checkoutSessions cid = some doc)
    (hitems : itemsOf doc ≠ [])
    (hrun : processSuccessfulPayment env1 cid s1 b1 w = (w1, Outcome.ok)) :
    (processSuccessfulPayment env2 cid s2 b2 w1).1 = w1 ∧
    (env2.firebaseInitialized = true → env2.fails Op.pspGet = false →
      (processSuccessfulPayment env2 cid s2 b2 w1).2 = Outcome.ok) ∧
    (alreadyProcessed doc = false →
      (processSuccessfulPayment env2 cid s2 b2 w1).1.store.purchasedActivities.length =
        w.store.purchasedActivities.length + (itemsOf doc).length) := by
  have hw1 : ∃ d, getDoc w1.store.checkoutSessions cid = some d ∧ alreadyProcessed d = true ∧
      (alreadyProcessed doc = false → w1.store.purchasedActivities.length =
        w.store.purchasedActivities.length + (itemsOf doc).length) := by
    cases hfresh : alreadyProcessed doc with
    | true =>
      have hnoop := psp_noop_of_processed env1 s1 b1 hdoc hfresh
      rw [hrun] at hnoop
      refine ⟨doc, ?_, hfresh, fun h => by cases h⟩
      rw [show w1 = w from hnoop]
      exact hdoc
    | false =>
      rcases psp_ok_fresh hdoc hfresh hrun with ⟨hnil, _⟩ | ⟨_, u, _, _, _, hw⟩
      · exact absurd hnil hitems
      · refine ⟨markCompleted env1 s1 b1 doc, ?_, alreadyProcessed_markCompleted _ _ _ _,
          fun _ => ?_⟩
        · rw [hw]
          simp [cartCleared, purchasesAdded, sessionMarked, getDoc_updateDoc, hdoc]
        · rw [hw]
          simp [cartCleared, purchasesAdded, sessionMarked]
  obtain ⟨d, hd, hp, hlen⟩ := hw1
  have hnoop := psp_noop_of_processed env2 s2 b2 hd hp
  refine ⟨hnoop, ?_, ?_⟩
  · intro hinit hget
    unfold processSuccessfulPayment
    simp [hinit, hget, hd, hp]
  · intro hfresh
    rw [hnoop]; exact hlen hfresh

/-- A first run on a session with one item succeeds, and a second run on the
world it leaves changes nothing: one purchase record over both runs. -/
theorem reconciliation_mutates_once_witness :
    (processSuccessfulPayment sampleEnv "chk-1" (paidSession []) (JSVal.str "KOB-1")
      (processSuccessfulPayment sampleEnv "chk-1" (paidSession []) (JSVal.str "KOB-1")
        (sampleWorld (awaitingDoc (some [gameDrive])) [gameDrive])).1).1 =
      (processSuccessfulPayment sampleEnv "chk-1" (paidSession []) (JSVal.str "KOB-1")
        (sampleWorld (awaitingDoc (some [gameDrive])) [gameDrive])).1 ∧
    (processSuccessfulPayment sampleEnv "chk-1" (paidSession []) (JSVal.str "KOB-1")
      (processSuccessfulPayment sampleEnv "chk-1" (paidSession []) (JSVal.str "KOB-1")
        (sampleWorld (awaitingDoc (some [gameDrive])) [gameDrive])).1).1.store.purchasedActivities.length
      = 1 :=
  have h := reconciliation_mutates_once sampleEnv sampleEnv "chk-1" (paidSession [])
    (paidSession []) (JSVal.str "KOB-1") (JSVal.str "KOB-1")
    (sampleWorld (awaitingDoc (some [gameDrive])) [gameDrive])
    (processSuccessfulPayment sampleEnv "chk-1" (paidSession []) (JSVal.str "KOB-1")
      (sampleWorld (awaitingDoc (some [gameDrive])) [gameDrive])).1
    (awaitingDoc (some [gameDrive])) (by decide) (by decide) (by decide)
  ⟨h.1, h.2.2 (by decide)⟩

/-- C4 (counterexample). The batch commit is rejected on a session that has not
been reconciled: `processSuccessfulPayment` fails, yet the store has changed:
the session is marked completed although no purchase record exists and the
cart still holds its item. -/
theorem reconciliation_not_atomic :
    (processSuccessfulPayment commitFailsEnv "chk-1" (paidSession []) (JSVal.str "KOB-1")
      (sampleWorld (awaitingDoc (some [gameDrive])) [gameDrive])).2 =
        Outcome.threw "batch commit failed" ∧
    (processSuccessfulPayment commitFailsEnv "chk-1" (paidSession []) (JSVal.str "KOB-1")
      (sampleWorld (awaitingDoc (some [gameDrive])) [gameDrive])).1.store ≠
        (sampleWorld (awaitingDoc (some [gameDrive])) [gameDrive]).store ∧
    (getDoc (processSuccessfulPayment commitFailsEnv "chk-1" (paidSession [])
      (JSVal.str "KOB-1")
      (sampleWorld (awaitingDoc (some [gameDrive])) [gameDrive])).1.store.checkoutSessions
        "chk-1").map (fun d => d.status) = some (JSVal.str "completed") ∧
    (processSuccessfulPayment commitFailsEnv "chk-1" (paidSession []) (JSVal.str "KOB-1")
      (sampleWorld (awaitingDoc (some [gameDrive])) [gameDrive])).1.store.purchasedActivities
        = [] := by
  decide

theorem sessionMarked_getDoc (env : Env) (cid : String) (s : StripeSession) (b : JSVal)
    (st : Store) (doc : CheckoutDoc) (hdoc : getDoc st.checkoutSessions cid = some doc) :
    getDoc (sessionMarked env cid s b st).checkoutSessions cid =
      some (markCompleted env s b doc) := by
  unfold sessionMarked
  simp [getDoc_updateDoc, hdoc]

theorem sessionMarked_ne (env : Env) (cid : String) (s : StripeSession) (b : JSVal)
    (st : Store) (doc : CheckoutDoc) (hdoc : getDoc st.checkoutSessions cid = some doc)
    (hfresh : alreadyProcessed doc = false) :
    (sessionMarked env cid s b st).checkoutSessions ≠ st.checkoutSessions := by
  intro heq
  have h := sessionMarked_getDoc env cid s b st doc hdoc
  rw [heq, hdoc] at h
  have hp := alreadyProcessed_markCompleted env s b doc
  rw [← Option.some.inj h, hfresh] at hp
  cases hp

/-- C4 (amended). The writes of `processSuccessfulPayment` are applied one after
the other. When the call fails the cart is never cleared and the store holds a
prefix of the writes. It is unchanged when the failure comes at or before the
status update (store not connected, read rejected, session missing, update
rejected). In every other failure the session was not yet reconciled and has
items, and the store has changed: the session is marked completed and paid.
Then, when the batch commit is rejected, the store is the old one with the
session marked and no purchase record added; when the batch commit is
accepted, so the cart update is what failed, the store is the old one with the
session marked and the purchase record of every item added. -/
theorem reconciliation_failure_keeps_earlier_writes (env : Env) (cid : String) (s : StripeSession)
    (b : JSVal) (w w1 : World) (m : String)
    (h : processSuccessfulPayment env cid s b w = (w1, Outcome.threw m)) :
    w1.store.carts = w.store.carts ∧
    ((env.firebaseInitialized = false ∨ env.fails Op.pspGet = true ∨
        getDoc w.store.checkoutSessions cid = none ∨ env.fails Op.pspUpdateSession = true) →
      w1.store = w.store) ∧
    (∀ doc : CheckoutDoc, env.firebaseInitialized = true → env.fails Op.pspGet = false →
      getDoc w.store.checkoutSessions cid = some doc →
      env.fails Op.pspUpdateSession = false →
      alreadyProcessed doc = false ∧ itemsOf doc ≠ [] ∧
      w1.store ≠ w.store ∧
      getDoc w1.store.checkoutSessions cid = some (markCompleted env s b doc) ∧
      (markCompleted env s b doc).status = JSVal.str "completed" ∧
      (markCompleted env s b doc).paymentStatus = JSVal.str "paid" ∧
      (env.fails Op.pspCommit = true →
        w1.store = sessionMarked env cid s b w.store ∧
        w1.store.purchasedActivities = w.store.purchasedActivities) ∧
      (env.fails Op.pspCommit = false →
        w1.store = purchasesAdded env doc.userId cid s b (itemsOf doc)
          (sessionMarked env cid s b w.store) ∧
        w1.store.purchasedActivities =
          w.store.purchasedActivities ++
            (itemsOf doc).map (purchaseOf env doc.userId cid s b))) ∧
    (w1.store = w.store ∨
      (∃ doc, getDoc w.store.checkoutSessions cid = some doc ∧ alreadyProcessed doc = false ∧
        itemsOf doc ≠ [] ∧ env.fails Op.pspCommit = true ∧
        w1.store = sessionMarked env cid s b w.store) ∨
      (∃ doc, getDoc w.store.checkoutSessions cid = some doc ∧ alreadyProcessed doc = false ∧
        itemsOf doc ≠ [] ∧ env.fails Op.pspCommit = false ∧
        w1.store = purchasesAdded env doc.userId cid s b (itemsOf doc)
          (sessionMarked env cid s b w.store))) := by
  have hcases := psp_threw h
  have hearly : (env.firebaseInitialized = false ∨ env.fails Op.pspGet = true ∨
        getDoc w.store.checkoutSessions cid = none ∨ env.fails Op.pspUpdateSession = true) →
      w1.store = w.store := by
    intro hearly
    rcases hcases with h0 | ⟨doc, hdoc, _, _, hupd, _, _⟩ | ⟨doc, hdoc, _, _, hupd, _, _⟩
    · exact h0
    · unfold processSuccessfulPayment at h
      rcases hearly with h1 | h1 | h1 | h1
      · simp [h1] at h; rw [← h.1]
      · simp [h1] at h
        split at h <;> · simp only [Prod.mk.injEq] at h; rw [← h.1]
      · rw [h1] at hdoc; cases hdoc
      · rw [h1] at hupd; cases hupd
    · unfold processSuccessfulPayment at h
      rcases hearly with h1 | h1 | h1 | h1
      · simp [h1] at h; rw [← h.1]
      · simp [h1] at h
        split at h <;> · simp only [Prod.mk.injEq] at h; rw [← h.1]
      · rw [h1] at hdoc; cases hdoc
      · rw [h1] at hupd; cases hupd
  refine ⟨?_, hearly, ?_, ?_⟩
  · rcases hcases with h0 | ⟨doc, _, _, _, _, _, h1⟩ | ⟨doc, _, _, _, _, _, h2⟩
    · rw [h0]
    · rw [h1]; rfl
    · rw [h2]; rfl
  · intro doc hinit hget hdoc hupd
    -- the failure is past the status update
    have hlate : ∃ d, getDoc w.store.checkoutSessions cid = some d ∧
        alreadyProcessed d = false ∧ itemsOf d ≠ [] ∧
        ((env.fails Op.pspCommit = true ∧ w1.store = sessionMarked env cid s b w.store) ∨
          (env.fails Op.pspCommit = false ∧
            w1.store = purchasesAdded env d.userId cid s b (itemsOf d)
              (sessionMarked env cid s b w.store))) := by
      rcases hcases with h0 | ⟨d, hd, hf, hi, _, hc, h1⟩ | ⟨d, hd, hf, hi, _, hc, h2⟩
      · exfalso
        unfold processSuccessfulPayment at h
        simp only [hinit, hget, hdoc, Bool.not_true, Bool.false_eq_true, if_false] at h
        split at h
        · cases h
        · simp only [World.emit, hupd, Bool.false_eq_true, if_false] at h
          rename_i hfresh
          have hfresh2 : alreadyProcessed doc = false := by simpa using hfresh
          split at h
          · split at h
            · simp only [Prod.mk.injEq] at h
              have h2 := h0
              rw [← h.1] at h2
              exact sessionMarked_ne env cid s b w.store doc hdoc hfresh2
                (congrArg Store.checkoutSessions h2)
            · have h2 := clearCart_threw h
              rw [h0] at h2
              exact sessionMarked_ne env cid s b w.store doc hdoc hfresh2
                (congrArg Store.checkoutSessions h2).symm
          · cases h
      · exact ⟨d, hd, hf, hi, Or.inl ⟨hc, h1⟩⟩
      · exact ⟨d, hd, hf, hi, Or.inr ⟨hc, h2⟩⟩
    obtain ⟨d, hd, hf, hi, hstate⟩ := hlate
    rw [hdoc] at hd
    cases hd
    have hsessions : w1.store.checkoutSessions =
        (sessionMarked env cid s b w.store).checkoutSessions := by
      rcases hstate with ⟨_, h1⟩ | ⟨_, h2⟩
      · rw [h1]
      · rw [h2]; rfl
    refine ⟨hf, hi, ?_, ?_, rfl, rfl, ?_, ?_⟩
    · intro heq
      rw [heq] at hsessions
      exact sessionMarked_ne env cid s b w.store doc hdoc hf hsessions.symm
    · rw [hsessions]
      exact sessionMarked_getDoc env cid s b w.store doc hdoc
    · intro hc
      rcases hstate with ⟨_, h1⟩ | ⟨hc2, _⟩
      · exact ⟨h1, by rw [h1]; rfl⟩
      · rw [hc] at hc2; cases hc2
    · intro hc
      rcases hstate with ⟨hc2, _⟩ | ⟨_, h2⟩
      · rw [hc] at hc2; cases hc2
      · exact ⟨h2, by rw [h2]; rfl⟩
  · rcases hcases with h0 | ⟨doc, hdoc, hf, hi, _, hc, h1⟩ | ⟨doc, hdoc, hf, hi, _, hc, h2⟩
    · exact Or.inl h0
    · exact Or.inr (Or.inl ⟨doc, hdoc, hf, hi, hc, h1⟩)
    · exact Or.inr (Or.inr ⟨doc, hdoc, hf, hi, hc, h2⟩)

/-- With the batch commit rejected the call fails and leaves the cart as it
was and the session marked completed: the store is the old one with the
session marked, and it is not the old store. -/
theorem reconciliation_failure_keeps_earlier_writes_witness :
    (processSuccessfulPayment commitFailsEnv "chk-1" (paidSession []) (JSVal.str "KOB-1")
      (sampleWorld (awaitingDoc (some [gameDrive])) [gameDrive])).1.store.carts =
      (sampleWorld (awaitingDoc (some [gameDrive])) [gameDrive]).store.carts ∧
    (processSuccessfulPayment commitFailsEnv "chk-1" (paidSession []) (JSVal.str "KOB-1")
      (sampleWorld (awaitingDoc (some [gameDrive])) [gameDrive])).1.store =
      sessionMarked commitFailsEnv "chk-1" (paidSession []) (JSVal.str "KOB-1")
        (sampleWorld (awaitingDoc (some [gameDrive])) [gameDrive]).store ∧
    (processSuccessfulPayment commitFailsEnv "chk-1" (paidSession []) (JSVal.str "KOB-1")
      (sampleWorld (awaitingDoc (some [gameDrive])) [gameDrive])).1.store ≠
      (sampleWorld (awaitingDoc (some [gameDrive])) [gameDrive]).store :=
  have t := reconciliation_failure_keeps_earlier_writes commitFailsEnv "chk-1" (paidSession [])
    (JSVal.str "KOB-1") (sampleWorld (awaitingDoc (some [gameDrive])) [gameDrive])
    (processSuccessfulPayment commitFailsEnv "chk-1" (paidSession []) (JSVal.str "KOB-1")
      (sampleWorld (awaitingDoc (some [gameDrive])) [gameDrive])).1
    "batch commit failed" (by decide)
  have u := t.2.2.1 (awaitingDoc (some [gameDrive])) rfl rfl rfl rfl
  ⟨t.1, (u.2.2.2.2.2.2.1 rfl).1, u.2.2.1⟩

/-- C5 (counterexample). A session that is not yet reconciled and has an empty
item list: `processSuccessfulPayment` succeeds and marks it completed, but the
cart of its user is not cleared. -/
theorem first_reconciliation_keeps_cart_of_empty_session :
    alreadyProcessed (awaitingDoc (some [])) = false ∧
    (processSuccessfulPayment sampleEnv "chk-1" (paidSession []) (JSVal.str "KOB-1")
      (sampleWorld (awaitingDoc (some [])) [gameDrive])).2 = Outcome.ok ∧
    (getDoc (processSuccessfulPayment sampleEnv "chk-1" (paidSession []) (JSVal.str "KOB-1")
      (sampleWorld (awaitingDoc (some [])) [gameDrive])).1.store.carts "user-1").map
        (fun c => c.items) = some [gameDrive] := by
  decide

/-- C5 (amended). Postcondition of a first reconciliation. For an existing
session that is not already completed and paid, after a successful
`processSuccessfulPayment(checkoutSessionId, stripeSession, bookingId)`: the
session has status `completed`, paymentStatus `paid` and the given booking id;
the purchase records created are exactly one per item of the session, in order,
each copying the item's activityId, title, price and quantity and carrying the
session's userId, the checkout session id, the gateway session id, the booking
id and status `active`; and, when the session has at least one item, the cart of
its user has an empty item list, while for a session without items the carts
are left as they were. -/
theorem first_reconciliation_postcondition (env : Env) (cid : String) (s : StripeSession)
    (b : JSVal) (w w1 : World) (doc : CheckoutDoc)
    (hdoc : getDoc w.store.checkoutSessions cid = some doc)
    (hfresh : alreadyProcessed doc = false)
    (h : processSuccessfulPayment env cid s b w = (w1, Outcome.ok)) :
    (∃ d, getDoc w1.store.checkoutSessions cid = some d ∧
      d.status = JSVal.str "completed" ∧ d.paymentStatus = JSVal.str "paid" ∧
      d.bookingId = b) ∧
    w1.store.purchasedActivities = w.store.purchasedActivities ++
      (itemsOf doc).map (fun item =>
        { userId := doc.userId
          activityId := item.activityId
          title := item.title
          price := item.price
          quantity := item.quantity
          purchaseDate := env.now
          checkoutSessionId := cid
          stripeSessionId := s.id
          bookingId := b
          status := "active" }) ∧
    (itemsOf doc ≠ [] → ∃ u cart, doc.userId = JSVal.str u ∧
      getDoc w1.store.carts u = some cart ∧ cart.items = []) ∧
    (itemsOf doc = [] → w1.store.carts = w.store.carts) := by
  have hmark : ∀ st : Store, st.checkoutSessions =
      updateDoc w.store.checkoutSessions cid (markCompleted env s b) →
      ∃ d, getDoc st.checkoutSessions cid = some d ∧
        d.status = JSVal.str "completed" ∧ d.paymentStatus = JSVal.str "paid" ∧
        d.bookingId = b := by
    intro st hst
    refine ⟨markCompleted env s b doc, ?_, rfl, rfl, rfl⟩
    rw [hst, getDoc_updateDoc, hdoc]
    simp
  rcases psp_ok_fresh hdoc hfresh h with ⟨hnil, hw⟩ | ⟨hne, u, hu, _, hcart, hw⟩
  · refine ⟨hmark _ (by rw [hw]; rfl), ?_, fun hc => absurd hnil hc, fun _ => by rw [hw]; rfl⟩
    rw [hw, hnil]
    simp [sessionMarked]
  · refine ⟨hmark _ (by rw [hw]; rfl), ?_, fun _ => ?_, fun hc => absurd hc hne⟩
    · rw [hw]
      simp only [cartCleared, purchasesAdded, sessionMarked]
      rfl
    · obtain ⟨c, hc⟩ := Option.isSome_iff_exists.mp hcart
      refine ⟨u, { c with items := [], lastUpdated := some env.now }, hu, ?_, rfl⟩
      rw [hw]
      simp only [cartCleared, purchasesAdded, sessionMarked]
      rw [getDoc_updateDoc, hc]
      simp

/-- A first reconciliation of a session with one item: the session is marked,
one purchase record is created and the cart is emptied. -/
theorem first_reconciliation_postcondition_witness :
    (processSuccessfulPayment sampleEnv "chk-1" (paidSession []) (JSVal.str "KOB-1")
      (sampleWorld (awaitingDoc (some [gameDrive])) [gameDrive])).1.store.purchasedActivities =
      [{ userId := JSVal.str "user-1"
         activityId := JSVal.str "act-1"
         title := JSVal.str "Game Drive"
         price := JSVal.num 50
         quantity := JSVal.num 2
         purchaseDate := 1000
         checkoutSessionId := "chk-1"
         stripeSessionId := "cs_test_1"
         bookingId := JSVal.str "KOB-1"
         status := "active" }] :=
  (first_reconciliation_postcondition sampleEnv "chk-1" (paidSession []) (JSVal.str "KOB-1")
    (sampleWorld (awaitingDoc (some [gameDrive])) [gameDrive])
    (processSuccessfulPayment sampleEnv "chk-1" (paidSession []) (JSVal.str "KOB-1")
      (sampleWorld (awaitingDoc (some [gameDrive])) [gameDrive])).1
    (awaitingDoc (some [gameDrive])) (by decide) (by decide) (by decide)).2.1

/-! ## Traces and session status across the handlers -/

theorem StaysCompleted.refl (c : List (String × CheckoutDoc)) : StaysCompleted c c :=
  fun _ d hd hs => ⟨d, hd, hs⟩

theorem StaysCompleted.trans {c1 c2 c3 : List (String × CheckoutDoc)}
    (h12 : StaysCompleted c1 c2) (h23 : StaysCompleted c2 c3) : StaysCompleted c1 c3 := by
  intro k d hd hs
  obtain ⟨d2, hd2, hs2⟩ := h12 k d hd hs
  exact h23 k d2 hd2 hs2

theorem StaysCompleted.updateDoc (c : List (String × CheckoutDoc)) (id : String)
    (f : CheckoutDoc → CheckoutDoc)
    (hf : ∀ d, d.status = JSVal.str "completed" → (f d).status = JSVal.str "completed") :
    StaysCompleted c (updateDoc c id f) := by
  intro k d hd hs
  refine ⟨if k = id then f d else d, by rw [getDoc_updateDoc, hd]; rfl, ?_⟩
  split
  · exact hf d hs
  · exact hs

theorem clearCart_sessions (env : Env) (uid : JSVal) (w : World) :
    (clearCart env uid w).1.store.checkoutSessions = w.store.checkoutSessions := by
  unfold clearCart
  split
  · split
    · rfl
    · simp only [World.emit]
      split
      · rfl
      · split <;> rfl
  · rfl

theorem clearCart_adminTrace (env : Env) (uid : JSVal) (w : World) :
    (clearCart env uid w).1.trace.filter Event.isAdminNotification =
      w.trace.filter Event.isAdminNotification := by
  unfold clearCart
  split
  · split
    · rfl
    · simp only [World.emit]
      split
      · simp [List.filter_append, Event.isAdminNotification]
      · split <;> simp [List.filter_append, Event.isAdminNotification]
  · rfl

theorem psp_sessions (env : Env) (cid : String) (s : StripeSession) (b : JSVal) (w : World) :
    (processSuccessfulPayment env cid s b w).1.store.checkoutSessions =
        w.store.checkoutSessions ∨
      (processSuccessfulPayment env cid s b w).1.store.checkoutSessions =
        updateDoc w.store.checkoutSessions cid (markCompleted env s b) := by
  unfold processSuccessfulPayment
  repeat' split
  all_goals first
    | (left; rfl)
    | (right; rfl)
    | (right; rw [clearCart_sessions]; rfl)

theorem psp_adminTrace (env : Env) (cid : String) (s : StripeSession) (b : JSVal) (w : World) :
    (processSuccessfulPayment env cid s b w).1.trace.filter Event.isAdminNotification =
      w.trace.filter Event.isAdminNotification := by
  unfold processSuccessfulPayment
  repeat' split
  all_goals first
    | rfl
    | simp [World.emit, List.filter_append, Event.isAdminNotification, clearCart_adminTrace]

theorem psp_staysCompleted (env : Env) (cid : String) (s : StripeSession) (b : JSVal)
    (w : World) :
    StaysCompleted w.store.checkoutSessions
      (processSuccessfulPayment env cid s b w).1.store.checkoutSessions := by
  rcases psp_sessions env cid s b w with h | h
  · rw [h]; exact StaysCompleted.refl _
  · rw [h]; exact StaysCompleted.updateDoc _ _ _ (fun _ _ => rfl)

theorem verifyProcess_adminTrace (env : Env) (saved : JSVal) (session : StripeSession)
    (w : World) :
    (verifyProcess env saved session w).trace.filter Event.isAdminNotification =
      w.trace.filter Event.isAdminNotification := by
  unfold verifyProcess
  split
  · split
    · exact psp_adminTrace _ _ _ _ _
    · rfl
  · rfl

theorem verifyProcess_staysCompleted (env : Env) (saved : JSVal) (session : StripeSession)
    (w : World) :
    StaysCompleted w.store.checkoutSessions
      (verifyProcess env saved session w).store.checkoutSessions := by
  unfold verifyProcess
  split
  · split
    · exact psp_staysCompleted _ _ _ _ _
    · exact StaysCompleted.refl _
  · exact StaysCompleted.refl _

theorem verifyStoreProcessed_adminTrace (env : Env) (saved : JSVal) (allItems : List Item)
    (w : World) :
    (verifyStoreProcessed env saved allItems w).trace.filter Event.isAdminNotification =
      w.trace.filter Event.isAdminNotification := by
  unfold verifyStoreProcessed
  split
  · split
    · simp only [World.emit]
      split <;> simp [List.filter_append, Event.isAdminNotification]
    · rfl
  · rfl

theorem verifyStoreProcessed_staysCompleted (env : Env) (saved : JSVal)
    (allItems : List Item) (w : World) :
    StaysCompleted w.store.checkoutSessions
      (verifyStoreProcessed env saved allItems w).store.checkoutSessions := by
  unfold verifyStoreProcessed
  split
  · split
    · simp only [World.emit]
      split
      · exact StaysCompleted.refl _
      · dsimp only
        apply StaysCompleted.updateDoc
        intro d h
        exact h
    · exact StaysCompleted.refl _
  · exact StaysCompleted.refl _

theorem notifyAdmin_fst (env : Env) (bookingData : BookingData) (allItems : List Item)
    (w : World) :
    (notifyAdmin env bookingData allItems w).1 =
      w.emit (Event.adminNotification bookingData allItems) := by
  unfold notifyAdmin
  split <;> rfl

theorem verifyPaid_staysCompleted (env : Env) (sid : String) (requestId : Option String)
    (session : StripeSession) (w : World) :
    StaysCompleted w.store.checkoutSessions
      (verifyPaid env sid requestId session w).1.store.checkoutSessions := by
  unfold verifyPaid
  simp only [notifyAdmin_fst]
  exact StaysCompleted.trans
    (verifyProcess_staysCompleted env (savedCheckoutIdOf requestId session) session w)
    (verifyStoreProcessed_staysCompleted env _ _ (World.emit _ _))

theorem verifyPayment_staysCompleted (env : Env) (req : VerifyRequest) (w : World) :
    StaysCompleted w.store.checkoutSessions
      (verifyPayment env req w).1.store.checkoutSessions := by
  unfold verifyPayment
  split
  · exact StaysCompleted.refl _
  · dsimp only
    split
    · exact StaysCompleted.refl _
    · split
      · exact verifyPaid_staysCompleted env _ _ _ (w.emit _)
      · exact StaysCompleted.refl _

theorem saveReceipt_staysCompleted (env : Env) (email : String) (name : Option String)
    (sid : String) (saved : JSVal) (booking : BookingData) (w : World) :
    StaysCompleted w.store.checkoutSessions
      (saveReceipt env email name sid saved booking w).store.checkoutSessions := by
  unfold saveReceipt
  dsimp only
  split
  · split
    · exact StaysCompleted.refl _
    · split
      · exact StaysCompleted.refl _
      · split
        · dsimp only [World.emit]
          apply StaysCompleted.updateDoc
          intro d h
          exact h
        · dsimp only [World.emit]
          apply StaysCompleted.updateDoc
          intro d h
          exact h
  · split <;> exact StaysCompleted.refl _

theorem sendReceiptEmailRoute_staysCompleted (env : Env) (req : ReceiptRequest) (w : World) :
    StaysCompleted w.store.checkoutSessions
      (sendReceiptEmailRoute env req w).1.store.checkoutSessions := by
  unfold sendReceiptEmailRoute
  split
  · dsimp only
    split
    · exact StaysCompleted.refl _
    · split
      · exact StaysCompleted.refl _
      · unfold sendReceiptPaid
        dsimp only
        split
        · exact StaysCompleted.refl _
        · split
          · exact StaysCompleted.refl _
          · split
            · exact saveReceipt_staysCompleted env _ _ _ _ _ (World.emit (w.emit _) _)
            · exact StaysCompleted.refl _
  · exact StaysCompleted.refl _

theorem recordGatewaySession_status (env : Env) (csid : Option String) (stripeId : String)
    (b : JSVal) (w : World) (cid : String) (doc : CheckoutDoc)
    (hdoc : getDoc w.store.checkoutSessions cid = some doc) :
    (getDoc (recordGatewaySession env csid stripeId b w).store.checkoutSessions cid).map
        (fun d => d.status) =
      some (if docIdOf (JSVal.ofOptStr csid) = some cid ∧ env.firebaseInitialized = true ∧
              env.fails Op.ccUpdateSession = false
            then JSVal.str "awaiting_payment" else doc.status) := by
  unfold recordGatewaySession
  split
  · rename_i k hk
    split
    · rename_i hinit
      dsimp only [World.emit]
      split
      · rename_i hf
        simp [hdoc, hf]
      · rename_i hf
        rw [getDoc_updateDoc, hdoc, hk]
        by_cases hkc : cid = k
        · subst hkc
          simp [hinit, hf]
        · have : ¬ k = cid := fun h => hkc h.symm
          simp [hkc, this]
    · rename_i hinit
      simp [hdoc, hinit]
  · rename_i hk
    simp [hdoc, hk]

theorem createCheckoutSession_status (env : Env) (req : CheckoutRequest) (w : World)
    (cid : String) (doc : CheckoutDoc)
    (hdoc : getDoc w.store.checkoutSessions cid = some doc) :
    (getDoc (createCheckoutSession env req w).1.store.checkoutSessions cid).map
        (fun d => d.status) =
      some (if resetsStatus env req cid = true then JSVal.str "awaiting_payment"
            else doc.status) := by
  unfold createCheckoutSession
  cases hv : validateCheckout req with
  | some e => cases e <;> simp [resetsStatus, hv, hdoc]
  | none =>
    dsimp only
    cases hc : env.create with
    | none => simp [resetsStatus, hc, hdoc, World.emit]
    | some p =>
      obtain ⟨id, url⟩ := p
      dsimp only
      rw [recordGatewaySession_status env req.checkoutSessionId id _ (w.emit _) cid doc hdoc]
      simp [resetsStatus, hv, hc, and_assoc]

theorem createAndRedirectCheckout_status (env : Env) (req : CheckoutRequest) (w : World)
    (cid : String) (doc : CheckoutDoc)
    (hdoc : getDoc w.store.checkoutSessions cid = some doc) :
    (getDoc (createAndRedirectCheckout env (some req) w).1.store.checkoutSessions cid).map
        (fun d => d.status) =
      some (if resetsStatus env req cid = true then JSVal.str "awaiting_payment"
            else doc.status) := by
  unfold createAndRedirectCheckout
  dsimp only
  cases hv : validateCheckout req with
  | some e => cases e <;> simp [resetsStatus, hv, hdoc]
  | none =>
    dsimp only
    cases hc : env.create with
    | none => simp [resetsStatus, hc, hdoc, World.emit]
    | some p =>
      obtain ⟨id, url⟩ := p
      dsimp only
      have hst := recordGatewaySession_status env req.checkoutSessionId id
        (generatedBookingId env) (w.emit (Event.gatewayCreate (generatedBookingId env))) cid doc hdoc
      split
      · dsimp only
        rw [hst]
        simp [resetsStatus, hv, hc, and_assoc]
      · dsimp only
        rw [hst]
        simp [resetsStatus, hv, hc, and_assoc]

/-- C3 (counterexample). A completed checkout session, and a valid
`/create-checkout-session` request that names it: after the call its status is
`awaiting_payment`. -/
theorem create_checkout_session_reopens_completed :
    (completedDoc (some [gameDrive])).status = JSVal.str "completed" ∧
    (getDoc (createCheckoutSession sampleEnv sampleCheckoutRequest
      (sampleWorld (completedDoc (some [gameDrive])) [])).1.store.checkoutSessions
        "chk-1").map (fun d => d.status) = some (JSVal.str "awaiting_payment") := by
  decide

/-- C3 (amended). A checkout session whose status is `completed` keeps that
status through `/verify-payment`, `processSuccessfulPayment` and
`/send-receipt-email`, whatever the request and the environment. The two
checkout-creation routes write `status: 'awaiting_payment'` without reading the
session: a valid request that names the session, with the gateway call
succeeding and the store update accepted, sets a completed session back to
`awaiting_payment`; in every other case they leave it `completed`. -/
theorem completed_status_write_paths (w : World) (cid : String) (doc : CheckoutDoc)
    (hdoc : getDoc w.store.checkoutSessions cid = some doc)
    (hdone : doc.status = JSVal.str "completed") :
    (∀ env req, ∃ d, getDoc (verifyPayment env req w).1.store.checkoutSessions cid = some d ∧
      d.status = JSVal.str "completed") ∧
    (∀ env cid1 s b, ∃ d,
      getDoc (processSuccessfulPayment env cid1 s b w).1.store.checkoutSessions cid = some d ∧
      d.status = JSVal.str "completed") ∧
    (∀ env req, ∃ d,
      getDoc (sendReceiptEmailRoute env req w).1.store.checkoutSessions cid = some d ∧
      d.status = JSVal.str "completed") ∧
    (∀ env req,
      (getDoc (createCheckoutSession env req w).1.store.checkoutSessions cid).map
          (fun d => d.status) =
        some (if resetsStatus env req cid = true then JSVal.str "awaiting_payment"
              else JSVal.str "completed")) ∧
    (∀ env req,
      (getDoc (createAndRedirectCheckout env (some req) w).1.store.checkoutSessions cid).map
          (fun d => d.status) =
        some (if resetsStatus env req cid = true then JSVal.str "awaiting_payment"
              else JSVal.str "completed")) ∧
    (∀ env, (createAndRedirectCheckout env none w).1 = w) := by
  refine ⟨fun env req => verifyPayment_staysCompleted env req w cid doc hdoc hdone,
    fun env cid1 s b => psp_staysCompleted env cid1 s b w cid doc hdoc hdone,
    fun env req => sendReceiptEmailRoute_staysCompleted env req w cid doc hdoc hdone,
    fun env req => ?_, fun env req => ?_, fun env => rfl⟩
  · rw [createCheckoutSession_status env req w cid doc hdoc, hdone]
  · rw [createAndRedirectCheckout_status env req w cid doc hdoc, hdone]

/-- On a completed session, `/verify-payment` leaves the status `completed`. -/
theorem completed_status_write_paths_witness :
    ∃ d, getDoc (verifyPayment sampleEnv sampleVerifyRequest
      (sampleWorld (completedDoc (some [gameDrive])) [])).1.store.checkoutSessions "chk-1" =
        some d ∧ d.status = JSVal.str "completed" :=
  (completed_status_write_paths (sampleWorld (completedDoc (some [gameDrive])) []) "chk-1"
    (completedDoc (some [gameDrive])) (by decide) (by decide)).1 sampleEnv sampleVerifyRequest

theorem verifyPayment_paid_eq (env : Env) (req : VerifyRequest) (w : World) (sid : String)
    (session : StripeSession) (hsid : req.sessionId = some sid) (hne : sid ≠ "")
    (hret : env.retrieve sid = some session) (hpaid : session.payment_status = "paid") :
    verifyPayment env req w =
      verifyPaid env sid req.checkoutSessionId session (w.emit (Event.gatewayRetrieve sid)) := by
  unfold verifyPayment
  simp [hsid, JSVal.ofOptStr, docIdOf, hne, hret, hpaid]

/-- C2 (counterexample). The checkout session is already completed, paid and
flagged `adminNotified`; a further `/verify-payment` call for its paid gateway
session invokes `sendAdminNotification`. -/
theorem verify_payment_renotifies_admin :
    alreadyProcessed (completedDoc (some [gameDrive])) = true ∧
    (completedDoc (some [gameDrive])).adminNotified = JSVal.bool true ∧
    ((verifyPayment (gatewayEnv (paidSession [("bookingId", "KOB-OLD123")]))
      sampleVerifyRequest
      (sampleWorld (completedDoc (some [gameDrive])) [])).1.trace.filter
        Event.isAdminNotification).length = 1 := by
  decide

/-- C2 (amended). Every `/verify-payment` call for a paid gateway session invokes
`sendAdminNotification` exactly once, with the booking data and the merged
items of that call, whatever the state of the checkout session, so also when
the session is already completed, paid and flagged `adminNotified`: the flag is
written after the call and never read. -/
theorem verify_paid_notifies_admin_every_call (env : Env) (req : VerifyRequest) (w : World)
    (sid : String) (session : StripeSession)
    (hsid : req.sessionId = some sid) (hne : sid ≠ "")
    (hret : env.retrieve sid = some session) (hpaid : session.payment_status = "paid") :
    ∃ r, (verifyPayment env req w).2 = VerifyResponse.paid r ∧
      (verifyPayment env req w).1.trace.filter Event.isAdminNotification =
        w.trace.filter Event.isAdminNotification ++
          [Event.adminNotification (verifyBookingData env sid session) r.items] := by
  rw [verifyPayment_paid_eq env req w sid session hsid hne hret hpaid]
  unfold verifyPaid
  refine ⟨_, rfl, ?_⟩
  dsimp only
  rw [verifyStoreProcessed_adminTrace, notifyAdmin_fst]
  simp only [World.emit, List.filter_append, verifyProcess_adminTrace]
  simp [Event.isAdminNotification]

/-- On a session that is already completed and notified, the call notifies the
admins once more. -/
theorem verify_paid_notifies_admin_every_call_witness :
    ∃ r, (verifyPayment (gatewayEnv (paidSession [("bookingId", "KOB-OLD123")]))
        sampleVerifyRequest (sampleWorld (completedDoc (some [gameDrive])) [])).2 =
          VerifyResponse.paid r ∧
      (verifyPayment (gatewayEnv (paidSession [("bookingId", "KOB-OLD123")]))
        sampleVerifyRequest
        (sampleWorld (completedDoc (some [gameDrive])) [])).1.trace.filter
          Event.isAdminNotification =
        (sampleWorld (completedDoc (some [gameDrive])) []).trace.filter
            Event.isAdminNotification ++
          [Event.adminNotification
            (verifyBookingData (gatewayEnv (paidSession [("bookingId", "KOB-OLD123")]))
              "cs_test_1" (paidSession [("bookingId", "KOB-OLD123")])) r.items] :=
  verify_paid_notifies_admin_every_call (gatewayEnv (paidSession [("bookingId", "KOB-OLD123")]))
    sampleVerifyRequest (sampleWorld (completedDoc (some [gameDrive])) []) "cs_test_1"
    (paidSession [("bookingId", "KOB-OLD123")]) rfl (by decide) rfl rfl

/-- C6. The non-paid path mutates nothing. When the gateway session retrieved
for the request is not `paid`, `/verify-payment` answers `{paid: false, status,
metadata}` and leaves the store as it was; the only external call it makes is
the gateway retrieval, so no store write is attempted, no purchase record is
created and `sendAdminNotification` is not invoked. -/
theorem verify_not_paid_mutates_nothing (env : Env) (req : VerifyRequest) (w : World)
    (sid : String) (session : StripeSession)
    (hsid : req.sessionId = some sid) (hne : sid ≠ "")
    (hret : env.retrieve sid = some session) (hnp : session.payment_status ≠ "paid") :
    verifyPayment env req w =
      ({ store := w.store, trace := w.trace ++ [Event.gatewayRetrieve sid] },
        VerifyResponse.notPaid session.payment_status session.metadata) := by
  unfold verifyPayment
  simp [hsid, JSVal.ofOptStr, docIdOf, hne, hret, hnp, World.emit]

/-- An unpaid gateway session: the call answers not-paid and only the gateway
retrieval is recorded. -/
theorem verify_not_paid_mutates_nothing_witness :
    verifyPayment (gatewayEnv { paidSession [] with payment_status := "unpaid" })
        sampleVerifyRequest (sampleWorld (awaitingDoc (some [gameDrive])) [gameDrive]) =
      ({ store := (sampleWorld (awaitingDoc (some [gameDrive])) [gameDrive]).store,
         trace := (sampleWorld (awaitingDoc (some [gameDrive])) [gameDrive]).trace ++
           [Event.gatewayRetrieve "cs_test_1"] },
        VerifyResponse.notPaid "unpaid" (some [])) :=
  verify_not_paid_mutates_nothing
    (gatewayEnv { paidSession [] with payment_status := "unpaid" })
    sampleVerifyRequest (sampleWorld (awaitingDoc (some [gameDrive])) [gameDrive]) "cs_test_1"
    { paidSession [] with payment_status := "unpaid" } rfl (by decide) rfl (by decide)

/-! ## The item merge -/

theorem mergeItems_foldl (G acc S : List Item) :
    S.foldl
        (fun allItems fbItem =>
          if !itemExists G fbItem then allItems ++ [appendedItemOf fbItem] else allItems)
        acc =
      acc ++ (S.filter (fun fb => !itemExists G fb)).map appendedItemOf := by
  induction S generalizing acc with
  | nil => simp
  | cons fb S ih =>
    simp only [List.foldl_cons, ih, List.filter_cons]
    cases h : itemExists G fb <;> simp

theorem mergeItems_eq (G S : List Item) :
    mergeItems G S = G ++ (S.filter (fun fb => !itemExists G fb)).map appendedItemOf :=
  mergeItems_foldl G G S

theorem strictEq_str (a : String) (x : JSVal) :
    JSVal.strictEq (JSVal.str a) x = decide (JSVal.str a = x) := by
  cases x <;> simp [JSVal.strictEq]

theorem strictEq_num (a : ℚ) (x : JSVal) :
    JSVal.strictEq (JSVal.num a) x = decide (JSVal.num a = x) := by
  cases x <;> simp [JSVal.strictEq]

theorem purchasedItemOf_title (li : LineItem) :
    ∃ t, (purchasedItemOf li).title = JSVal.str t := by
  unfold purchasedItemOf JSVal.or
  dsimp only
  split
  · cases hd : li.description with
    | none => simp [hd, JSVal.ofOptStr, JSVal.truthy] at *
    | some d => exact ⟨d, rfl⟩
  · exact ⟨_, rfl⟩

theorem itemExists_gateway (lineItems : List LineItem) (s : Item) :
    itemExists (lineItems.map purchasedItemOf) s =
      (lineItems.map purchasedItemOf).any (fun g => sameKey g s) := by
  unfold itemExists
  induction lineItems with
  | nil => rfl
  | cons li rest ih =>
    simp only [List.map_cons, List.any_cons, ih]
    congr 1
    obtain ⟨t, ht⟩ := purchasedItemOf_title li
    have hp : (purchasedItemOf li).price = JSVal.num ((li.amount_total : ℚ) / 100) := rfl
    simp only [sameKey, ht, hp, strictEq_str, strictEq_num, Bool.decide_and]

/-- C7. Item merge in `/verify-payment`. For every list of gateway line items,
with `G` the items built from them, and every list `S` of store items, the
merged list is `G`, unchanged and in order, followed in store order by exactly
those items of `S` for which no item of `G` has both the same title and the
same price, each appended as `{title, price, quantity || 1}`. The same holds
for any list `G` when sameness is the `===` test of the loop. In particular
`G = [{A, 10}]` and `S = [{A, 10}, {B, 5}]` give `[{A, 10}, {B, 5}]`. The
`items` of the paid response of `/verify-payment` is this merge of the
session's line items with the items read from the store. -/
theorem merge_keeps_gateway_then_unmatched_store_items :
    (∀ (lineItems : List LineItem) (S : List Item),
      mergeItems (lineItems.map purchasedItemOf) S =
        lineItems.map purchasedItemOf ++
          (S.filter (fun s =>
            decide (∀ g ∈ lineItems.map purchasedItemOf,
              ¬ (g.title = s.title ∧ g.price = s.price)))).map
            (fun s =>
              { activityId := JSVal.undefined
                title := s.title
                price := s.price
                quantity := JSVal.or s.quantity (JSVal.num 1) })) ∧
    (∀ G S : List Item,
      mergeItems G S =
        G ++ (S.filter (fun s =>
          !G.any (fun g =>
            JSVal.strictEq g.title s.title && JSVal.strictEq g.price s.price))).map
          (fun s =>
            { activityId := JSVal.undefined
              title := s.title
              price := s.price
              quantity := JSVal.or s.quantity (JSVal.num 1) })) ∧
    mergeItems [itemA] [storeA, storeB] = [itemA, mergedB] ∧
    (∀ (env : Env) (req : VerifyRequest) (w : World) (sid : String) (session : StripeSession),
      req.sessionId = some sid → sid ≠ "" → env.retrieve sid = some session →
      session.payment_status = "paid" →
      ∃ r, (verifyPayment env req w).2 = VerifyResponse.paid r ∧
        r.items = mergeItems (purchasedItemsOf session)
          (verifyFirebaseItems env (savedCheckoutIdOf req.checkoutSessionId session)
            (verifyProcess env (savedCheckoutIdOf req.checkoutSessionId session) session
              (w.emit (Event.gatewayRetrieve sid))))) := by
  refine ⟨fun lineItems S => ?_, fun G S => mergeItems_eq G S, by decide,
    fun env req w sid session hsid hne hret hpaid => by
      rw [verifyPayment_paid_eq env req w sid session hsid hne hret hpaid]
      exact ⟨_, rfl, rfl⟩⟩
  rw [mergeItems_eq]
  congr 2
  apply List.filter_congr
  intro s _
  rw [itemExists_gateway]
  rw [Bool.eq_iff_iff]
  simp [sameKey]

/-- A paid call whose session has one line item and whose store session holds the
same purchase at its unit price: the response carries the merge of the two. -/
theorem merge_keeps_gateway_then_unmatched_store_items_witness :
    ∃ r, (verifyPayment (gatewayEnv (paidSession [])) sampleVerifyRequest
        (sampleWorld (awaitingDoc (some [gameDrive])) [gameDrive])).2 =
          VerifyResponse.paid r ∧
      r.items = mergeItems (purchasedItemsOf (paidSession []))
        (verifyFirebaseItems (gatewayEnv (paidSession []))
          (savedCheckoutIdOf sampleVerifyRequest.checkoutSessionId (paidSession []))
          (verifyProcess (gatewayEnv (paidSession []))
            (savedCheckoutIdOf sampleVerifyRequest.checkoutSessionId (paidSession []))
            (paidSession [])
            ((sampleWorld (awaitingDoc (some [gameDrive])) [gameDrive]).emit
              (Event.gatewayRetrieve "cs_test_1")))) :=
  merge_keeps_gateway_then_unmatched_store_items.2.2.2 (gatewayEnv (paidSession []))
    sampleVerifyRequest (sampleWorld (awaitingDoc (some [gameDrive])) [gameDrive]) "cs_test_1"
    (paidSession []) rfl (by decide) rfl rfl

theorem sameKey_appendedItemOf_right (g s : Item) :
    sameKey g (appendedItemOf s) = sameKey g s := rfl

theorem sameKey_appendedItemOf (a b : Item) :
    sameKey (appendedItemOf a) (appendedItemOf b) = sameKey a b := rfl

/-- C8 (counterexample). One gateway item and a store list that holds `{B, 5}`
twice: the gateway items are pairwise distinct on (title, price), yet the
merged list has `{B, 5}` twice. -/
theorem merge_keeps_duplicate_store_items :
    [itemA].Pairwise (fun a b => sameKey a b = false) ∧
    mergeItems [itemA] [storeB, storeB] = [itemA, mergedB, mergedB] ∧
    ¬ (mergeItems [itemA] [storeB, storeB]).Pairwise (fun a b => sameKey a b = false) := by
  decide

/-- C8 (amended). The merge tests a store item against the gateway items only.
When the gateway items are pairwise distinct on (title, price) and the store
items are pairwise distinct on (title, price) too, no two entries of the merged
list of `/verify-payment` have the same title and the same price. -/
theorem merge_distinct_when_both_sources_distinct (lineItems : List LineItem) (S : List Item)
    (hG : (lineItems.map purchasedItemOf).Pairwise (fun a b => sameKey a b = false))
    (hS : S.Pairwise (fun a b => sameKey a b = false)) :
    (mergeItems (lineItems.map purchasedItemOf) S).Pairwise
      (fun a b => sameKey a b = false) := by
  rw [mergeItems_eq, List.pairwise_append]
  refine ⟨hG, ?_, ?_⟩
  · rw [List.pairwise_map]
    exact (hS.filter _).imp (fun h => by rw [sameKey_appendedItemOf]; exact h)
  · intro g hg x hx
    obtain ⟨s, hs, rfl⟩ := List.mem_map.mp hx
    have hex : itemExists (lineItems.map purchasedItemOf) s = false := by
      simpa using (List.mem_filter.mp hs).2
    rw [itemExists_gateway] at hex
    rw [sameKey_appendedItemOf_right]
    have hall := List.any_eq_false.mp hex g hg
    simpa using hall

/-- One gateway item `A` and the store items `{A, 10}`, `{B, 5}`: the merged list
has no two entries with the same title and price. -/
theorem merge_distinct_when_both_sources_distinct_witness :
    (mergeItems ([lineA].map purchasedItemOf) [storeA, storeB]).Pairwise
      (fun a b => sameKey a b = false) :=
  merge_distinct_when_both_sources_distinct [lineA] [storeA, storeB]
    (by simp) (by decide)

/-- C9. Receipt identifier stability. For a paid gateway session whose metadata
carries a non-empty `bookingId` `b`, the booking id resolved by
`/verify-payment` (returned in the response and carried by the admin
notification's booking data) and the booking id resolved by
`/send-receipt-email` (carried by the receipt's booking data as `bookingId` and
`receiptNumber`) are both exactly `b`, whatever the checkout id and whatever
the random source returns. -/
theorem booking_id_from_metadata_is_stable (session : StripeSession) (b : String)
    (hpaid : session.payment_status = "paid")
    (hb : session.metadataField "bookingId" = JSVal.str b) (hne : b ≠ "") :
    (∀ (env : Env) (req : VerifyRequest) (w : World) (sid : String),
      req.sessionId = some sid → sid ≠ "" → env.retrieve sid = some session →
      (verifyPayment env req w).2.bookingId = some (JSVal.str b) ∧
      (verifyBookingData env sid session).bookingId = JSVal.str b) ∧
    (∀ (env : Env) (email : String) (name checkoutId : Option String) (sid : String),
      receiptBookingId env (savedCheckoutIdOf checkoutId session) session = JSVal.str b ∧
      (receiptBookingData env email name sid (savedCheckoutIdOf checkoutId session)
        session).bookingId = JSVal.str b ∧
      (receiptBookingData env email name sid (savedCheckoutIdOf checkoutId session)
        session).receiptNumber = JSVal.str b) := by
  have hv : ∀ env : Env, verifyBookingId env session = JSVal.str b := by
    intro env
    simp [verifyBookingId, JSVal.or, hb, JSVal.truthy, hne]
  have hr : ∀ (env : Env) (saved : JSVal), receiptBookingId env saved session = JSVal.str b := by
    intro env saved
    simp [receiptBookingId, JSVal.or, hb, JSVal.truthy, hne]
  refine ⟨fun env req w sid hsid hsne hret => ⟨?_, ?_⟩, fun env email name checkoutId sid =>
    ⟨hr env _, ?_, ?_⟩⟩
  · rw [verifyPayment_paid_eq env req w sid session hsid hsne hret hpaid]
    simp [verifyPaid, VerifyResponse.bookingId, hv]
  · simp [verifyBookingData, hv]
  · simp [receiptBookingData, hr]
  · simp [receiptBookingData, hr]

/-- A paid session whose metadata carries `KOB-OLD123`: both routes resolve it. -/
theorem booking_id_from_metadata_is_stable_witness :
    (verifyPayment (gatewayEnv (paidSession [("bookingId", "KOB-OLD123")]))
      sampleVerifyRequest
      (sampleWorld (awaitingDoc (some [gameDrive])) [gameDrive])).2.bookingId =
        some (JSVal.str "KOB-OLD123") :=
  ((booking_id_from_metadata_is_stable (paidSession [("bookingId", "KOB-OLD123")])
    "KOB-OLD123" rfl (by decide) (by decide)).1
    (gatewayEnv (paidSession [("bookingId", "KOB-OLD123")])) sampleVerifyRequest
    (sampleWorld (awaitingDoc (some [gameDrive])) [gameDrive]) "cs_test_1" rfl (by decide)
    rfl).1

/-- C10 (counterexample). A paid gateway session whose metadata carries no
`bookingId`: two `/verify-payment` calls with the same session id, the second
on the world left by the first, return different booking ids, one per draw of
the random source. -/
theorem verify_payment_regenerates_booking_id :
    (verifyPayment (gatewayEnv (paidSession [])) sampleVerifyRequest
      (sampleWorld (awaitingDoc (some [gameDrive])) [gameDrive])).2.bookingId =
        some (JSVal.str "KOB-A1B2C3") ∧
    (verifyPayment (secondDrawEnv (paidSession [])) sampleVerifyRequest
      (verifyPayment (gatewayEnv (paidSession [])) sampleVerifyRequest
        (sampleWorld (awaitingDoc (some [gameDrive])) [gameDrive])).1).2.bookingId =
        some (JSVal.str "KOB-Z9Y8X7") ∧
    (verifyPayment (gatewayEnv (paidSession [])) sampleVerifyRequest
      (sampleWorld (awaitingDoc (some [gameDrive])) [gameDrive])).2.bookingId ≠
    (verifyPayment (secondDrawEnv (paidSession [])) sampleVerifyRequest
      (verifyPayment (gatewayEnv (paidSession [])) sampleVerifyRequest
        (sampleWorld (awaitingDoc (some [gameDrive])) [gameDrive])).1).2.bookingId := by
  decide

/-- C10 (amended). Idempotence of the returned result. Two `/verify-payment`
calls with the same session id for the same paid gateway session, the second on
the world left by the first, both answer paid with the same `originalAmount`,
`discountAmount`, `finalAmount` and `amount`. They return the same `bookingId`
when the session's metadata carries a non-empty one; when it carries none, each
call returns `KOB-` followed by its own draw of the random source. -/
theorem verify_payment_result_idempotent (env1 env2 : Env) (req1 req2 : VerifyRequest)
    (w : World) (sid : String) (session : StripeSession)
    (hsid1 : req1.sessionId = some sid) (hsid2 : req2.sessionId = some sid) (hne : sid ≠ "")
    (hret1 : env1.retrieve sid = some session) (hret2 : env2.retrieve sid = some session)
    (hpf : env2.parseFloat = env1.parseFloat)
    (hpaid : session.payment_status = "paid") :
    ∃ r1 r2,
      (verifyPayment env1 req1 w).2 = VerifyResponse.paid r1 ∧
      (verifyPayment env2 req2 (verifyPayment env1 req1 w).1).2 = VerifyResponse.paid r2 ∧
      r1.originalAmount = r2.originalAmount ∧
      r1.discountAmount = r2.discountAmount ∧
      r1.finalAmount = r2.finalAmount ∧
      r1.amount = r2.amount ∧
      ((session.metadataField "bookingId").truthy = true →
        r1.bookingId = session.metadataField "bookingId" ∧
        r2.bookingId = session.metadataField "bookingId") ∧
      ((session.metadataField "bookingId").truthy = false →
        r1.bookingId = JSVal.str ("KOB-" ++ env1.randomCode) ∧
        r2.bookingId = JSVal.str ("KOB-" ++ env2.randomCode)) := by
  rw [verifyPayment_paid_eq env1 req1 w sid session hsid1 hne hret1 hpaid,
    verifyPayment_paid_eq env2 req2 _ sid session hsid2 hne hret2 hpaid]
  have ho : originalAmountOf env2 session = originalAmountOf env1 session := by
    unfold originalAmountOf parseFloatOf
    rw [hpf]
  have hd : discountAmountOf env2 session = discountAmountOf env1 session := by
    unfold discountAmountOf parseFloatOf
    rw [hpf]
  refine ⟨_, _, rfl, rfl, ?_, ?_, rfl, rfl, ?_, ?_⟩
  · exact ho.symm
  · exact hd.symm
  · intro ht
    simp [verifyBookingId, JSVal.or, ht]
  · intro ht
    simp [verifyBookingId, JSVal.or, ht, generatedBookingId]

/-- Two calls for a paid session whose metadata carries a booking id. -/
theorem verify_payment_result_idempotent_witness :
    ∃ r1 r2,
      (verifyPayment (gatewayEnv (paidSession [("bookingId", "KOB-OLD123")]))
        sampleVerifyRequest
        (sampleWorld (awaitingDoc (some [gameDrive])) [gameDrive])).2 =
          VerifyResponse.paid r1 ∧
      (verifyPayment (secondDrawEnv (paidSession [("bookingId", "KOB-OLD123")]))
        sampleVerifyRequest
        (verifyPayment (gatewayEnv (paidSession [("bookingId", "KOB-OLD123")]))
          sampleVerifyRequest
          (sampleWorld (awaitingDoc (some [gameDrive])) [gameDrive])).1).2 =
          VerifyResponse.paid r2 ∧
      r1.originalAmount = r2.originalAmount ∧
      r1.finalAmount = r2.finalAmount ∧
      r1.bookingId = r2.bookingId := by
  obtain ⟨r1, r2, h1, h2, ho, -, hf, -, hb, -⟩ :=
    verify_payment_result_idempotent
      (gatewayEnv (paidSession [("bookingId", "KOB-OLD123")]))
      (secondDrawEnv (paidSession [("bookingId", "KOB-OLD123")]))
      sampleVerifyRequest sampleVerifyRequest
      (sampleWorld (awaitingDoc (some [gameDrive])) [gameDrive]) "cs_test_1"
      (paidSession [("bookingId", "KOB-OLD123")]) rfl rfl (by decide) rfl rfl rfl rfl
  exact ⟨r1, r2, h1, h2, ho, hf, (hb (by decide)).1.trans (hb (by decide)).2.symm⟩

/-! ## Text lemmas -/

theorem data_join_aux (l : List String) (acc : String) :
    (l.foldl (fun r s => r ++ s) acc).data = acc.data ++ (l.map String.data).flatten := by
  induction l generalizing acc with
  | nil => simp
  | cons s l ih => simp [List.foldl_cons, ih, String.data_append, List.append_assoc]

theorem data_join (l : List String) : (String.join l).data = (l.map String.data).flatten := by
  unfold String.join
  rw [data_join_aux]
  rfl

theorem containsText_join_mid (before mid after : List String) :
    containsText (String.join (before ++ mid ++ after)) (String.join mid) := by
  unfold containsText
  simp only [data_join, List.map_append, List.flatten_append]
  exact ⟨_, _, rfl⟩

theorem prefix_look {t x b : List Char} (hx : x ≠ []) (h : t <+: x ++ b) :
    t <+: x ++ b.take (t.length - 1) := by
  have h1 : t = (x ++ b).take t.length := List.prefix_iff_eq_take.mp h
  have hlen : 1 ≤ x.length := by
    cases x with
    | nil => exact absurd rfl hx
    | cons _ _ => simp
  have h2 : (x ++ b.take (t.length - 1)).take t.length = (x ++ b).take t.length := by
    simp only [List.take_append_eq_append_take, List.take_take]
    congr 2
    omega
  exact List.prefix_iff_eq_take.mpr (h1.trans h2.symm)

theorem startsIn_of_contained_append (t b : List Char) :
    ∀ a : List Char, t <:+: a ++ b → startsIn t (b.take (t.length - 1)) a = true ∨ t <:+: b := by
  intro a
  induction a with
  | nil => intro h; right; simpa using h
  | cons c cs ih =>
    intro h
    rw [List.cons_append, List.infix_cons_iff] at h
    rcases h with h | h
    · left
      have hp : t <+: (c :: cs) ++ b.take (t.length - 1) :=
        prefix_look (List.cons_ne_nil c cs) h
      simp only [startsIn, Bool.or_eq_true]
      left
      exact List.isPrefixOf_iff_prefix.mpr hp
    · rcases ih h with h1 | h1
      · left
        simp only [startsIn, Bool.or_eq_true]
        exact Or.inr h1
      · exact Or.inr h1

theorem occursInSegments_of_contained (t : List Char) (ht : t ≠ []) :
    ∀ segs : List (List Char), t <:+: segs.flatten → occursInSegments t segs = true := by
  intro segs
  induction segs with
  | nil =>
    intro h
    exact absurd (List.eq_nil_of_infix_nil h) ht
  | cons seg rest ih =>
    intro h
    rw [List.flatten_cons] at h
    simp only [occursInSegments, Bool.or_eq_true]
    rcases startsIn_of_contained_append t rest.flatten seg h with h1 | h1
    · exact Or.inl h1
    · exact Or.inr (ih h1)

theorem not_containsText_join (segs : List String) (text : String) (ht : text.data ≠ [])
    (h : occursInSegments text.data (segs.map String.data) = false) :
    ¬ containsText (String.join segs) text := by
  intro hc
  unfold containsText at hc
  rw [data_join] at hc
  rw [occursInSegments_of_contained text.data ht _ hc] at h
  cases h

/-! ## Amounts and metadata of `/verify-payment` -/

theorem metadataField_truthy_or {session : StripeSession} {k s : String} (v : JSVal)
    (h : session.metadataField k = JSVal.str s) (hne : s ≠ "") :
    JSVal.or (session.metadataField k) v = JSVal.str s := by
  simp [JSVal.or, h, JSVal.truthy, hne]

theorem gtZero_num (rt : Runtime) (q : ℚ) : gtZero rt (JSVal.num q) = decide (0 < q) := rfl

theorem hasDiscount_of_zero_discount (rt : Runtime) (d : ReceiptData)
    (h : d.discountAmount = JSVal.num 0) : (hasDiscountOf rt d).truthy = false := by
  simp [hasDiscountOf, JSVal.and, h, gtZero_num, JSVal.truthy]

/-- C11. Amount derivation in `/verify-payment`. For every paid gateway session
the response and the booking data carry `finalAmount = amount_total / 100`;
`originalAmount` is `parseFloat` of `metadata.originalAmount` when the metadata
carries that key (the gateway keeps no empty values); `discountAmount` is
`parseFloat` of `metadata.discountAmount` when present and `0` when absent. For
`amount_total = 10000` the final amount is `100`, and with no discount in the
metadata the derived booking has discount `0` and `hasDiscount` is false in the
receipt generator. -/
theorem verify_payment_amount_derivation (env : Env) (session : StripeSession)
    (hpaid : session.payment_status = "paid") :
    (∀ (req : VerifyRequest) (w : World) (sid : String),
      req.sessionId = some sid → sid ≠ "" → env.retrieve sid = some session →
      ∃ r, (verifyPayment env req w).2 = VerifyResponse.paid r ∧
        r.finalAmount = JSVal.num ((session.amount_total : ℚ) / 100) ∧
        r.originalAmount = originalAmountOf env session ∧
        r.discountAmount = discountAmountOf env session ∧
        (verifyBookingData env sid session).finalAmount =
          JSVal.num ((session.amount_total : ℚ) / 100) ∧
        (verifyBookingData env sid session).originalAmount = originalAmountOf env session ∧
        (verifyBookingData env sid session).discountAmount = discountAmountOf env session) ∧
    (∀ s, session.metadataField "originalAmount" = JSVal.str s → s ≠ "" →
      originalAmountOf env session = env.parseFloat s) ∧
    (∀ s, session.metadataField "discountAmount" = JSVal.str s → s ≠ "" →
      discountAmountOf env session = env.parseFloat s) ∧
    (session.metadataField "discountAmount" = JSVal.undefined →
      discountAmountOf env session = JSVal.num 0) ∧
    (session.amount_total = 10000 → finalAmountOf session = JSVal.num 100) ∧
    (discountAmountOf env session = JSVal.num 0 →
      ∀ (rt : Runtime) (sid isoDate : String),
        (verifyBookingData env sid session).discountAmount = JSVal.num 0 ∧
        (hasDiscountOf rt
          ((verifyBookingData env sid session).toReceiptData isoDate)).truthy = false) := by
  refine ⟨fun req w sid hsid hne hret => ?_, fun s hs hne => ?_, fun s hs hne => ?_,
    fun habs => ?_, fun h100 => ?_, fun hzero rt sid isoDate => ⟨hzero, ?_⟩⟩
  · rw [verifyPayment_paid_eq env req w sid session hsid hne hret hpaid]
    exact ⟨_, rfl, rfl, rfl, rfl, rfl, rfl, rfl⟩
  · unfold originalAmountOf
    rw [metadataField_truthy_or _ hs hne]
    rfl
  · unfold discountAmountOf
    rw [metadataField_truthy_or _ hs hne]
    rfl
  · unfold discountAmountOf
    rw [habs]
    rfl
  · unfold finalAmountOf
    rw [h100]
    norm_num
  · exact hasDiscount_of_zero_discount rt _ hzero

/-- A paid session for 100.00 whose metadata carries `originalAmount: '100'` and
no discount: the original amount read back is 100 and the final amount is 100. -/
theorem verify_payment_amount_derivation_witness :
    originalAmountOf (decimalEnv (paidSession [("originalAmount", "100")]))
        (paidSession [("originalAmount", "100")]) = JSVal.num 100 ∧
    finalAmountOf (paidSession [("originalAmount", "100")]) = JSVal.num 100 ∧
    discountAmountOf (decimalEnv (paidSession [("originalAmount", "100")]))
        (paidSession [("originalAmount", "100")]) = JSVal.num 0 :=
  have h := verify_payment_amount_derivation
    (decimalEnv (paidSession [("originalAmount", "100")]))
    (paidSession [("originalAmount", "100")]) rfl
  ⟨(h.2.1 "100" (by decide) (by decide)).trans (by decide), h.2.2.2.2.1 rfl,
    h.2.2.2.1 (by decide)⟩

theorem checkoutMetadata_originalAmount (rt : Runtime) (timestamp : Nat) (bookingId : JSVal)
    (req : CheckoutRequest) (session : StripeSession)
    (hmeta : session.metadata = some (checkoutMetadata rt timestamp bookingId req)) :
    session.metadataField "originalAmount" =
      JSVal.str (if req.originalAmount.truthy then display rt req.originalAmount
        else display rt (calculatedAmountOf rt req)) := by
  unfold StripeSession.metadataField
  rw [hmeta]
  simp [checkoutMetadata, List.lookup, JSVal.ofOptStr]

theorem checkoutMetadata_discountAmount (rt : Runtime) (timestamp : Nat) (bookingId : JSVal)
    (req : CheckoutRequest) (session : StripeSession)
    (hmeta : session.metadata = some (checkoutMetadata rt timestamp bookingId req)) :
    session.metadataField "discountAmount" =
      JSVal.str (if req.discountAmount.truthy then display rt req.discountAmount else "0") := by
  unfold StripeSession.metadataField
  rw [hmeta]
  simp [checkoutMetadata, List.lookup, JSVal.ofOptStr]

theorem checkoutMetadata_couponCode (rt : Runtime) (timestamp : Nat) (bookingId : JSVal)
    (req : CheckoutRequest) (session : StripeSession)
    (hmeta : session.metadata = some (checkoutMetadata rt timestamp bookingId req)) :
    session.metadataField "couponCode" =
      JSVal.str (display rt (JSVal.or req.couponCode (JSVal.str "none"))) := by
  unfold StripeSession.metadataField
  rw [hmeta]
  simp [checkoutMetadata, List.lookup, JSVal.ofOptStr]

/-- C12 (counterexample). Two requests whose metadata does not read back as
sent. With `originalAmount: 0` and `amount: 50` the metadata carries the
calculated amount, and `/verify-payment` reads the original amount 50, not 0.
With `couponCode: 'none'` it reads no coupon, not the code `none`. -/
theorem checkout_metadata_loses_zero_and_none :
    (amountsRequest (JSVal.num 0) (JSVal.num 0) JSVal.undefined).originalAmount = JSVal.num 0 ∧
    originalAmountOf
      (decimalEnv (sessionOf (amountsRequest (JSVal.num 0) (JSVal.num 0) JSVal.undefined)))
      (sessionOf (amountsRequest (JSVal.num 0) (JSVal.num 0) JSVal.undefined)) =
        JSVal.num 50 ∧
    originalAmountOf
      (decimalEnv (sessionOf (amountsRequest (JSVal.num 0) (JSVal.num 0) JSVal.undefined)))
      (sessionOf (amountsRequest (JSVal.num 0) (JSVal.num 0) JSVal.undefined)) ≠
        JSVal.num 0 ∧
    (amountsRequest (JSVal.num 200) (JSVal.num 0) (JSVal.str "none")).couponCode =
      JSVal.str "none" ∧
    couponCodeOf (sessionOf (amountsRequest (JSVal.num 200) (JSVal.num 0) (JSVal.str "none"))) =
      JSVal.null := by
  decide

/-- C12 (amended). Metadata round trip. Let the gateway session carry the
metadata written by `/create-checkout-session` for a request, and let
`parseFloat` read back what ToString wrote for the numbers concerned. A
non-zero number `originalAmount` reads back as itself; a non-zero number
`discountAmount` reads back as itself and an absent or zero one as `0`; a
non-empty `couponCode` other than `none` reads back as itself, and an absent or
empty one, or the text `none`, as no coupon. An absent or zero `originalAmount`
is written as the calculated amount. -/
theorem checkout_metadata_round_trip (rt : Runtime) (env : Env) (timestamp : Nat)
    (bookingId : JSVal) (req : CheckoutRequest) (session : StripeSession)
    (hmeta : session.metadata = some (checkoutMetadata rt timestamp bookingId req)) :
    (∀ o : ℚ, req.originalAmount = JSVal.num o → o ≠ 0 → rt.numberToString o ≠ "" →
      env.parseFloat (rt.numberToString o) = JSVal.num o →
      originalAmountOf env session = JSVal.num o) ∧
    (∀ d : ℚ, req.discountAmount = JSVal.num d → d ≠ 0 → rt.numberToString d ≠ "" →
      env.parseFloat (rt.numberToString d) = JSVal.num d →
      discountAmountOf env session = JSVal.num d) ∧
    (req.discountAmount.truthy = false → env.parseFloat "0" = JSVal.num 0 →
      discountAmountOf env session = JSVal.num 0) ∧
    (∀ c : String, req.couponCode = JSVal.str c → c ≠ "" → c ≠ "none" →
      couponCodeOf session = JSVal.str c) ∧
    (req.couponCode.truthy = false → couponCodeOf session = JSVal.null) ∧
    (req.couponCode = JSVal.str "none" → couponCodeOf session = JSVal.null) ∧
    (req.originalAmount.truthy = false →
      session.metadataField "originalAmount" =
        JSVal.str (display rt (calculatedAmountOf rt req))) := by
  have ho := checkoutMetadata_originalAmount rt timestamp bookingId req session hmeta
  have hd := checkoutMetadata_discountAmount rt timestamp bookingId req session hmeta
  have hc := checkoutMetadata_couponCode rt timestamp bookingId req session hmeta
  refine ⟨fun o hreq hne hstr hrt => ?_, fun d hreq hne hstr hrt => ?_, fun hf hzero => ?_,
    fun c hreq hne hnone => ?_, fun hf => ?_, fun hreq => ?_, fun hf => ?_⟩
  · have ht : req.originalAmount.truthy = true := by simp [hreq, JSVal.truthy, hne]
    rw [ht, hreq] at ho
    simp only [if_true, display] at ho
    unfold originalAmountOf
    rw [metadataField_truthy_or _ ho hstr]
    exact hrt
  · have ht : req.discountAmount.truthy = true := by simp [hreq, JSVal.truthy, hne]
    rw [ht, hreq] at hd
    simp only [if_true, display] at hd
    unfold discountAmountOf
    rw [metadataField_truthy_or _ hd hstr]
    exact hrt
  · rw [hf] at hd
    simp only [Bool.false_eq_true, if_false] at hd
    unfold discountAmountOf
    rw [metadataField_truthy_or _ hd (by decide)]
    exact hzero
  · have hv : JSVal.or req.couponCode (JSVal.str "none") = JSVal.str c := by
      simp [JSVal.or, hreq, JSVal.truthy, hne]
    rw [hv] at hc
    simp only [display] at hc
    unfold couponCodeOf
    rw [hc]
    simp [JSVal.strictEq, hnone]
  · have hv : JSVal.or req.couponCode (JSVal.str "none") = JSVal.str "none" := by
      simp [JSVal.or, hf]
    rw [hv] at hc
    simp only [display] at hc
    unfold couponCodeOf
    rw [hc]
    simp [JSVal.strictEq]
  · have hv : JSVal.or req.couponCode (JSVal.str "none") = JSVal.str "none" := by
      simp [JSVal.or, hreq, JSVal.truthy]
    rw [hv] at hc
    simp only [display] at hc
    unfold couponCodeOf
    rw [hc]
    simp [JSVal.strictEq]
  · rw [hf] at ho
    simpa using ho

/-- A request with original amount 200, discount 50 and coupon `SAVE50`: all
three read back as sent. -/
theorem checkout_metadata_round_trip_witness :
    originalAmountOf
      (decimalEnv (sessionOf (amountsRequest (JSVal.num 200) (JSVal.num 50)
        (JSVal.str "SAVE50"))))
      (sessionOf (amountsRequest (JSVal.num 200) (JSVal.num 50) (JSVal.str "SAVE50"))) =
        JSVal.num 200 ∧
    discountAmountOf
      (decimalEnv (sessionOf (amountsRequest (JSVal.num 200) (JSVal.num 50)
        (JSVal.str "SAVE50"))))
      (sessionOf (amountsRequest (JSVal.num 200) (JSVal.num 50) (JSVal.str "SAVE50"))) =
        JSVal.num 50 ∧
    couponCodeOf
      (sessionOf (amountsRequest (JSVal.num 200) (JSVal.num 50) (JSVal.str "SAVE50"))) =
        JSVal.str "SAVE50" :=
  have h := checkout_metadata_round_trip sampleRuntime
    (decimalEnv (sessionOf (amountsRequest (JSVal.num 200) (JSVal.num 50)
      (JSVal.str "SAVE50"))))
    1000 (JSVal.str "KOB-A1B2C3")
    (amountsRequest (JSVal.num 200) (JSVal.num 50) (JSVal.str "SAVE50"))
    (sessionOf (amountsRequest (JSVal.num 200) (JSVal.num 50) (JSVal.str "SAVE50"))) rfl
  ⟨h.1 200 rfl (by decide) (by decide) (by decide),
    h.2.1 50 rfl (by decide) (by decide) (by decide),
    h.2.2.2.1 "SAVE50" rfl (by decide) (by decide)⟩

/-! ## The receipt generator -/

theorem containsText_trans {a b c : String} (hab : containsText a b) (hbc : containsText b c) :
    containsText a c :=
  List.IsInfix.trans hbc hab

theorem containsText_window (segs : List String) (k n : Nat) :
    containsText (String.join segs) (String.join ((segs.drop k).take n)) := by
  have h : segs = segs.take k ++ (segs.drop k).take n ++ (segs.drop k).drop n := by
    rw [List.append_assoc, List.take_append_drop, List.take_append_drop]
  conv => lhs; rw [h]
  exact containsText_join_mid _ _ _

theorem strictEq_num_right (x : JSVal) (a : ℚ) :
    JSVal.strictEq x (JSVal.num a) = decide (x = JSVal.num a) := by
  cases x <;> simp [JSVal.strictEq]

theorem hasDiscount_truthy_iff (rt : Runtime) (d : ReceiptData) :
    (hasDiscountOf rt d).truthy = true ↔
      gtZero rt d.discountAmount = true ∧ d.couponCode.truthy = true := by
  unfold hasDiscountOf JSVal.and
  cases h : gtZero rt d.discountAmount <;> simp [JSVal.truthy]

theorem receiptView_some {rt : Runtime} {d : ReceiptData} {items : List Item}
    {v : ReceiptView} (h : receiptView rt d items = some v) :
    couponSectionOf rt d = some v.couponSection ∧
      v.discountRow = discountRowOf rt d ∧
      v.paymentMethod = paymentMethodOf rt d ∧
      v.receiptNumber = display rt (receiptNumberOf rt d) ∧
      v.originalPrice = guardedFixed rt (originalAmountUsed d) ∧
      v.totalPaid = guardedFixed rt (finalAmountUsed d) := by
  unfold receiptView at h
  split at h
  · rename_i desc sec hdesc hsec
    simp only [Option.some.injEq] at h
    subst h
    exact ⟨hsec, rfl, rfl, rfl, rfl, rfl⟩
  · cases h

/-- C13. In `generateReceiptHtml` the discount is treated as applied exactly
when `bookingData.discountAmount > 0` and `bookingData.couponCode` is present:
`hasDiscount` is truthy if and only if the comparison holds and the coupon code
is truthy (for a text: non-empty). In a document that is produced, a truthy
`hasDiscount` selects the coupon breakdown and the discount row; otherwise the
coupon section is the notice and the discount row is empty. -/
theorem has_discount_iff_positive_discount_and_coupon (rt : Runtime) (d : ReceiptData) :
    ((hasDiscountOf rt d).truthy = true ↔
      gtZero rt d.discountAmount = true ∧ d.couponCode.truthy = true) ∧
    (∀ q : ℚ, d.discountAmount = JSVal.num q →
      ((hasDiscountOf rt d).truthy = true ↔ 0 < q ∧ d.couponCode.truthy = true)) ∧
    (∀ c : String, d.couponCode = JSVal.str c → (d.couponCode.truthy = true ↔ c ≠ "")) ∧
    (∀ (items : List Item) (v : ReceiptView), receiptView rt d items = some v →
      ((hasDiscountOf rt d).truthy = true →
        (∃ discountFixed originalFixed finalFixed,
          v.couponSection = String.join (couponBreakdownSegments (display rt (couponCodeUsed d))
            (if (isFreeBookingOf rt d).truthy then freeBookingBadge else "")
            discountFixed (percentFixedOf rt d) originalFixed finalFixed)) ∧
        v.discountRow = String.join (discountRowSegments (display rt (couponCodeUsed d))
          (guardedFixed rt (discountAmountUsed d)))) ∧
      ((hasDiscountOf rt d).truthy = false →
        v.couponSection = String.join noCouponNoticeSegments ∧ v.discountRow = "")) := by
  refine ⟨hasDiscount_truthy_iff rt d, fun q hq => ?_, fun c hc => ?_, fun items v hv => ?_⟩
  · rw [hasDiscount_truthy_iff, hq, gtZero_num]
    simp
  · simp [hc, JSVal.truthy]
  · obtain ⟨hsec, hrow, -⟩ := receiptView_some hv
    refine ⟨fun ht => ⟨?_, ?_⟩, fun hf => ⟨?_, ?_⟩⟩
    · unfold couponSectionOf at hsec
      rw [if_pos ht] at hsec
      split at hsec
      · rename_i a b c _ _ _
        exact ⟨a, b, c, (Option.some.inj hsec).symm⟩
      · cases hsec
    · rw [hrow]
      unfold discountRowOf
      rw [if_pos ht]
    · unfold couponSectionOf at hsec
      rw [hf] at hsec
      simpa using hsec.symm
    · rw [hrow]
      unfold discountRowOf
      rw [hf]
      simp

/-- A discount of 50 with coupon `SAVE50`: the discount is treated as applied. -/
theorem has_discount_iff_positive_discount_and_coupon_witness :
    (hasDiscountOf sampleRuntime quarterDiscountData).truthy = true :=
  ((has_discount_iff_positive_discount_and_coupon sampleRuntime quarterDiscountData).2.1 50
    rfl).mpr ⟨by norm_num, by decide⟩

theorem join_singleton (x : String) : String.join [x] = x := by
  simp [String.join]

theorem containsText_segment (segs : List String) (k : Nat) (x : String)
    (hk : (segs.drop k).take 1 = [x]) : containsText (String.join segs) x := by
  have h := containsText_window segs k 1
  rw [hk, join_singleton] at h
  exact h

theorem containsText_couponSection (v : ReceiptView) :
    containsText (receiptTemplate v) v.couponSection :=
  containsText_segment (receiptSegments v) 104 v.couponSection rfl

theorem couponSection_of_no_discount (rt : Runtime) (d : ReceiptData)
    (hf : (hasDiscountOf rt d).truthy = false) :
    couponDescriptionOf rt d = some "No coupon applied" ∧
      couponSectionOf rt d = some (String.join noCouponNoticeSegments) := by
  unfold couponDescriptionOf couponSectionOf
  rw [hf]
  simp

set_option maxRecDepth 100000 in
/-- C14 (counterexample). Booking data with a discount of zero and no coupon
code: `hasDiscount` is false and a document is returned, but the text "No
coupon applied" occurs nowhere in it. That text is only the value of
`couponInfo.description`, which the template does not use. -/
theorem receipt_lacks_no_coupon_applied_text :
    zeroDiscountData.discountAmount = JSVal.num 0 ∧
    (hasDiscountOf sampleRuntime zeroDiscountData).truthy = false ∧
    (generateReceiptHtml sampleRuntime zeroDiscountData []).map
      (fun doc => decide (containsText doc "No coupon applied")) = some false := by
  obtain ⟨v, hv, hscan⟩ : ∃ v, receiptView sampleRuntime zeroDiscountData [] = some v ∧
      occursInSegments "No coupon applied".data ((receiptSegments v).map String.data) = false :=
    ⟨_, rfl, by decide⟩
  have hno := not_containsText_join (receiptSegments v) "No coupon applied" (by decide) hscan
  refine ⟨rfl, by decide, ?_⟩
  simp [generateReceiptHtml, hv, receiptTemplate, hno]

/-- C14 (amended). For every booking data with `discountAmount = 0` or with no
coupon code, `hasDiscount` is false, `couponInfo.description` is "No coupon
applied", and `generateReceiptHtml` returns a document that contains the text
"No coupon was applied to this booking.". -/
theorem no_discount_shows_no_coupon_notice (rt : Runtime) (d : ReceiptData)
    (items : List Item)
    (h : d.discountAmount = JSVal.num 0 ∨ d.couponCode.truthy = false) :
    (hasDiscountOf rt d).truthy = false ∧
    couponDescriptionOf rt d = some "No coupon applied" ∧
    ∃ doc, generateReceiptHtml rt d items = some doc ∧
      containsText doc "No coupon was applied to this booking." := by
  have hf : (hasDiscountOf rt d).truthy = false := by
    rcases h with h | h
    · exact hasDiscount_of_zero_discount rt d h
    · cases ht : (hasDiscountOf rt d).truthy with
      | false => rfl
      | true =>
        have := ((hasDiscount_truthy_iff rt d).mp ht).2
        rw [h] at this
        cases this
  obtain ⟨hdesc, hsec⟩ := couponSection_of_no_discount rt d hf
  refine ⟨hf, hdesc, ?_⟩
  unfold generateReceiptHtml receiptView
  rw [hdesc, hsec]
  refine ⟨_, rfl, ?_⟩
  refine containsText_trans (containsText_couponSection _) ?_
  exact containsText_segment noCouponNoticeSegments 2 _ rfl

/-- The booking data with a discount of zero: the document carries the notice. -/
theorem no_discount_shows_no_coupon_notice_witness :
    ∃ doc, generateReceiptHtml sampleRuntime zeroDiscountData [] = some doc ∧
      containsText doc "No coupon was applied to this booking." :=
  (no_discount_shows_no_coupon_notice sampleRuntime zeroDiscountData [] (Or.inl rfl)).2.2

/-- C15 (counterexample). Booking data whose `originalAmount` and `finalAmount`
are present and 0 while `amount` is 50: the amounts used in the receipt are 50,
not 0, and the document shows 50.00 for both. -/
theorem zero_amount_is_replaced_by_amount :
    zeroAmountsData.originalAmount = JSVal.num 0 ∧
    originalAmountUsed zeroAmountsData = JSVal.num 50 ∧
    zeroAmountsData.finalAmount = JSVal.num 0 ∧
    finalAmountUsed zeroAmountsData = JSVal.num 50 ∧
    (receiptView sampleRuntime zeroAmountsData []).map
      (fun v => (v.originalPrice, v.totalPaid)) = some ("50.00", "50.00") := by
  decide

/-- C15 (amended). Amount defaulting in `generateReceiptHtml`. The
`originalAmount` (respectively `finalAmount`) used in the receipt is
`bookingData.originalAmount` (respectively `bookingData.finalAmount`) whenever
that field is truthy, so present and neither 0, `NaN` nor empty; when the field
is absent or 0 it is `bookingData.amount` if that is truthy, and 0 otherwise.
A produced document shows these two amounts. -/
theorem amounts_default_when_falsy (d : ReceiptData) :
    originalAmountUsed d =
      (if d.originalAmount.truthy then d.originalAmount
       else if d.amount.truthy then d.amount else JSVal.num 0) ∧
    finalAmountUsed d =
      (if d.finalAmount.truthy then d.finalAmount
       else if d.amount.truthy then d.amount else JSVal.num 0) ∧
    (∀ q : ℚ, d.originalAmount = JSVal.num q → q ≠ 0 → originalAmountUsed d = JSVal.num q) ∧
    (∀ q : ℚ, d.finalAmount = JSVal.num q → q ≠ 0 → finalAmountUsed d = JSVal.num q) ∧
    (∀ a : ℚ, d.amount = JSVal.num a →
      (d.originalAmount = JSVal.undefined ∨ d.originalAmount = JSVal.num 0 →
        originalAmountUsed d = JSVal.num a) ∧
      (d.finalAmount = JSVal.undefined ∨ d.finalAmount = JSVal.num 0 →
        finalAmountUsed d = JSVal.num a)) ∧
    (d.amount = JSVal.undefined →
      (d.originalAmount = JSVal.undefined → originalAmountUsed d = JSVal.num 0) ∧
      (d.finalAmount = JSVal.undefined → finalAmountUsed d = JSVal.num 0)) ∧
    (∀ (rt : Runtime) (items : List Item) (v : ReceiptView),
      receiptView rt d items = some v →
      v.originalPrice = guardedFixed rt (originalAmountUsed d) ∧
      v.totalPaid = guardedFixed rt (finalAmountUsed d)) := by
  refine ⟨?_, ?_, fun q hq hne => ?_, fun q hq hne => ?_, fun a ha => ⟨fun h => ?_, fun h => ?_⟩,
    fun ha => ⟨fun h => ?_, fun h => ?_⟩, fun rt items v hv => ?_⟩
  · unfold originalAmountUsed JSVal.or
    cases h1 : d.originalAmount.truthy <;> cases h2 : d.amount.truthy <;> simp [h1, h2]
  · unfold finalAmountUsed JSVal.or
    cases h1 : d.finalAmount.truthy <;> cases h2 : d.amount.truthy <;> simp [h1, h2]
  · simp [originalAmountUsed, JSVal.or, hq, JSVal.truthy, hne]
  · simp [finalAmountUsed, JSVal.or, hq, JSVal.truthy, hne]
  · by_cases h0 : a = 0
    · rcases h with h | h <;> simp [originalAmountUsed, JSVal.or, h, ha, JSVal.truthy, h0]
    · rcases h with h | h <;> simp [originalAmountUsed, JSVal.or, h, ha, JSVal.truthy, h0]
  · by_cases h0 : a = 0
    · rcases h with h | h <;> simp [finalAmountUsed, JSVal.or, h, ha, JSVal.truthy, h0]
    · rcases h with h | h <;> simp [finalAmountUsed, JSVal.or, h, ha, JSVal.truthy, h0]
  · simp [originalAmountUsed, JSVal.or, h, ha, JSVal.truthy]
  · simp [finalAmountUsed, JSVal.or, h, ha, JSVal.truthy]
  · obtain ⟨-, -, -, -, h1, h2⟩ := receiptView_some hv
    exact ⟨h1, h2⟩

/-- With original amount 200 and final amount 150 the receipt uses both as given. -/
theorem amounts_default_when_falsy_witness :
    originalAmountUsed quarterDiscountData = JSVal.num 200 ∧
    finalAmountUsed quarterDiscountData = JSVal.num 150 :=
  ⟨(amounts_default_when_falsy quarterDiscountData).2.2.1 200 rfl (by norm_num),
    (amounts_default_when_falsy quarterDiscountData).2.2.2.1 150 rfl (by norm_num)⟩

/-! ## Double arithmetic -/

theorem binaryDigits_bounds (count n : Nat) (hn : 0 < n) (hc : n ≤ count) :
    2 ^ (binaryDigits count n - 1) ≤ n ∧ n < 2 ^ binaryDigits count n ∧
      1 ≤ binaryDigits count n := by
  induction count generalizing n with
  | zero => omega
  | succ count ih =>
    unfold binaryDigits
    rw [if_neg (by omega)]
    by_cases h2 : n / 2 = 0
    · have h1 : n = 1 := by omega
      subst h1
      cases count <;> simp [binaryDigits]
    · have hpos : 0 < n / 2 := Nat.pos_of_ne_zero h2
      obtain ⟨h3, h4, h5⟩ := ih (n / 2) hpos (by omega)
      refine ⟨?_, ?_, by omega⟩
      · have : binaryDigits count (n / 2) + 1 - 1 = (binaryDigits count (n / 2) - 1) + 1 := by
          omega
        rw [this, pow_succ]
        omega
      · rw [pow_succ]
        omega

theorem bitLength_bounds (n : Nat) (hn : 0 < n) :
    2 ^ (bitLength n - 1) ≤ n ∧ n < 2 ^ bitLength n ∧ 1 ≤ bitLength n :=
  binaryDigits_bounds n n hn (le_refl n)

theorem divRoundEven_one (a : Nat) : divRoundEven a 1 = a := by
  simp [divRoundEven, Nat.mod_one]

theorem roundRatio_natCast (n : Nat) (h : n ≤ 2 ^ 53) :
    roundRatio (n : Int) 1 = JSVal.num (n : ℚ) := by
  by_cases h0 : n = 0
  · subst h0
    simp [roundRatio]
  by_cases htop : n = 2 ^ 53
  · subst htop
    have : roundRatio ((2 ^ 53 : Nat) : Int) 1 = JSVal.num (mkRat (2 ^ 53) 1) := by decide
    rw [this, Rat.mkRat_one]
    norm_num
  have hpos : 0 < n := Nat.pos_of_ne_zero h0
  have hlt : n < 2 ^ 53 := lt_of_le_of_ne h htop
  obtain ⟨hlow, hhigh, hone⟩ := bitLength_bounds n hpos
  have hb : bitLength n ≤ 53 := by
    by_contra hcon
    have : 2 ^ 53 ≤ 2 ^ (bitLength n - 1) := Nat.pow_le_pow_right (by norm_num) (by omega)
    omega
  have hb1 : bitLength 1 = 1 := by decide
  have he : doubleExponent n 1 = (bitLength n : Int) - 53 := by
    unfold doubleExponent
    simp only [hb1]
    have hk : ((bitLength n : Int) - ((1 : Nat) : Int)).toNat = bitLength n - 1 := by omega
    have hk2 : (-((bitLength n : Int) - ((1 : Nat) : Int))).toNat = 0 := by omega
    rw [hk, hk2]
    simp only [pow_zero, mul_one, one_mul]
    rw [if_pos hlow]
    omega
  unfold roundRatio
  have hn0 : ¬ (((n : Int) = 0) ∨ (1 : Nat) = 0) := by omega
  rw [if_neg hn0]
  simp only [Int.natAbs_ofNat, he]
  have het : ((bitLength n : Int) - 53).toNat = 0 := by omega
  have hem : (-((bitLength n : Int) - 53)).toNat = 53 - bitLength n := by omega
  rw [het, hem]
  simp only [pow_zero, mul_one, divRoundEven_one]
  rw [if_neg (by omega)]
  rw [if_neg (by omega)]
  congr 1
  rw [one_mul]
  have hc : (2 ^ (53 - bitLength n) : Nat) ≠ 0 := by positivity
  have := Rat.mkRat_mul_right (n := (n : Int)) (d := 1) hc
  simp only [one_mul] at this
  push_cast at this ⊢
  rw [this, Rat.mkRat_one]
  simp

theorem toDouble_natCast (n : Nat) (h : n ≤ 2 ^ 53) : toDouble (n : ℚ) = JSVal.num (n : ℚ) := by
  unfold toDouble
  rw [Rat.num_natCast, Rat.den_natCast]
  exact roundRatio_natCast n h

theorem times_natCast (rt : Runtime) (p q : Nat) (hp : p ≤ 2 ^ 53) (hq : q ≤ 2 ^ 53)
    (h : p * q ≤ 2 ^ 53) :
    times rt (JSVal.num (p : ℚ)) (JSVal.num (q : ℚ)) = JSVal.num ((p * q : Nat) : ℚ) := by
  unfold times
  simp only [toNumber, toDouble_natCast p hp, toDouble_natCast q hq, Rat.num_natCast,
    Rat.den_natCast, mul_one]
  have := roundRatio_natCast (p * q) h
  push_cast at this ⊢
  exact this

theorem plus_natCast (a b : Nat) (ha : a ≤ 2 ^ 53) (hb : b ≤ 2 ^ 53) (h : a + b ≤ 2 ^ 53) :
    plus (JSVal.num (a : ℚ)) (JSVal.num (b : ℚ)) = JSVal.num ((a + b : Nat) : ℚ) := by
  unfold plus
  simp only [toDouble_natCast a ha, toDouble_natCast b hb, Rat.num_natCast,
    Rat.den_natCast, mul_one]
  have := roundRatio_natCast (a + b) h
  push_cast at this ⊢
  simp only [mul_one]
  exact this

theorem two_zpow_split (k : ℤ) : (2 : ℚ) ^ k = (2 : ℚ) ^ k.toNat / (2 : ℚ) ^ (-k).toNat := by
  rcases le_total 0 k with h | h
  · have h1 : (-k).toNat = 0 := by omega
    rw [h1, pow_zero, div_one]
    conv_lhs => rw [← Int.toNat_of_nonneg h]
    rw [zpow_natCast]
  · have h1 : k.toNat = 0 := by omega
    rw [h1, pow_zero, one_div]
    have h2 : k = -((-k).toNat : ℤ) := by omega
    conv_lhs => rw [h2]
    rw [zpow_neg, zpow_natCast]

theorem bitLength_zpow (n : Nat) (hn : 0 < n) :
    (2 : ℚ) ^ ((bitLength n : ℤ) - 1) ≤ (n : ℚ) ∧ (n : ℚ) < (2 : ℚ) ^ (bitLength n : ℤ) := by
  obtain ⟨h1, h2, h3⟩ := bitLength_bounds n hn
  constructor
  · have : ((bitLength n : ℤ) - 1) = ((bitLength n - 1 : Nat) : ℤ) := by omega
    rw [this, zpow_natCast]
    exact_mod_cast h1
  · rw [zpow_natCast]
    exact_mod_cast h2

/-- The exponent chosen by `doubleExponent` before the shift by 52. -/
theorem floorLog_spec (n d : Nat) (hn : 0 < n) (hd : 0 < d) :
    (2 : ℚ) ^ (if d * 2 ^ ((bitLength n : ℤ) - (bitLength d : ℤ)).toNat ≤
          n * 2 ^ (-((bitLength n : ℤ) - (bitLength d : ℤ))).toNat
        then (bitLength n : ℤ) - (bitLength d : ℤ)
        else (bitLength n : ℤ) - (bitLength d : ℤ) - 1) ≤ (n : ℚ) / d ∧
    (n : ℚ) / d < (2 : ℚ) ^ ((if d * 2 ^ ((bitLength n : ℤ) - (bitLength d : ℤ)).toNat ≤
          n * 2 ^ (-((bitLength n : ℤ) - (bitLength d : ℤ))).toNat
        then (bitLength n : ℤ) - (bitLength d : ℤ)
        else (bitLength n : ℤ) - (bitLength d : ℤ) - 1) + 1) := by
  obtain ⟨hn1, hn2⟩ := bitLength_zpow n hn
  obtain ⟨hd1, hd2⟩ := bitLength_zpow d hd
  have hdq : (0 : ℚ) < d := by exact_mod_cast hd
  have hnq : (0 : ℚ) < n := by exact_mod_cast hn
  generalize (bitLength n : ℤ) = bn at *
  generalize (bitLength d : ℤ) = bd at *
  have hp : ∀ z : ℤ, (0 : ℚ) < (2 : ℚ) ^ z := fun z => zpow_pos (by norm_num) z
  -- the test of the definition, in the rationals
  have hcond : (d * 2 ^ (bn - bd).toNat ≤ n * 2 ^ (-(bn - bd)).toNat) ↔
      (2 : ℚ) ^ (bn - bd) ≤ (n : ℚ) / d := by
    rw [two_zpow_split (bn - bd), div_le_div_iff₀ (by positivity) hdq]
    constructor
    · intro h
      have : ((d * 2 ^ (bn - bd).toNat : Nat) : ℚ) ≤ ((n * 2 ^ (-(bn - bd)).toNat : Nat) : ℚ) := by
        exact_mod_cast h
      push_cast at this
      linarith
    · intro h
      have : ((d * 2 ^ (bn - bd).toNat : Nat) : ℚ) ≤ ((n * 2 ^ (-(bn - bd)).toNat : Nat) : ℚ) := by
        push_cast
        linarith
      exact_mod_cast this
  have hupper : (n : ℚ) / d < (2 : ℚ) ^ (bn - bd + 1) := by
    rw [div_lt_iff₀ hdq]
    have : (2 : ℚ) ^ (bn - bd + 1) * (2 : ℚ) ^ (bd - 1) = (2 : ℚ) ^ bn := by
      rw [← zpow_add₀ (by norm_num)]
      congr 1
      ring
    calc (n : ℚ) < (2 : ℚ) ^ bn := hn2
      _ = (2 : ℚ) ^ (bn - bd + 1) * (2 : ℚ) ^ (bd - 1) := this.symm
      _ ≤ (2 : ℚ) ^ (bn - bd + 1) * d := by
        apply mul_le_mul_of_nonneg_left hd1 (le_of_lt (hp _))
  have hlower : (2 : ℚ) ^ (bn - bd - 1) ≤ (n : ℚ) / d := by
    rw [le_div_iff₀ hdq]
    have : (2 : ℚ) ^ (bn - bd - 1) * (2 : ℚ) ^ bd = (2 : ℚ) ^ (bn - 1) := by
      rw [← zpow_add₀ (by norm_num)]
      congr 1
      ring
    calc (2 : ℚ) ^ (bn - bd - 1) * d ≤ (2 : ℚ) ^ (bn - bd - 1) * (2 : ℚ) ^ bd := by
          apply mul_le_mul_of_nonneg_left (le_of_lt hd2) (le_of_lt (hp _))
      _ = (2 : ℚ) ^ (bn - 1) := this
      _ ≤ n := hn1
  by_cases hc : d * 2 ^ (bn - bd).toNat ≤ n * 2 ^ (-(bn - bd)).toNat
  · rw [if_pos hc]
    exact ⟨hcond.mp hc, hupper⟩
  · rw [if_neg hc]
    refine ⟨hlower, ?_⟩
    have : bn - bd - 1 + 1 = bn - bd := by ring
    rw [this]
    exact lt_of_not_le (fun h => hc (hcond.mpr h))

theorem floorLog_unique (r : ℚ) (a b : ℤ) (ha : (2 : ℚ) ^ a ≤ r ∧ r < (2 : ℚ) ^ (a + 1))
    (hb : (2 : ℚ) ^ b ≤ r ∧ r < (2 : ℚ) ^ (b + 1)) : a = b := by
  have key : ∀ x y : ℤ, (2 : ℚ) ^ x ≤ r → r < (2 : ℚ) ^ (y + 1) → x ≤ y := by
    intro x y hx hy
    by_contra hcon
    have hle : y + 1 ≤ x := by omega
    have : (2 : ℚ) ^ (y + 1) ≤ (2 : ℚ) ^ x := zpow_le_zpow_right₀ (by norm_num) hle
    linarith
  exact le_antisymm (key a b ha.1 hb.2) (key b a hb.1 ha.2)

theorem doubleExponent_scale (n d c : Nat) (hn : 0 < n) (hd : 0 < d) (hc : 0 < c) :
    doubleExponent (n * c) (d * c) = doubleExponent n d := by
  have h1 := floorLog_spec n d hn hd
  have h2 := floorLog_spec (n * c) (d * c) (Nat.mul_pos hn hc) (Nat.mul_pos hd hc)
  have hr : (((n * c : Nat) : ℚ)) / ((d * c : Nat) : ℚ) = (n : ℚ) / d := by
    have hcq : (c : ℚ) ≠ 0 := by exact_mod_cast (Nat.pos_iff_ne_zero.mp hc)
    push_cast
    rw [mul_div_mul_right _ _ hcq]
  rw [hr] at h2
  have := floorLog_unique _ _ _ h2 h1
  unfold doubleExponent
  simp only []
  rw [this]

theorem divRoundEven_scale (a b c : Nat) (hc : 0 < c) :
    divRoundEven (a * c) (b * c) = divRoundEven a b := by
  unfold divRoundEven
  have hmod : (a * c) % (b * c) = (a % b) * c := Nat.mul_mod_mul_right c a b
  have hdiv : (a * c) / (b * c) = a / b := Nat.mul_div_mul_right a b hc
  rw [hmod, hdiv]
  have h1 : (2 * (a % b * c) < b * c) ↔ (2 * (a % b) < b) := by
    rw [← Nat.mul_assoc]
    exact Nat.mul_lt_mul_right hc
  have h2 : (b * c < 2 * (a % b * c)) ↔ (b < 2 * (a % b)) := by
    rw [← Nat.mul_assoc]
    exact Nat.mul_lt_mul_right hc
  simp only [h1, h2]

theorem roundRatio_scale (n : Int) (d c : Nat) (hd : 0 < d) (hc : 0 < c) :
    roundRatio (n * c) (d * c) = roundRatio n d := by
  by_cases hn : n = 0
  · subst hn
    have : d * c ≠ 0 := by positivity
    simp [roundRatio, this, Nat.pos_iff_ne_zero.mp hd]
  have hcz : (c : Int) ≠ 0 := by exact_mod_cast (Nat.pos_iff_ne_zero.mp hc)
  have hnc : n * (c : Int) ≠ 0 := mul_ne_zero hn hcz
  have hdc : d * c ≠ 0 := by positivity
  have habs : (n * (c : Int)).natAbs = n.natAbs * c := by
    rw [Int.natAbs_mul, Int.natAbs_ofNat]
  have hpos : 0 < n.natAbs := Int.natAbs_pos.mpr hn
  have hsign : (n * (c : Int) < 0) ↔ (n < 0) := by
    have hcp : (0 : Int) < c := by exact_mod_cast hc
    constructor
    · intro h
      by_contra hcon
      have : 0 ≤ n * (c : Int) := mul_nonneg (not_lt.mp hcon) (le_of_lt hcp)
      omega
    · intro h
      exact mul_neg_of_neg_of_pos h hcp
  have c1 : ¬ (n * (c : Int) = 0 ∨ d * c = 0) := by simp [hnc, hdc]
  have c2 : ¬ (n = 0 ∨ d = 0) := by simp [hn, Nat.pos_iff_ne_zero.mp hd]
  unfold roundRatio
  rw [if_neg c1, if_neg c2]
  simp only [habs, doubleExponent_scale n.natAbs d c hpos hd hc, hsign]
  have hm : divRoundEven (n.natAbs * c * 2 ^ (-doubleExponent n.natAbs d).toNat)
      (d * c * 2 ^ (doubleExponent n.natAbs d).toNat) =
      divRoundEven (n.natAbs * 2 ^ (-doubleExponent n.natAbs d).toNat)
        (d * 2 ^ (doubleExponent n.natAbs d).toNat) := by
    rw [Nat.mul_right_comm n.natAbs c, Nat.mul_right_comm d c]
    exact divRoundEven_scale _ _ c hc
  rw [hm]

theorem roundRatio_eq_toDouble (n : Int) (d : Nat) (hd : 0 < d) :
    roundRatio n d = toDouble ((n : ℚ) / (d : ℚ)) := by
  have hdz : (d : Int) ≠ 0 := by exact_mod_cast (Nat.pos_iff_ne_zero.mp hd)
  obtain ⟨c, hc1, hc2⟩ := Rat.exists_eq_mul_div_num_and_eq_mul_div_den n hdz
  have hq : ((n : ℚ) / (d : ℚ)) = ((n : ℚ) / ((d : Int) : ℚ)) := by push_cast; rfl
  rw [hq]
  set q : ℚ := (n : ℚ) / ((d : Int) : ℚ) with hqdef
  have hcpos : 0 < c := by
    have hden : (0 : Int) < (q.den : Int) := by exact_mod_cast q.den_pos
    have hdpos : (0 : Int) < (d : Int) := by exact_mod_cast hd
    rw [hc2] at hdpos
    by_contra hcon
    have : c * (q.den : Int) ≤ 0 := mul_nonpos_of_nonpos_of_nonneg (not_lt.mp hcon) (le_of_lt hden)
    omega
  obtain ⟨k, hk⟩ := Int.eq_ofNat_of_zero_le (le_of_lt hcpos)
  subst hk
  have hkpos : 0 < k := by exact_mod_cast hcpos
  have hd2 : d = q.den * k := by
    have : (d : Int) = ((q.den * k : Nat) : Int) := by
      rw [hc2]; push_cast; ring
    exact_mod_cast this
  have hn2 : n = q.num * (k : Int) := by rw [hc1]; ring
  unfold toDouble
  rw [hn2, hd2]
  exact roundRatio_scale q.num q.den k q.den_pos hkpos

theorem divRoundEven_le (a b k : Nat) (hb : 0 < b) (h : a < k * b) : divRoundEven a b ≤ k := by
  have hq : a / b < k := (Nat.div_lt_iff_lt_mul hb).mpr h
  unfold divRoundEven
  split
  · omega
  · split
    · omega
    · split <;> omega

theorem divRoundEven_ge (a b k : Nat) (hb : 0 < b) (h : k * b ≤ a) : k ≤ divRoundEven a b := by
  have hq : k ≤ a / b := (Nat.le_div_iff_mul_le hb).mpr h
  unfold divRoundEven
  split
  · omega
  · split
    · omega
    · split <;> omega

/-- The ratio handed to `divRoundEven` by `roundRatio`, in the rationals. -/
theorem scaled_ratio (n d : Nat) (e : ℤ) (hd : 0 < d) :
    ((n * 2 ^ (-e).toNat : Nat) : ℚ) / ((d * 2 ^ e.toNat : Nat) : ℚ) =
      (n : ℚ) / d / (2 : ℚ) ^ e := by
  have hdq : (d : ℚ) ≠ 0 := by exact_mod_cast (Nat.pos_iff_ne_zero.mp hd)
  rw [two_zpow_split e]
  push_cast
  field_simp

theorem doubleExponent_spec (n d : Nat) (hn : 0 < n) (hd : 0 < d) :
    ∃ L : ℤ, (2 : ℚ) ^ L ≤ (n : ℚ) / d ∧ (n : ℚ) / d < (2 : ℚ) ^ (L + 1) ∧
      doubleExponent n d = max (L - 52) (-1074) := by
  exact ⟨_, (floorLog_spec n d hn hd).1, (floorLog_spec n d hn hd).2, rfl⟩

theorem doubleExponent_of_bounds (n d : Nat) (hn : 0 < n) (hd : 0 < d) (L : ℤ)
    (h1 : (2 : ℚ) ^ L ≤ (n : ℚ) / d) (h2 : (n : ℚ) / d < (2 : ℚ) ^ (L + 1)) :
    doubleExponent n d = max (L - 52) (-1074) := by
  obtain ⟨L', h1', h2', he⟩ := doubleExponent_spec n d hn hd
  rw [he, floorLog_unique _ _ _ ⟨h1', h2'⟩ ⟨h1, h2⟩]

theorem significand_bounds (n d : Nat) (hn : 0 < n) (hd : 0 < d) :
    divRoundEven (n * 2 ^ (-doubleExponent n d).toNat) (d * 2 ^ (doubleExponent n d).toNat) ≤
        2 ^ 53 ∧
      (doubleExponent n d = -1074 ∨
        2 ^ 52 ≤ divRoundEven (n * 2 ^ (-doubleExponent n d).toNat)
          (d * 2 ^ (doubleExponent n d).toNat)) ∧
      -1074 ≤ doubleExponent n d := by
  obtain ⟨L, h1, h2, he⟩ := doubleExponent_spec n d hn hd
  set e := doubleExponent n d with hedef
  have hb : 0 < d * 2 ^ e.toNat := by positivity
  have hbq : (0 : ℚ) < ((d * 2 ^ e.toNat : Nat) : ℚ) := by exact_mod_cast hb
  have hratio := scaled_ratio n d e hd
  have hp : ∀ z : ℤ, (0 : ℚ) < (2 : ℚ) ^ z := fun z => zpow_pos (by norm_num) z
  refine ⟨?_, ?_, by rw [he]; exact le_max_right _ _⟩
  · apply divRoundEven_le _ _ _ hb
    have hlt : ((n * 2 ^ (-e).toNat : Nat) : ℚ) / ((d * 2 ^ e.toNat : Nat) : ℚ) <
        ((2 ^ 53 : Nat) : ℚ) := by
      rw [hratio, div_lt_iff₀ (hp e)]
      have hle : L + 1 ≤ 53 + e := by
        have : L - 52 ≤ e := by rw [he]; exact le_max_left _ _
        omega
      calc (n : ℚ) / d < (2 : ℚ) ^ (L + 1) := h2
        _ ≤ (2 : ℚ) ^ (53 + e) := zpow_le_zpow_right₀ (by norm_num) hle
        _ = ((2 ^ 53 : Nat) : ℚ) * (2 : ℚ) ^ e := by
          rw [zpow_add₀ (by norm_num)]
          norm_num
    rw [div_lt_iff₀ hbq] at hlt
    exact_mod_cast hlt
  · by_cases hsub : e = -1074
    · exact Or.inl hsub
    · right
      have heL : e = L - 52 := by
        rw [he] at hsub ⊢
        rcases max_cases (L - 52) (-1074) with ⟨hm, _⟩ | ⟨hm, _⟩
        · exact hm
        · exact absurd hm hsub
      apply divRoundEven_ge _ _ _ hb
      have hge : ((2 ^ 52 : Nat) : ℚ) ≤
          ((n * 2 ^ (-e).toNat : Nat) : ℚ) / ((d * 2 ^ e.toNat : Nat) : ℚ) := by
        rw [hratio, le_div_iff₀ (hp e)]
        calc ((2 ^ 52 : Nat) : ℚ) * (2 : ℚ) ^ e = (2 : ℚ) ^ (52 + e) := by
              rw [zpow_add₀ (by norm_num)]
              norm_num
          _ = (2 : ℚ) ^ L := by
              congr 1
              omega
          _ ≤ (n : ℚ) / d := h1
      rw [le_div_iff₀ hbq] at hge
      exact_mod_cast hge

theorem divRoundEven_mul_self (m c : Nat) (hc : 0 < c) : divRoundEven (m * c) c = m := by
  have := divRoundEven_scale m 1 c hc
  rw [one_mul] at this
  rw [this, divRoundEven_one]

theorem value_ratio (m : Nat) (e : ℤ) :
    ((m * 2 ^ e.toNat : Nat) : ℚ) / ((2 ^ (-e).toNat : Nat) : ℚ) = (m : ℚ) * (2 : ℚ) ^ e := by
  rw [two_zpow_split e]
  push_cast
  field_simp

theorem doubleExponent_value (m : Nat) (e : ℤ) (hm0 : 0 < m) :
    doubleExponent (m * 2 ^ e.toNat) (2 ^ (-e).toNat) =
      max ((bitLength m : ℤ) - 1 + e - 52) (-1074) := by
  obtain ⟨h1, h2⟩ := bitLength_zpow m hm0
  have hp : (0 : ℚ) < (2 : ℚ) ^ e := zpow_pos (by norm_num) e
  apply doubleExponent_of_bounds _ _ (by positivity) (by positivity)
  · rw [value_ratio, zpow_add₀ (by norm_num)]
    exact mul_le_mul_of_nonneg_right h1 (le_of_lt hp)
  · rw [value_ratio]
    have : (bitLength m : ℤ) - 1 + e + 1 = (bitLength m : ℤ) + e := by ring
    rw [this, zpow_add₀ (by norm_num)]
    exact mul_lt_mul_of_pos_right h2 hp

theorem bitLength_eq_of_bounds (m b : Nat) (hb : 1 ≤ b) (h1 : 2 ^ (b - 1) ≤ m) (h2 : m < 2 ^ b) :
    bitLength m = b := by
  have hm0 : 0 < m := lt_of_lt_of_le (by positivity) h1
  obtain ⟨g1, g2, g3⟩ := bitLength_bounds m hm0
  by_contra hne
  rcases Nat.lt_or_gt_of_ne hne with hlt | hgt
  · have : 2 ^ bitLength m ≤ 2 ^ (b - 1) := Nat.pow_le_pow_right (by norm_num) (by omega)
    omega
  · have : 2 ^ b ≤ 2 ^ (bitLength m - 1) := Nat.pow_le_pow_right (by norm_num) (by omega)
    omega

/-- A value `± m * 2 ^ e` with a significand and an exponent of a double is its
own Number value. -/
theorem roundRatio_fixed (s : Int) (hs : s = 1 ∨ s = -1) (m : Nat) (e : ℤ)
    (hm0 : 0 < m) (hm : m ≤ 2 ^ 53) (he : -1074 ≤ e) (hnorm : e = -1074 ∨ 2 ^ 52 ≤ m)
    (hover : ¬ (971 < e ∨ (e = 971 ∧ m = 2 ^ 53))) :
    roundRatio (s * ((m * 2 ^ e.toNat : Nat) : Int)) (2 ^ (-e).toNat) =
      JSVal.num (mkRat (s * ((m * 2 ^ e.toNat : Nat) : Int)) (2 ^ (-e).toNat)) := by
  have hN : 0 < m * 2 ^ e.toNat := by positivity
  have hD : 0 < 2 ^ (-e).toNat := by positivity
  have habs : (s * ((m * 2 ^ e.toNat : Nat) : Int)).natAbs = m * 2 ^ e.toNat := by
    rcases hs with h | h <;> subst h
    · rw [one_mul, Int.natAbs_ofNat]
    · rw [neg_one_mul, Int.natAbs_neg, Int.natAbs_ofNat]
  have hne : s * ((m * 2 ^ e.toNat : Nat) : Int) ≠ 0 := by
    intro h
    rw [h] at habs
    simp at habs
    omega
  have hsign : (if s * ((m * 2 ^ e.toNat : Nat) : Int) < 0 then (-1 : Int) else 1) = s := by
    have hpos : (0 : Int) < ((m * 2 ^ e.toNat : Nat) : Int) := by exact_mod_cast hN
    rcases hs with h | h <;> subst h
    · rw [if_neg (by omega)]
    · rw [if_pos (by omega)]
  have c1 : ¬ (s * ((m * 2 ^ e.toNat : Nat) : Int) = 0 ∨ 2 ^ (-e).toNat = 0) := by
    intro h
    rcases h with h | h
    · exact hne h
    · exact (Nat.pos_iff_ne_zero.mp hD) h
  have hexp := doubleExponent_value m e hm0
  unfold roundRatio
  rw [if_neg c1]
  simp only [habs, hsign, hexp]
  by_cases htop : m = 2 ^ 53
  · -- the significand 2 ^ 53 is rewritten as 2 ^ 52 with the next exponent
    subst htop
    have hb : bitLength (2 ^ 53) = 54 := by decide
    have he970 : e ≤ 970 := by
      by_contra hcon
      apply hover
      rcases (show e = 971 ∨ 971 < e by omega) with h | h
      · exact Or.inr ⟨h, rfl⟩
      · exact Or.inl h
    have hmax : max (((bitLength (2 ^ 53) : Nat) : ℤ) - 1 + e - 52) (-1074) = e + 1 := by
      rw [hb]
      have : ((54 : Nat) : ℤ) - 1 + e - 52 = e + 1 := by norm_num; ring
      rw [this]
      exact max_eq_left (by omega)
    rw [hmax]
    have hmant : divRoundEven (2 ^ 53 * 2 ^ e.toNat * 2 ^ (-(e + 1)).toNat)
        (2 ^ (-e).toNat * 2 ^ (e + 1).toNat) = 2 ^ 52 := by
      have hc : 0 < 2 ^ (-e).toNat * 2 ^ (e + 1).toNat := by positivity
      have : 2 ^ 53 * 2 ^ e.toNat * 2 ^ (-(e + 1)).toNat =
          2 ^ 52 * (2 ^ (-e).toNat * 2 ^ (e + 1).toNat) := by
        rcases le_or_lt 0 e with h0 | h0
        · have a1 : (-(e + 1)).toNat = 0 := by omega
          have a2 : (-e).toNat = 0 := by omega
          have a3 : (e + 1).toNat = e.toNat + 1 := by omega
          rw [a1, a2, a3, pow_succ]
          ring
        · have a1 : e.toNat = 0 := by omega
          have a2 : (e + 1).toNat = 0 := by omega
          have a3 : (-e).toNat = (-(e + 1)).toNat + 1 := by omega
          rw [a1, a2, a3, pow_succ]
          ring
      rw [this]
      exact divRoundEven_mul_self _ _ hc
    rw [hmant]
    rw [if_neg (by
      intro h
      rcases h with h | ⟨_, h⟩
      · omega
      · norm_num at h)]
    congr 1
    rw [Rat.mkRat_eq_iff (by positivity) (by positivity)]
    rcases le_or_lt 0 e with h0 | h0
    · have a1 : (-(e + 1)).toNat = 0 := by omega
      have a2 : (-e).toNat = 0 := by omega
      have a3 : (e + 1).toNat = e.toNat + 1 := by omega
      rw [a1, a2, a3, pow_succ]
      push_cast
      ring
    · have a1 : e.toNat = 0 := by omega
      have a2 : (e + 1).toNat = 0 := by omega
      have a3 : (-e).toNat = (-(e + 1)).toNat + 1 := by omega
      rw [a1, a2, a3, pow_succ]
      push_cast
      ring
  · have hlt : m < 2 ^ 53 := lt_of_le_of_ne hm htop
    have hmax : max (((bitLength m : Nat) : ℤ) - 1 + e - 52) (-1074) = e := by
      rcases hnorm with hsub | hbig
      · obtain ⟨g1, g2, g3⟩ := bitLength_bounds m hm0
        have hb : bitLength m ≤ 53 := by
          by_contra hcon
          have : 2 ^ 53 ≤ 2 ^ (bitLength m - 1) := Nat.pow_le_pow_right (by norm_num) (by omega)
          omega
        rw [hsub]
        exact max_eq_right (by omega)
      · have hb : bitLength m = 53 := bitLength_eq_of_bounds m 53 (by norm_num) hbig hlt
        rw [hb]
        have : ((53 : Nat) : ℤ) - 1 + e - 52 = e := by norm_num
        rw [this]
        exact max_eq_left he
    rw [hmax]
    have hmant : divRoundEven (m * 2 ^ e.toNat * 2 ^ (-e).toNat)
        (2 ^ (-e).toNat * 2 ^ e.toNat) = m := by
      have hc : 0 < 2 ^ (-e).toNat * 2 ^ e.toNat := by positivity
      have : m * 2 ^ e.toNat * 2 ^ (-e).toNat = m * (2 ^ (-e).toNat * 2 ^ e.toNat) := by ring
      rw [this]
      exact divRoundEven_mul_self _ _ hc
    rw [hmant]
    rw [if_neg (by
      intro h
      apply hover
      rcases h with h | ⟨h1, h2⟩
      · exact Or.inl h
      · exact Or.inr ⟨h1, h2⟩)]

theorem toDouble_zero : toDouble 0 = JSVal.num 0 := by decide

/-- A Number value is its own Number value: rounding a double changes nothing. -/
theorem toDouble_fixed (x y : ℚ) (h : toDouble x = JSVal.num y) : toDouble y = JSVal.num y := by
  unfold toDouble roundRatio at h
  by_cases hx : x.num = 0
  · rw [if_pos (Or.inl hx), if_neg x.den_nz] at h
    rw [← JSVal.num.inj h]
    exact toDouble_zero
  · have c1 : ¬ (x.num = 0 ∨ x.den = 0) := fun hc => hc.elim hx x.den_nz
    rw [if_neg c1] at h
    simp only [] at h
    have hpos : 0 < x.num.natAbs := Int.natAbs_pos.mpr hx
    obtain ⟨hm, hnorm, he⟩ := significand_bounds x.num.natAbs x.den hpos x.den_pos
    split at h
    · cases h
    · rename_i hover
      have hy := JSVal.num.inj h
      by_cases hm0 : divRoundEven (x.num.natAbs * 2 ^ (-doubleExponent x.num.natAbs x.den).toNat)
          (x.den * 2 ^ (doubleExponent x.num.natAbs x.den).toNat) = 0
      · rw [hm0] at hy
        simp at hy
        rw [← hy]
        exact toDouble_zero
      · have hfix := roundRatio_fixed (if x.num < 0 then -1 else 1)
          (by split <;> simp) _ _ (Nat.pos_of_ne_zero hm0) hm he hnorm hover
        rw [hy] at hfix
        rw [← hfix]
        have hD : 0 < 2 ^ (-doubleExponent x.num.natAbs x.den).toNat := by positivity
        rw [roundRatio_eq_toDouble _ _ hD]
        congr 1
        rw [← hy, Rat.mkRat_eq_div]

theorem times_num (rt : Runtime) (x y x1 y1 : ℚ) (hx : toDouble x = JSVal.num x1)
    (hy : toDouble y = JSVal.num y1) :
    times rt (JSVal.num x) (JSVal.num y) = toDouble (x1 * y1) := by
  unfold times
  simp only [toNumber, hx, hy]
  have hd : 0 < x1.den * y1.den := Nat.mul_pos x1.den_pos y1.den_pos
  rw [roundRatio_eq_toDouble _ _ hd]
  congr 1
  push_cast
  rw [mul_div_mul_comm, Rat.num_div_den, Rat.num_div_den]

theorem divide_num (rt : Runtime) (x y x1 y1 : ℚ) (hx : toDouble x = JSVal.num x1)
    (hy : toDouble y = JSVal.num y1) (h0 : y1 ≠ 0) :
    divide rt (JSVal.num x) (JSVal.num y) = toDouble (x1 / y1) := by
  unfold divide
  simp only [toNumber, hx, hy, if_neg h0]
  have hnum : y1.num ≠ 0 := Rat.num_ne_zero.mpr h0
  have hd : 0 < x1.den * y1.num.natAbs :=
    Nat.mul_pos x1.den_pos (Int.natAbs_pos.mpr hnum)
  rw [roundRatio_eq_toDouble _ _ hd]
  congr 1
  have hx1 : x1 = (x1.num : ℚ) / (x1.den : ℚ) := (Rat.num_div_den x1).symm
  have hy1 : y1 = (y1.num : ℚ) / (y1.den : ℚ) := (Rat.num_div_den y1).symm
  have hxd : (x1.den : ℚ) ≠ 0 := by exact_mod_cast x1.den_nz
  have hyd : (y1.den : ℚ) ≠ 0 := by exact_mod_cast y1.den_nz
  have hyn : (y1.num : ℚ) ≠ 0 := by exact_mod_cast hnum
  conv_rhs => rw [hx1, hy1]
  by_cases hneg : y1.num < 0
  · rw [if_pos hneg]
    have habs : ((y1.num.natAbs : Nat) : ℚ) = -(y1.num : ℚ) := by
      have : ((y1.num.natAbs : Nat) : Int) = -y1.num := by omega
      rw [← Int.cast_natCast, this, Int.cast_neg]
    push_cast
    rw [habs]
    field_simp
  · rw [if_neg hneg]
    have habs : ((y1.num.natAbs : Nat) : ℚ) = (y1.num : ℚ) := by
      have : ((y1.num.natAbs : Nat) : Int) = y1.num := by omega
      rw [← Int.cast_natCast, this]
    push_cast
    rw [habs]
    field_simp

theorem plus_num (x y x1 y1 : ℚ) (hx : toDouble x = JSVal.num x1)
    (hy : toDouble y = JSVal.num y1) :
    plus (JSVal.num x) (JSVal.num y) = toDouble (x1 + y1) := by
  unfold plus
  simp only [hx, hy]
  have hd : 0 < x1.den * y1.den := Nat.mul_pos x1.den_pos y1.den_pos
  rw [roundRatio_eq_toDouble _ _ hd]
  congr 1
  have hxd : (x1.den : ℚ) ≠ 0 := by exact_mod_cast x1.den_nz
  have hyd : (y1.den : ℚ) ≠ 0 := by exact_mod_cast y1.den_nz
  have hx1 : x1 = (x1.num : ℚ) / (x1.den : ℚ) := (Rat.num_div_den x1).symm
  have hy1 : y1 = (y1.num : ℚ) / (y1.den : ℚ) := (Rat.num_div_den y1).symm
  conv_rhs => rw [hx1, hy1]
  push_cast
  field_simp

theorem toDouble_hundred : toDouble 100 = JSVal.num 100 := by
  have h := toDouble_natCast 100 (by norm_num)
  simpa using h

/-! ## The receipt generator: percentage, payment method, defaults -/

theorem discountAmountUsed_num (d : ReceiptData) (x : ℚ) (hx : d.discountAmount = JSVal.num x) :
    discountAmountUsed d = JSVal.num x := by
  unfold discountAmountUsed JSVal.or
  rw [hx]
  by_cases h0 : x = 0
  · simp [JSVal.truthy, h0]
  · simp [JSVal.truthy, h0]

/-- C16 (counterexample). A negative discount amount, -50 on an original amount
of 200: the discount percentage is 0, not -50 / 200 × 100 = -25. -/
theorem negative_discount_has_zero_percentage :
    negativeDiscountData.discountAmount = JSVal.num (-50) ∧
    originalAmountUsed negativeDiscountData = JSVal.num 200 ∧
    discountPercentageOf sampleRuntime negativeDiscountData = JSVal.num 0 ∧
    ((-50 : ℚ) / 200 * 100 ≠ 0) := by
  refine ⟨rfl, by decide, ?_, by norm_num⟩
  simp [discountPercentageOf, discountAmountUsed_num negativeDiscountData (-50) rfl, gtZero_num]

/-- C16 (amended). Discount percentage in `generateReceiptHtml`, for a numeric
`discountAmount` and a numeric computed `originalAmount`: when both are > 0 it
is `discountAmount / originalAmount * 100` in the arithmetic of the code, the
quotient rounded to the nearest double, then the product with 100 rounded
again; otherwise it is 0, so also for a zero or negative discount and for
`originalAmount = 0`. It is shown through `toFixed(1)`, with one fractional
digit. In the last part `x1` and `o1` are the Number values of the two
amounts and `q` is the rounded quotient. -/
theorem discount_percentage_of_positive_amounts (rt : Runtime) (d : ReceiptData) (x o : ℚ)
    (hx : d.discountAmount = JSVal.num x) (ho : originalAmountUsed d = JSVal.num o) :
    discountPercentageOf rt d =
      (if 0 < x ∧ 0 < o then
        times rt (divide rt (JSVal.num x) (JSVal.num o)) (JSVal.num 100)
      else JSVal.num 0) ∧
    percentFixedOf rt d =
      (match (if 0 < x ∧ 0 < o then
          times rt (divide rt (JSVal.num x) (JSVal.num o)) (JSVal.num 100)
        else JSVal.num 0) with
      | JSVal.num p => toFixed rt p 1
      | _ => "NaN") ∧
    (o = 0 → discountPercentageOf rt d = JSVal.num 0) ∧
    (x ≤ 0 → discountPercentageOf rt d = JSVal.num 0) ∧
    (∀ x1 o1 q : ℚ, 0 < x → 0 < o →
      toDouble x = JSVal.num x1 → toDouble o = JSVal.num o1 → o1 ≠ 0 →
      toDouble (x1 / o1) = JSVal.num q →
      discountPercentageOf rt d = toDouble (q * 100)) := by
  have hpct : discountPercentageOf rt d =
      (if 0 < x ∧ 0 < o then
        times rt (divide rt (JSVal.num x) (JSVal.num o)) (JSVal.num 100)
      else JSVal.num 0) := by
    unfold discountPercentageOf
    rw [discountAmountUsed_num d x hx, ho]
    by_cases hc : 0 < x ∧ 0 < o
    · simp [gtZero_num, hc.1, hc.2]
    · rw [if_neg hc]
      have : (gtZero rt (JSVal.num x) && gtZero rt (JSVal.num o)) = false := by
        simp only [gtZero_num, Bool.and_eq_false_imp, decide_eq_true_eq, decide_eq_false_iff_not]
        intro h1 h2
        exact hc ⟨h1, h2⟩
      rw [this]
      simp
  refine ⟨hpct, ?_, fun h0 => ?_, fun h0 => ?_, fun x1 o1 q hx0 ho0 h1 h2 h3 h4 => ?_⟩
  · unfold percentFixedOf
    rw [hpct]
  · rw [hpct, h0]
    simp
  · rw [hpct, if_neg (fun h => absurd h.1 (not_lt.mpr h0))]
  · rw [hpct, if_pos ⟨hx0, ho0⟩, divide_num rt x o x1 o1 h1 h2 h3, h4]
    exact times_num rt q 100 q 100 (toDouble_fixed _ _ h4) toDouble_hundred

set_option maxRecDepth 100000 in
/-- A discount of 50 on 200 is 25 percent, shown as 25.0. A discount of 23 on 80
is 28.749999999999996 percent, shown as 28.7: the quotient 0.2875 is rounded
before it is multiplied by 100. A discount of 1.15 on 100 is shown as 1.1. -/
theorem discount_percentage_of_positive_amounts_witness :
    (discountPercentageOf sampleRuntime quarterDiscountData = JSVal.num 25 ∧
      percentFixedOf sampleRuntime quarterDiscountData = "25.0") ∧
    (discountPercentageOf sampleRuntime (discountedData 23 80) =
        JSVal.num (mkRat 8092405580431359 281474976710656) ∧
      percentFixedOf sampleRuntime (discountedData 23 80) = "28.7") ∧
    percentFixedOf sampleRuntime (discountedData (mkRat 115 100) 100) = "1.1" :=
  ⟨⟨(discount_percentage_of_positive_amounts sampleRuntime quarterDiscountData 50 200
        rfl (by decide)).1.trans (by decide),
      (discount_percentage_of_positive_amounts sampleRuntime quarterDiscountData 50 200
        rfl (by decide)).2.1.trans (by decide)⟩,
    ⟨(discount_percentage_of_positive_amounts sampleRuntime (discountedData 23 80) 23 80
        rfl (by decide)).1.trans (by decide),
      (discount_percentage_of_positive_amounts sampleRuntime (discountedData 23 80) 23 80
        rfl (by decide)).2.1.trans (by decide)⟩,
    (discount_percentage_of_positive_amounts sampleRuntime (discountedData (mkRat 115 100) 100)
      (mkRat 115 100) 100 rfl (by decide)).2.1.trans (by decide)⟩

theorem isFreeBooking_truthy_iff (rt : Runtime) (d : ReceiptData) :
    (isFreeBookingOf rt d).truthy = true ↔
      finalAmountUsed d = JSVal.num 0 ∧ (hasDiscountOf rt d).truthy = true := by
  unfold isFreeBookingOf JSVal.and
  rw [strictEq_num_right]
  by_cases h : finalAmountUsed d = JSVal.num 0
  · simp [h, JSVal.truthy]
  · simp [h, JSVal.truthy]

theorem hasDiscount_freeBookingData (rt : Runtime) :
    (hasDiscountOf rt freeBookingData).truthy = true := by
  simp [hasDiscountOf, JSVal.and, freeBookingData, emptyReceiptData, gtZero_num, JSVal.truthy]

theorem toFixed_num_ne_none (rt : Runtime) (q : ℚ) (digits : Nat) :
    callToFixed rt (JSVal.num q) digits = some (toFixed rt q digits) := rfl

/-- C17. Free-booking payment method. The payment method shown in the document
is "Coupon (100% discount)" if and only if the computed `finalAmount` is 0 and
`hasDiscount` holds, and "Credit Card (Stripe)" otherwise; it is the text of the
"Payment Method" cell. For `originalAmount = 200`, `discountAmount = 200`,
`couponCode = "FREE100"` and neither `amount` nor `finalAmount`, the computed
final amount is 0 and the document shows "Coupon (100% discount)". -/
theorem payment_method_is_coupon_iff_free_booking (rt : Runtime) (d : ReceiptData) :
    (paymentMethodOf rt d = "Coupon (100% discount)" ↔
      finalAmountUsed d = JSVal.num 0 ∧ (hasDiscountOf rt d).truthy = true) ∧
    (¬ (finalAmountUsed d = JSVal.num 0 ∧ (hasDiscountOf rt d).truthy = true) →
      paymentMethodOf rt d = "Credit Card (Stripe)") ∧
    (∀ (items : List Item) (v : ReceiptView), receiptView rt d items = some v →
      v.paymentMethod = paymentMethodOf rt d ∧
      containsText (receiptTemplate v)
        (String.join ["Payment Method", "</p>\n",
          "              <p style=\"margin: 0; font-size: 16px; font-weight: 600;\">",
          v.paymentMethod, "</p>\n"])) ∧
    (finalAmountUsed freeBookingData = JSVal.num 0 ∧
      paymentMethodOf rt freeBookingData = "Coupon (100% discount)" ∧
      ∃ doc, generateReceiptHtml rt freeBookingData [] = some doc ∧
        containsText doc "Coupon (100% discount)") := by
  have hiff : ∀ d : ReceiptData, paymentMethodOf rt d = "Coupon (100% discount)" ↔
      finalAmountUsed d = JSVal.num 0 ∧ (hasDiscountOf rt d).truthy = true := by
    intro d
    rw [← isFreeBooking_truthy_iff]
    unfold paymentMethodOf
    cases h : (isFreeBookingOf rt d).truthy
    · simp
    · simp
  refine ⟨hiff d, fun hn => ?_, fun items v hv => ⟨?_, ?_⟩, ?_, ?_, ?_⟩
  · rw [← isFreeBooking_truthy_iff] at hn
    unfold paymentMethodOf
    rw [if_neg hn]
  · exact (receiptView_some hv).2.2.1
  · exact containsText_window (receiptSegments v) 136 5
  · decide
  · exact (hiff freeBookingData).mpr ⟨by decide, hasDiscount_freeBookingData rt⟩
  · have hd := hasDiscount_freeBookingData rt
    have hmethod := (hiff freeBookingData).mpr ⟨by decide, hd⟩
    have hdesc : ∃ t, couponDescriptionOf rt freeBookingData = some t := by
      unfold couponDescriptionOf
      rw [if_pos hd]
      exact ⟨_, rfl⟩
    have hsec : ∃ t, couponSectionOf rt freeBookingData = some t := by
      unfold couponSectionOf
      rw [if_pos hd]
      exact ⟨_, rfl⟩
    obtain ⟨t1, h1⟩ := hdesc
    obtain ⟨t2, h2⟩ := hsec
    have hv : ∃ v, receiptView rt freeBookingData [] = some v := by
      unfold receiptView
      rw [h1, h2]
      exact ⟨_, rfl⟩
    obtain ⟨v, hv⟩ := hv
    refine ⟨receiptTemplate v, by simp [generateReceiptHtml, hv], ?_⟩
    have hseg := containsText_segment (receiptSegments v) 139 v.paymentMethod rfl
    rw [(receiptView_some hv).2.2.1, hmethod] at hseg
    exact hseg

/-- The free booking rendered with the sample runtime shows the coupon method. -/
theorem payment_method_is_coupon_iff_free_booking_witness :
    paymentMethodOf sampleRuntime freeBookingData = "Coupon (100% discount)" :=
  (payment_method_is_coupon_iff_free_booking sampleRuntime freeBookingData).1.mpr
    ⟨by decide, hasDiscount_freeBookingData sampleRuntime⟩

/-- C18 (the code at the failing inputs). With a coupon code and a positive
discount, a numeric string in `originalAmount` makes `originalAmount.toFixed(2)`
in the coupon breakdown throw, whatever the runtime; a numeric string in
`discountAmount` makes `discountAmount.toFixed(2)` throw when `couponInfo` is
built. Without the coupon code the same string amount is shown as 0.00 by the
guarded cells of the payment summary. -/
theorem receipt_throws_on_string_amount_with_discount :
    (∀ (rt : Runtime) (items : List Item),
      generateReceiptHtml rt stringOriginalData items = none) ∧
    generateReceiptHtml sampleRuntime stringDiscountData [] = none ∧
    (receiptView sampleRuntime stringOriginalNoCoupon []).map
      (fun v => v.originalPrice) = some "0.00" := by
  refine ⟨fun rt items => ?_, by decide, by decide⟩
  have hd : (hasDiscountOf rt stringOriginalData).truthy = true := by
    simp [hasDiscountOf, JSVal.and, stringOriginalData, emptyReceiptData, gtZero_num,
      JSVal.truthy]
  have hsec : couponSectionOf rt stringOriginalData = none := by
    unfold couponSectionOf
    rw [if_pos hd]
    have ho : originalAmountUsed stringOriginalData = JSVal.str "100" := by decide
    rw [ho]
    simp [callToFixed]
  unfold generateReceiptHtml receiptView
  rw [hsec]
  cases couponDescriptionOf rt stringOriginalData <;> rfl

theorem toFixed_zero_two (rt : Runtime) : toFixed rt 0 2 = "0.00" := by
  have h : toDouble 0 = JSVal.num 0 := by decide
  unfold toFixed
  rw [h]
  simp
  decide

theorem guardedFixed_zero (rt : Runtime) : guardedFixed rt (JSVal.num 0) = "0.00" :=
  toFixed_zero_two rt

theorem containsText_of_window (segs : List String) (k n : Nat) (window : List String)
    (text : String) (hw : (segs.drop k).take n = window)
    (ht : containsText (String.join window) text) : containsText (String.join segs) text := by
  have h := containsText_window segs k n
  rw [hw] at h
  exact containsText_trans h ht

set_option maxRecDepth 100000 in
/-- C19. Defaults for missing optional fields. For every booking data that
lacks `customerName`, `customerEmail`, `packageName`, `packageId` and all four
amounts, `generateReceiptHtml` returns a document, in which the customer name
and email are shown as "Not specified", the package name as "Safari Package",
the package id as "N/A", and the original price and the total paid as £0.00. -/
theorem missing_fields_get_defaults (rt : Runtime) (d : ReceiptData) (items : List Item)
    (hname : d.customerName = JSVal.undefined) (hemail : d.customerEmail = JSVal.undefined)
    (hpackage : d.packageName = JSVal.undefined) (hid : d.packageId = JSVal.undefined)
    (horiginal : d.originalAmount = JSVal.undefined) (hamount : d.amount = JSVal.undefined)
    (hfinal : d.finalAmount = JSVal.undefined)
    (hdiscount : d.discountAmount = JSVal.undefined) :
    ∃ v, generateReceiptHtml rt d items = some (receiptTemplate v) ∧
      v.customerName = "Not specified" ∧ v.customerEmail = "Not specified" ∧
      v.packageName = "Safari Package" ∧ v.packageId = "N/A" ∧
      v.originalPrice = "0.00" ∧ v.totalPaid = "0.00" ∧
      containsText (receiptTemplate v)
        "Name</p>\n              <p style=\"margin: 0; font-size: 16px; font-weight: 600;\">Not specified</p>" ∧
      containsText (receiptTemplate v)
        "Email</p>\n              <p style=\"margin: 0; font-size: 16px; font-weight: 600;\">Not specified</p>" ∧
      containsText (receiptTemplate v)
        "<p style=\"margin: 0 0 15px; font-size: 18px;\">Safari Package</p>" ∧
      containsText (receiptTemplate v) "ID: N/A</p>" ∧
      containsText (receiptTemplate v)
        "Safari Package</td>\n                        <td style=\"font-size: 16px; color: #444; text-align: right; font-weight: 600;\">£0.00</td>" ∧
      containsText (receiptTemplate v)
        "Total Paid</td>\n                        <td style=\"font-size: 18px; color: #e67e22; text-align: right; font-weight: 700;\">£0.00</td>" := by
  have hf : (hasDiscountOf rt d).truthy = false := by
    simp [hasDiscountOf, JSVal.and, hdiscount, gtZero, toNumber, JSVal.truthy]
  obtain ⟨hdesc, hsec⟩ := couponSection_of_no_discount rt d hf
  have ho : originalAmountUsed d = JSVal.num 0 := by
    simp [originalAmountUsed, JSVal.or, horiginal, hamount, JSVal.truthy]
  have hfin : finalAmountUsed d = JSVal.num 0 := by
    simp [finalAmountUsed, JSVal.or, hfinal, hamount, JSVal.truthy]
  have hv : ∃ v, receiptView rt d items = some v ∧
      v.customerName = "Not specified" ∧ v.customerEmail = "Not specified" ∧
      v.packageName = "Safari Package" ∧ v.packageId = "N/A" ∧
      v.originalPrice = "0.00" ∧ v.totalPaid = "0.00" := by
    unfold receiptView
    rw [hdesc, hsec]
    refine ⟨_, rfl, ?_, ?_, ?_, ?_, ?_, ?_⟩
    · simp [hname, JSVal.or, JSVal.truthy, display]
    · simp [hemail, JSVal.or, JSVal.truthy, display]
    · simp [hpackage, JSVal.or, JSVal.truthy, display]
    · simp [hid, JSVal.or, JSVal.truthy, display]
    · simp only [ho]
      exact guardedFixed_zero rt
    · simp only [hfin]
      exact guardedFixed_zero rt
  obtain ⟨v, hv, h1, h2, h3, h4, h5, h6⟩ := hv
  refine ⟨v, by simp [generateReceiptHtml, hv], h1, h2, h3, h4, h5, h6, ?_, ?_, ?_, ?_, ?_, ?_⟩
  · have e : ((receiptSegments v).drop 56).take 4 =
        ["              <p style=\"margin: 0 0 5px; font-size: 12px; color: #666; text-transform: uppercase; font-weight: bold;\">Name</p>\n",
        "              <p style=\"margin: 0; font-size: 16px; font-weight: 600;\">",
        v.customerName,
        "</p>\n"] := rfl
    rw [h1] at e
    exact containsText_of_window _ 56 4 _ _ e (by decide)
  · have e : ((receiptSegments v).drop 62).take 4 =
        ["              <p style=\"margin: 0 0 5px; font-size: 12px; color: #666; text-transform: uppercase; font-weight: bold;\">Email</p>\n",
        "              <p style=\"margin: 0; font-size: 16px; font-weight: 600;\">",
        v.customerEmail,
        "</p>\n"] := rfl
    rw [h2] at e
    exact containsText_of_window _ 62 4 _ _ e (by decide)
  · have e : ((receiptSegments v).drop 40).take 3 =
        ["        <p style=\"margin: 0 0 15px; font-size: 18px;\">",
        v.packageName,
        "</p>\n"] := rfl
    rw [h3] at e
    exact containsText_of_window _ 40 3 _ _ e (by decide)
  · have e : ((receiptSegments v).drop 43).take 3 =
        ["        <p style=\"margin: 0; font-size: 16px; background-color: rgba(255,255,255,0.2); display: inline-block; padding: 5px 10px; border-radius: 4px;\">ID: ",
        v.packageId,
        "</p>\n"] := rfl
    rw [h4] at e
    exact containsText_of_window _ 43 3 _ _ e (by decide)
  · have e : ((receiptSegments v).drop 154).take 6 =
        ["                        <td style=\"font-size: 16px; color: #444;\">",
        v.packageName,
        "</td>\n",
        "                        <td style=\"font-size: 16px; color: #444; text-align: right; font-weight: 600;\">£",
        v.originalPrice,
        "</td>\n"] := rfl
    rw [h3, h5] at e
    exact containsText_of_window _ 154 6 _ _ e (by decide)
  · have e : ((receiptSegments v).drop 182).take 5 =
        ["Total Paid",
        "</td>\n",
        "                        <td style=\"font-size: 18px; color: #e67e22; text-align: right; font-weight: 700;\">£",
        v.totalPaid,
        "</td>\n"] := rfl
    rw [h6] at e
    exact containsText_of_window _ 182 5 _ _ e (by decide)

/-- The booking data with no property at all: a document is returned, with the
defaults in place. -/
theorem missing_fields_get_defaults_witness :
    ∃ v, generateReceiptHtml sampleRuntime emptyReceiptData [] = some (receiptTemplate v) ∧
      v.customerName = "Not specified" ∧ v.packageName = "Safari Package" ∧
      v.totalPaid = "0.00" := by
  obtain ⟨v, hdoc, hname, -, hpackage, -, -, htotal, -⟩ :=
    missing_fields_get_defaults sampleRuntime emptyReceiptData [] rfl rfl rfl rfl rfl rfl
      rfl rfl
  exact ⟨v, hdoc, hname, hpackage, htotal⟩

/-- C20. Receipt identifier priority in `generateReceiptHtml`. The receipt
number is `bookingData.bookingId` when that is present (truthy, for a text:
non-empty); otherwise `bookingData.receiptNumber` when that is present;
otherwise `KOB-` followed by the generated code. In a produced document the
same value fills the "Paid Receipt #" line and the "Booking ID" cell. -/
theorem receipt_number_priority (rt : Runtime) (d : ReceiptData) :
    (d.bookingId.truthy = true → receiptNumberOf rt d = d.bookingId) ∧
    (d.bookingId.truthy = false → d.receiptNumber.truthy = true →
      receiptNumberOf rt d = d.receiptNumber) ∧
    (d.bookingId.truthy = false → d.receiptNumber.truthy = false →
      receiptNumberOf rt d = JSVal.str ("KOB-" ++ rt.randomCode)) ∧
    (∀ (items : List Item) (v : ReceiptView), receiptView rt d items = some v →
      v.receiptNumber = display rt (receiptNumberOf rt d) ∧
      containsText (receiptTemplate v)
        (String.join ["Paid Receipt #",
        v.receiptNumber,
        "<br>\n"]) ∧
      containsText (receiptTemplate v)
        (String.join ["Booking ID",
          "</p>\n",
          "              <p style=\"margin: 0; font-size: 16px; font-weight: 600;\">",
          v.receiptNumber,
          "</p>\n"])) := by
  refine ⟨fun h => ?_, fun h1 h2 => ?_, fun h1 h2 => ?_, fun items v hv => ⟨?_, ?_, ?_⟩⟩
  · simp [receiptNumberOf, JSVal.or, h]
  · simp [receiptNumberOf, JSVal.or, h1, h2]
  · simp [receiptNumberOf, JSVal.or, h1, h2]
  · exact (receiptView_some hv).2.2.2.1
  · exact containsText_window (receiptSegments v) 26 3
  · exact containsText_window (receiptSegments v) 85 5

/-- A booking id wins over a receipt number; the receipt number is used when
there is no booking id. -/
theorem receipt_number_priority_witness :
    receiptNumberOf sampleRuntime
        (identifiedData (JSVal.str "KOB-OLD123") (JSVal.str "R-77")) =
      JSVal.str "KOB-OLD123" ∧
    receiptNumberOf sampleRuntime (identifiedData JSVal.undefined (JSVal.str "R-77")) =
      JSVal.str "R-77" ∧
    receiptNumberOf sampleRuntime (identifiedData JSVal.undefined JSVal.undefined) =
      JSVal.str "KOB-A1B2C3" :=
  ⟨(receipt_number_priority sampleRuntime
      (identifiedData (JSVal.str "KOB-OLD123") (JSVal.str "R-77"))).1 (by decide),
    (receipt_number_priority sampleRuntime
      (identifiedData JSVal.undefined (JSVal.str "R-77"))).2.1 (by decide) (by decide),
    (receipt_number_priority sampleRuntime
      (identifiedData JSVal.undefined JSVal.undefined)).2.2.1 (by decide) (by decide)⟩

/-! ## Generated identifiers -/

theorem radix36Text_half : radix36Text (1 / 2) = "0.i" := by
  have hn : (1 / 2 : ℚ).num = 1 := by norm_num
  have hd : (1 / 2 : ℚ).den = 2 := by norm_num
  unfold radix36Text
  rw [hn, hd]
  decide

theorem val_le_iff (c : Char) (n : Nat) (hn : n < 1000) : c.val ≤ UInt32.ofNat n ↔ c.toNat ≤ n := by
  show c.val.toNat ≤ (UInt32.ofNat n).toNat ↔ c.toNat ≤ n
  have : (UInt32.ofNat n).toNat = n := by
    show n % UInt32.size = n
    apply Nat.mod_eq_of_lt
    unfold UInt32.size; omega
  rw [this]; rfl

theorem val_ge_iff (c : Char) (n : Nat) (hn : n < 1000) : c.val ≥ UInt32.ofNat n ↔ n ≤ c.toNat := by
  show (UInt32.ofNat n).toNat ≤ c.val.toNat ↔ n ≤ c.toNat
  have : (UInt32.ofNat n).toNat = n := by
    show n % UInt32.size = n
    apply Nat.mod_eq_of_lt
    unfold UInt32.size; omega
  rw [this]; rfl

theorem toUpper_digit_or_upper (c : Char) (h : c.isDigit = true ∨ c.isLower = true) :
    c.toUpper.isDigit = true ∨ c.toUpper.isUpper = true := by
  rcases h with h | h
  · left
    have h2 : c.toNat ≤ 57 := by
      simp only [Char.isDigit, Bool.and_eq_true, decide_eq_true_eq] at h
      exact (val_le_iff c 57 (by omega)).mp h.2
    have : c.toUpper = c := by
      unfold Char.toUpper
      simp only []
      rw [if_neg]
      omega
    rw [this]; exact h
  · right
    simp only [Char.isLower, Bool.and_eq_true, decide_eq_true_eq] at h
    have h1 : 97 ≤ c.toNat := (val_ge_iff c 97 (by omega)).mp h.1
    have h2 : c.toNat ≤ 122 := (val_le_iff c 122 (by omega)).mp h.2
    unfold Char.toUpper
    simp only []
    rw [if_pos ⟨h1, h2⟩]
    generalize c.toNat = n at h1 h2
    interval_cases n <;> decide

theorem randomCodeOf_digits (digits : List Char) :
    randomCodeOf (String.mk ('0' :: '.' :: digits)) =
      String.mk ((digits.take 6).map Char.toUpper) := by
  simp [randomCodeOf, toUpperCase, substring]

/-- C21 (counterexample). The random source returns one half, a value of
`[0, 1)`: its radix-36 text is `0.i`, so the code is the one character `I` and
the identifier generated by `/create-checkout-session`, by `/verify-payment`
and by `generateReceiptHtml` is `KOB-I`, with one character after the dash.
When the source returns 0 the text is `0` and the identifier is `KOB-`. -/
theorem generated_identifier_can_be_short :
    (0 : ℚ) ≤ 1 / 2 ∧ (1 / 2 : ℚ) < 1 ∧
    radix36Text (1 / 2) = "0.i" ∧
    generatedBookingId (drawEnv (1 / 2)) = JSVal.str "KOB-I" ∧
    (createCheckoutSession (drawEnv (1 / 2)) sampleCheckoutRequest
        (sampleWorld (awaitingDoc none) [])).2 =
      CheckoutResponse.created "cs_test_1" 1000 (JSVal.str "KOB-I")
        (some "https://checkout.example/pay") ∧
    verifyBookingId (drawEnv (1 / 2)) unbookedSession = JSVal.str "KOB-I" ∧
    receiptNumberOf (drawRuntime (1 / 2)) emptyReceiptData = JSVal.str "KOB-I" ∧
    radix36Text 0 = "0" ∧
    generatedBookingId (drawEnv 0) = JSVal.str "KOB-" := by
  have hhalf : randomCodeOf (radix36Text (1 / 2)) = "I" := by
    rw [radix36Text_half]
    decide
  have hzero : randomCodeOf (radix36Text 0) = "" := by
    have : radix36Text 0 = "0" := by simp [radix36Text]
    rw [this]
    decide
  have he : drawEnv (1 / 2) = { sampleEnv with randomCode := "I" } := by
    unfold drawEnv
    rw [hhalf]
  have hr : drawRuntime (1 / 2) = { sampleRuntime with randomCode := "I" } := by
    unfold drawRuntime
    rw [hhalf]
  have hz : drawEnv 0 = { sampleEnv with randomCode := "" } := by
    unfold drawEnv
    rw [hzero]
  rw [he, hr, hz]
  exact ⟨by norm_num, by norm_num, radix36Text_half, by decide, by decide, by decide,
    by decide, by simp [radix36Text], by decide⟩

/-- C21 (amended). Shape of a generated identifier. Let the radix-36 text of
the number drawn be `0.` followed by `digits`, each a digit `0`-`9` or a small
letter `a`-`z`. The identifier generated when no booking id is available, in
`/create-checkout-session`, in `/verify-payment` and in `generateReceiptHtml`,
is `KOB-` followed by the first six of these digits in capitals, or by all of
them when there are fewer: at most 6 characters, each a digit or a capital
letter, and exactly 6 when the text has at least six digits after the point. -/
theorem generated_identifier_shape (env : Env) (rt : Runtime) (digits : List Char)
    (hdigits : ∀ c ∈ digits, c.isDigit = true ∨ c.isLower = true)
    (henv : env.randomCode = randomCodeOf (String.mk ('0' :: '.' :: digits)))
    (hrt : rt.randomCode = randomCodeOf (String.mk ('0' :: '.' :: digits))) :
    ∃ code : List Char,
      code = (digits.take 6).map Char.toUpper ∧
      code.length = min 6 digits.length ∧
      (6 ≤ digits.length → code.length = 6) ∧
      (∀ c ∈ code, c.isDigit = true ∨ c.isUpper = true) ∧
      generatedBookingId env = JSVal.str ("KOB-" ++ String.mk code) ∧
      (∀ (req : CheckoutRequest) (w : World) (id : String) (url : Option String),
        validateCheckout req = none → env.create = some (id, url) →
        (createCheckoutSession env req w).2 =
          CheckoutResponse.created id env.now (JSVal.str ("KOB-" ++ String.mk code)) url) ∧
      (∀ session : StripeSession, (session.metadataField "bookingId").truthy = false →
        verifyBookingId env session = JSVal.str ("KOB-" ++ String.mk code)) ∧
      (∀ d : ReceiptData, d.bookingId.truthy = false → d.receiptNumber.truthy = false →
        receiptNumberOf rt d = JSVal.str ("KOB-" ++ String.mk code)) := by
  rw [randomCodeOf_digits] at henv hrt
  have hgen : generatedBookingId env =
      JSVal.str ("KOB-" ++ String.mk ((digits.take 6).map Char.toUpper)) := by
    simp [generatedBookingId, henv]
  refine ⟨_, rfl, ?_, ?_, ?_, hgen, ?_, ?_, ?_⟩
  · simp [List.length_take]
  · intro h
    simp [List.length_take, h]
  · intro c hc
    obtain ⟨a, ha, rfl⟩ := List.mem_map.mp hc
    exact toUpper_digit_or_upper a (hdigits a (List.mem_of_mem_take ha))
  · intro req w id url hvalid hcreate
    unfold createCheckoutSession
    rw [hvalid]
    simp only [hcreate, hgen]
  · intro session h
    simp [verifyBookingId, JSVal.or, h, hgen]
  · intro d h1 h2
    simp [receiptNumberOf, JSVal.or, h1, h2, hrt]

/-- The draw whose radix-36 text is `0.4fzyo82mvyr`: the identifier is
`KOB-4FZYO8`. -/
theorem generated_identifier_shape_witness :
    generatedBookingId { sampleEnv with randomCode := randomCodeOf "0.4fzyo82mvyr" } =
      JSVal.str "KOB-4FZYO8" := by
  obtain ⟨code, hcode, -, -, -, hgen, -⟩ :=
    generated_identifier_shape { sampleEnv with randomCode := randomCodeOf "0.4fzyo82mvyr" }
      { sampleRuntime with randomCode := randomCodeOf "0.4fzyo82mvyr" } "4fzyo82mvyr".data
      (by decide) rfl rfl
  rw [hgen, hcode]
  decide

/-! ## The QR payload -/

theorem or_ne_undefined (a b : JSVal) (hb : b ≠ JSVal.undefined) :
    JSVal.or a b ≠ JSVal.undefined := by
  unfold JSVal.or
  split
  · rename_i h
    intro ha
    rw [ha] at h
    cases h
  · exact hb

theorem jsonValue_of_defined (rt : Runtime) (v : JSVal) (hv : v ≠ JSVal.undefined) :
    ∃ text, jsonValue rt v = some text := by
  cases v <;> first | exact absurd rfl hv | exact ⟨_, rfl⟩

theorem jsonStringify_entries (rt : Runtime) (props : List (String × JSVal)) :
    jsonStringify rt props =
      "\x7b" ++ ",".intercalate ((jsonEntries rt props).map
        (fun e => rt.quoteJSONString e.1 ++ ":" ++ e.2)) ++ "\x7d" := by
  unfold jsonStringify jsonEntries
  rw [List.map_filterMap]
  congr 3
  apply List.filterMap_congr
  intro p _
  cases jsonValue rt p.2 <;> rfl

/-- C22 (counterexample). Booking data that lacks `packageName` and `userId`
(it has no property at all): the QR payload has seven keys, and neither
`packageName` nor `userId` is among them. -/
theorem qr_payload_omits_absent_fields :
    emptyReceiptData.packageName = JSVal.undefined ∧
    emptyReceiptData.userId = none ∧
    qrCodeDataOf sampleRuntime emptyReceiptData =
      "\x7b\"receiptNumber\":\"KOB-A1B2C3\",\"bookingId\":\"KOB-A1B2C3\",\"amount\":0,\"finalAmount\":0,\"discount\":0,\"couponCode\":\"None\",\"date\":\"01 January 2025 at 10:00\"\x7d" ∧
    (jsonEntries sampleRuntime (qrCodeProps sampleRuntime emptyReceiptData)).map Prod.fst =
      ["receiptNumber", "bookingId", "amount", "finalAmount", "discount", "couponCode",
        "date"] := by
  decide

/-- C22 (amended). The QR payload serialized by `generateReceiptHtml` is the
JSON object of the properties whose value is not `undefined`, in the order of
the source. Its keys are `receiptNumber`, `bookingId`, `amount`, `finalAmount`,
`discount`, `couponCode` and `date` for every booking data, `packageName`
exactly when `bookingData.packageName` is not `undefined`, and `userId` exactly
when `bookingData.userId` is present. -/
theorem qr_payload_keys (rt : Runtime) (d : ReceiptData) :
    qrCodeDataOf rt d =
      "\x7b" ++ ",".intercalate ((jsonEntries rt (qrCodeProps rt d)).map
        (fun e => rt.quoteJSONString e.1 ++ ":" ++ e.2)) ++ "\x7d" ∧
    (jsonEntries rt (qrCodeProps rt d)).map Prod.fst =
      ["receiptNumber", "bookingId"] ++
        (if d.packageName = JSVal.undefined then [] else ["packageName"]) ++
        ["amount", "finalAmount", "discount", "couponCode", "date"] ++
        (if d.userId = none then [] else ["userId"]) := by
  refine ⟨jsonStringify_entries rt _, ?_⟩
  have hstr : ∀ s : String, JSVal.str s ≠ JSVal.undefined := fun s h => by cases h
  have hnum : ∀ q : ℚ, JSVal.num q ≠ JSVal.undefined := fun q h => by cases h
  obtain ⟨t1, h1⟩ := jsonValue_of_defined rt (receiptNumberOf rt d)
    (or_ne_undefined _ _ (hstr _))
  obtain ⟨t2, h2⟩ := jsonValue_of_defined rt (JSVal.or d.bookingId (receiptNumberOf rt d))
    (or_ne_undefined _ _ (or_ne_undefined _ _ (hstr _)))
  obtain ⟨t3, h3⟩ := jsonValue_of_defined rt (originalAmountUsed d)
    (or_ne_undefined _ _ (hnum _))
  obtain ⟨t4, h4⟩ := jsonValue_of_defined rt (finalAmountUsed d)
    (or_ne_undefined _ _ (hnum _))
  obtain ⟨t5, h5⟩ := jsonValue_of_defined rt (discountAmountUsed d)
    (or_ne_undefined _ _ (hnum _))
  obtain ⟨t6, h6⟩ := jsonValue_of_defined rt (couponCodeUsed d)
    (or_ne_undefined _ _ (hstr _))
  have hdate : ∀ s : String, jsonValue rt (JSVal.str s) = some (rt.quoteJSONString s) :=
    fun _ => rfl
  have hundef : jsonValue rt JSVal.undefined = none := rfl
  have hname : d.packageName ≠ JSVal.undefined →
      ∃ text, jsonValue rt d.packageName = some text := jsonValue_of_defined rt _
  by_cases hp : d.packageName = JSVal.undefined
  · cases hu : d.userId <;>
      simp [jsonEntries, qrCodeProps, List.filterMap_cons, h1, h2, h3, h4, h5, h6, hp, hu,
        hdate, hundef, JSVal.ofOptStr]
  · obtain ⟨t7, h7⟩ := hname hp
    cases hu : d.userId <;>
      simp [jsonEntries, qrCodeProps, List.filterMap_cons, h1, h2, h3, h4, h5, h6, hp, hu,
        hdate, hundef, h7, JSVal.ofOptStr]

/-- Booking data with every property present: the payload has all nine keys. -/
theorem qr_payload_keys_witness :
    (jsonEntries sampleRuntime (qrCodeProps sampleRuntime completeReceiptData)).map Prod.fst =
      ["receiptNumber", "bookingId", "packageName", "amount", "finalAmount", "discount",
        "couponCode", "date", "userId"] :=
  (qr_payload_keys sampleRuntime completeReceiptData).2.trans (by decide)

/-! ## The QR image, the items table and purity of the receipt generator -/

theorem callToFixed_isSome (rt : Runtime) (v : JSVal) (digits : Nat) :
    (callToFixed rt v digits).isSome = isNumber v := by
  cases v <;> rfl

theorem receiptView_isSome_iff (rt : Runtime) (d : ReceiptData) (items : List Item) :
    (receiptView rt d items).isSome = true ↔
      ((hasDiscountOf rt d).truthy = false ∨
        (isNumber (discountAmountUsed d) = true ∧ isNumber (originalAmountUsed d) = true ∧
          isNumber (finalAmountUsed d) = true)) := by
  rw [← callToFixed_isSome rt (discountAmountUsed d) 2,
    ← callToFixed_isSome rt (originalAmountUsed d) 2,
    ← callToFixed_isSome rt (finalAmountUsed d) 2]
  unfold receiptView couponDescriptionOf couponSectionOf
  cases hd : (hasDiscountOf rt d).truthy
  · simp
  · cases ha : callToFixed rt (discountAmountUsed d) 2 <;>
      cases hb : callToFixed rt (originalAmountUsed d) 2 <;>
      cases hc : callToFixed rt (finalAmountUsed d) 2 <;>
      simp

theorem receiptView_renderer (rt : Runtime) (d : ReceiptData) (items : List Item)
    (render : String → Option String) :
    receiptView { rt with toDataURL := render } d items =
      (receiptView rt d items).map
        (fun v => { v with qrCodeUrl := qrCodeUrlOf { rt with toDataURL := render } d }) := by
  have h1 : couponDescriptionOf { rt with toDataURL := render } d = couponDescriptionOf rt d :=
    rfl
  have h2 : couponSectionOf { rt with toDataURL := render } d = couponSectionOf rt d := rfl
  unfold receiptView
  rw [h1, h2]
  cases couponDescriptionOf rt d <;> cases couponSectionOf rt d <;> rfl

/-- C23. QR fallback in `generateReceiptHtml`. When the renderer
`QRCode.toDataURL` rejects, the image source is the remote renderer's URL
followed by the URL-encoded payload; when it resolves, the image source is its
result. The renderer's outcome changes nothing else: with any other renderer
the call returns a document exactly when it does with this one, with the same
values in every place but the image source, so a rejecting renderer never
makes the call raise. The call returns a document whenever there is no
discount to show or the three amounts are numbers, and the document carries
the image source in its `img` element. -/
theorem qr_renderer_failure_falls_back (rt : Runtime) (d : ReceiptData) (items : List Item) :
    (rt.toDataURL (qrCodeDataOf rt d) = none →
      qrCodeUrlOf rt d =
        "https://api.qrserver.com/v1/create-qr-code/?size=120x120&data=" ++
          rt.encodeURIComponent (qrCodeDataOf rt d)) ∧
    (∀ url : String, rt.toDataURL (qrCodeDataOf rt d) = some url → qrCodeUrlOf rt d = url) ∧
    (∀ render : String → Option String,
      receiptView { rt with toDataURL := render } d items =
        (receiptView rt d items).map
          (fun v => { v with qrCodeUrl := qrCodeUrlOf { rt with toDataURL := render } d })) ∧
    (((hasDiscountOf rt d).truthy = false ∨
        (isNumber (discountAmountUsed d) = true ∧ isNumber (originalAmountUsed d) = true ∧
          isNumber (finalAmountUsed d) = true)) →
      ∃ v, generateReceiptHtml rt d items = some (receiptTemplate v) ∧
        v.qrCodeUrl = qrCodeUrlOf rt d ∧
        containsText (receiptTemplate v)
          (String.join ["                    <img src=\"",
            v.qrCodeUrl,
            "\" alt=\"Booking QR Code\" style=\"border: 1px solid #e0e0e0; padding: 5px; background-color: #ffffff; border-radius: 8px; width: 120px; height: 120px;\">\n"])) := by
  refine ⟨fun h => ?_, fun url h => ?_, receiptView_renderer rt d items, fun h => ?_⟩
  · unfold qrCodeUrlOf
    rw [h]
  · unfold qrCodeUrlOf
    rw [h]
  · have hsome := (receiptView_isSome_iff rt d items).mpr h
    obtain ⟨v, hv⟩ := Option.isSome_iff_exists.mp hsome
    refine ⟨v, by simp [generateReceiptHtml, hv], ?_, containsText_window (receiptSegments v) 203 3⟩
    unfold receiptView at hv
    split at hv
    · simp only [Option.some.injEq] at hv
      subst hv
      rfl
    · cases hv

/-- The booking data with no property at all, rendered while the QR renderer
rejects: a document is returned, and its image source is the remote renderer's
URL with the payload. -/
theorem qr_renderer_failure_falls_back_witness :
    failingQrRuntime.toDataURL (qrCodeDataOf failingQrRuntime emptyReceiptData) = none ∧
    qrCodeUrlOf failingQrRuntime emptyReceiptData =
      "https://api.qrserver.com/v1/create-qr-code/?size=120x120&data=" ++
        qrCodeDataOf failingQrRuntime emptyReceiptData ∧
    ∃ v, generateReceiptHtml failingQrRuntime emptyReceiptData [] = some (receiptTemplate v) ∧
      v.qrCodeUrl = qrCodeUrlOf failingQrRuntime emptyReceiptData :=
  ⟨rfl, (qr_renderer_failure_falls_back failingQrRuntime emptyReceiptData []).1 rfl,
    ((qr_renderer_failure_falls_back failingQrRuntime emptyReceiptData []).2.2.2
      (Or.inl (by decide))).imp fun _ h => ⟨h.1, h.2.1⟩⟩

theorem itemsHtmlOf_cons (rt : Runtime) (item : Item) (rest : List Item) :
    itemsHtmlOf rt (item :: rest) =
      String.join itemsHeadSegments ++ String.join ((item :: rest).map (itemRowOf rt)) ++
        "</table>" := rfl

theorem containsText_append_left (a b text : String) (h : containsText a text) :
    containsText (a ++ b) text := by
  unfold containsText at *
  rw [String.data_append]
  exact h.trans (List.infix_append' [] a.data b.data |>.trans (by simp))

theorem receiptView_itemsHtml {rt : Runtime} {d : ReceiptData} {items : List Item}
    {v : ReceiptView} (h : receiptView rt d items = some v) :
    v.itemsHtml = itemsHtmlOf rt items := by
  unfold receiptView at h
  split at h
  · simp only [Option.some.injEq] at h
    subst h
    rfl
  · cases h

/-- C24. The items table of `generateReceiptHtml`. Without items the items
section `itemsHtml` is the empty text; with items it is the opening of the
"Purchased Upgrades" table, then one row for each item in the order of the
list, then the closing tag. So the section contains "Purchased Upgrades" if and
only if the list is not empty. The section fills its place in the document,
and whether a document is returned does not depend on the items. -/
theorem items_table_iff_items (rt : Runtime) (d : ReceiptData) (items : List Item) :
    (items = [] → itemsHtmlOf rt items = "") ∧
    (items ≠ [] →
      itemsHtmlOf rt items =
        String.join itemsHeadSegments ++ String.join (items.map (itemRowOf rt)) ++
          "</table>") ∧
    (items.map (itemRowOf rt)).length = items.length ∧
    (containsText (itemsHtmlOf rt items) "Purchased Upgrades" ↔ items ≠ []) ∧
    (∀ v : ReceiptView, receiptView rt d items = some v →
      v.itemsHtml = itemsHtmlOf rt items ∧
      containsText (receiptTemplate v) (itemsHtmlOf rt items)) ∧
    (generateReceiptHtml rt d items).isSome = (generateReceiptHtml rt d []).isSome := by
  refine ⟨fun h => by rw [h]; rfl, fun h => ?_, List.length_map _ _, ?_, fun v hv => ?_, ?_⟩
  · cases items with
    | nil => exact absurd rfl h
    | cons item rest => rfl
  · cases items with
    | nil =>
      have hno : ¬ containsText "" "Purchased Upgrades" := by decide
      exact ⟨fun h => absurd h hno, fun h => absurd rfl h⟩
    | cons item rest =>
      refine ⟨fun _ => List.cons_ne_nil _ _, fun _ => ?_⟩
      rw [itemsHtmlOf_cons]
      apply containsText_append_left
      apply containsText_append_left
      exact containsText_segment itemsHeadSegments 3 _ rfl
  · have hi := receiptView_itemsHtml hv
    refine ⟨hi, ?_⟩
    rw [← hi]
    exact containsText_segment (receiptSegments v) 95 v.itemsHtml rfl
  · have h1 := receiptView_isSome_iff rt d items
    have h2 := receiptView_isSome_iff rt d []
    unfold generateReceiptHtml
    rw [Option.isSome_map', Option.isSome_map']
    exact Bool.eq_iff_iff.mpr (h1.trans h2.symm)

set_option maxRecDepth 100000 in
/-- The booking data with no property at all: without items the document has
no "Purchased Upgrades" anywhere; with the one item `gameDrive` it has the
table. A free booking without items gets a document as well. -/
theorem items_table_iff_items_witness :
    (generateReceiptHtml sampleRuntime emptyReceiptData []).map
      (fun doc => decide (containsText doc "Purchased Upgrades")) = some false ∧
    (∃ doc, generateReceiptHtml sampleRuntime emptyReceiptData [gameDrive] = some doc ∧
      containsText doc "Purchased Upgrades") ∧
    (generateReceiptHtml sampleRuntime freeBookingData []).isSome = true := by
  obtain ⟨v, hv, hscan⟩ : ∃ v, receiptView sampleRuntime emptyReceiptData [] = some v ∧
      occursInSegments "Purchased Upgrades".data ((receiptSegments v).map String.data) = false :=
    ⟨_, rfl, by decide⟩
  have hno := not_containsText_join (receiptSegments v) "Purchased Upgrades" (by decide) hscan
  obtain ⟨u, hu⟩ : ∃ u, receiptView sampleRuntime emptyReceiptData [gameDrive] = some u :=
    ⟨_, rfl⟩
  have hthm := items_table_iff_items sampleRuntime emptyReceiptData [gameDrive]
  refine ⟨by simp [generateReceiptHtml, hv, receiptTemplate, hno],
    ⟨receiptTemplate u, by simp [generateReceiptHtml, hu], ?_⟩, ?_⟩
  · exact containsText_trans ((hthm.2.2.2.2.1 u hu).2) (hthm.2.2.2.1.mpr (by decide))
  · unfold generateReceiptHtml
    rw [Option.isSome_map']
    exact (receiptView_isSome_iff sampleRuntime freeBookingData []).mpr
      (Or.inr ⟨by decide, by decide, by decide⟩)

theorem join_hole_injective (before after after2 : List String) (x y : String)
    (hlen : x.length = y.length)
    (h : String.join (before ++ x :: after) = String.join (before ++ y :: after2)) : x = y := by
  have hd := congrArg String.data h
  rw [data_join, data_join] at hd
  simp only [List.map_append, List.map_cons, List.flatten_append, List.flatten_cons] at hd
  have h2 := List.append_cancel_left hd
  have h3 := List.append_inj_left h2 hlen
  exact String.ext h3

set_option maxRecDepth 100000 in
theorem receiptTemplate_receiptNumber (v w : ReceiptView)
    (hlen : v.receiptNumber.length = w.receiptNumber.length)
    (h : receiptTemplate v = receiptTemplate w) : v.receiptNumber = w.receiptNumber := by
  have hv : receiptTemplate v = String.join ((receiptSegments v).take 27 ++
      v.receiptNumber :: (receiptSegments v).drop 28) := rfl
  have hw : receiptTemplate w = String.join ((receiptSegments v).take 27 ++
      w.receiptNumber :: (receiptSegments w).drop 28) := rfl
  rw [hv, hw] at h
  exact join_hole_injective _ _ _ _ _ hlen h

set_option maxRecDepth 100000 in
theorem receiptTemplate_year (v : ReceiptView) (y : String) (hlen : y.length = v.year.length)
    (h : receiptTemplate { v with year := y } = receiptTemplate v) : y = v.year := by
  have hv : receiptTemplate v = String.join ((receiptSegments v).take 243 ++
      v.year :: (receiptSegments v).drop 244) := rfl
  have hw : receiptTemplate { v with year := y } = String.join ((receiptSegments v).take 243 ++
      y :: (receiptSegments v).drop 244) := rfl
  rw [hv, hw] at h
  exact join_hole_injective _ _ _ _ _ hlen h

/-- C25 (counterexample). The document depends on the random source and on the
clock. For the booking data with no property at all, two runtimes that differ
only in the code drawn return different documents (the receipt number is
generated). For booking data with every property present, the same call one
year later returns a different document (the year of the footer is read from
the clock). -/
theorem receipt_depends_on_random_source_and_clock :
    (generateReceiptHtml sampleRuntime emptyReceiptData []).isSome = true ∧
    generateReceiptHtml sampleRuntime emptyReceiptData [] ≠
      generateReceiptHtml secondDrawRuntime emptyReceiptData [] ∧
    (generateReceiptHtml sampleRuntime completeReceiptData []).isSome = true ∧
    generateReceiptHtml sampleRuntime completeReceiptData [] ≠
      generateReceiptHtml nextYearRuntime completeReceiptData [] := by
  obtain ⟨v1, hv1⟩ : ∃ v, receiptView sampleRuntime emptyReceiptData [] = some v := ⟨_, rfl⟩
  obtain ⟨v2, hv2⟩ : ∃ v, receiptView secondDrawRuntime emptyReceiptData [] = some v := ⟨_, rfl⟩
  obtain ⟨v3, hv3, hyear, hv4⟩ : ∃ v, receiptView sampleRuntime completeReceiptData [] = some v ∧
      v.year = "2025" ∧
      receiptView nextYearRuntime completeReceiptData [] = some { v with year := "2026" } :=
    ⟨_, rfl, by decide, rfl⟩
  have h1 : v1.receiptNumber = "KOB-A1B2C3" := by
    rw [(receiptView_some hv1).2.2.2.1]
    decide
  have h2 : v2.receiptNumber = "KOB-Z9Y8X7" := by
    rw [(receiptView_some hv2).2.2.2.1]
    decide
  refine ⟨by simp [generateReceiptHtml, hv1], ?_, by simp [generateReceiptHtml, hv3], ?_⟩
  · intro h
    simp only [generateReceiptHtml, hv1, hv2, Option.map_some', Option.some.injEq] at h
    have := receiptTemplate_receiptNumber v1 v2 (by rw [h1, h2]; decide) h
    rw [h1, h2] at this
    exact absurd this (by decide)
  · intro h
    simp only [generateReceiptHtml, hv3, hv4, Option.map_some', Option.some.injEq] at h
    have := receiptTemplate_year v3 "2026" (by rw [hyear]; decide) h.symm
    rw [hyear] at this
    exact absurd this (by decide)

/-- C25 (amended). For booking data that carries a booking id or a receipt
number, a payment date and a timestamp, the document returned by
`generateReceiptHtml` does not depend on the random source nor on `Date.now()`:
with the same QR renderer, the same date formatting and the same calendar year
(the footer shows the current year), two calls return the same document. -/
theorem receipt_independent_of_random_source_and_clock (rt : Runtime) (d : ReceiptData)
    (items : List Item) (code : String) (now : Nat)
    (hid : d.bookingId.truthy = true ∨ d.receiptNumber.truthy = true)
    (hdate : d.paymentDate.truthy = true) (htime : d.timestamp.truthy = true) :
    generateReceiptHtml { rt with randomCode := code, now := now } d items =
      generateReceiptHtml rt d items := by
  have h1 : receiptNumberOf { rt with randomCode := code, now := now } d =
      receiptNumberOf rt d := by
    unfold receiptNumberOf JSVal.or
    rcases hid with h | h
    · simp [h]
    · cases hb : d.bookingId.truthy <;> simp [h, hb]
  have h2 : paymentDateOf { rt with randomCode := code, now := now } d = paymentDateOf rt d := by
    unfold paymentDateOf JSVal.or
    simp [hdate]
  have h3 : qrCodeDataOf { rt with randomCode := code, now := now } d = qrCodeDataOf rt d := by
    unfold qrCodeDataOf qrCodeProps
    rw [h1, h2]
    rfl
  have h4 : qrCodeUrlOf { rt with randomCode := code, now := now } d = qrCodeUrlOf rt d := by
    unfold qrCodeUrlOf
    rw [h3]
  have h5 : ({ rt with randomCode := code, now := now } : Runtime).formatBookingDate
      (JSVal.or d.timestamp (JSVal.num
        (({ rt with randomCode := code, now := now } : Runtime).now : ℚ))) =
      rt.formatBookingDate (JSVal.or d.timestamp (JSVal.num (rt.now : ℚ))) := by
    unfold JSVal.or
    simp [htime]
  have h6 : couponDescriptionOf { rt with randomCode := code, now := now } d =
      couponDescriptionOf rt d := rfl
  have h7 : couponSectionOf { rt with randomCode := code, now := now } d =
      couponSectionOf rt d := rfl
  unfold generateReceiptHtml receiptView
  rw [h1, h2, h4, h5, h6, h7]
  rfl

/-- The booking data with every property present: another draw and another
instant of the same year give the same document. -/
theorem receipt_independent_of_random_source_and_clock_witness :
    generateReceiptHtml { sampleRuntime with randomCode := "Z9Y8X7", now := 2000 }
        completeReceiptData [gameDrive] =
      generateReceiptHtml sampleRuntime completeReceiptData [gameDrive] :=
  receipt_independent_of_random_source_and_clock sampleRuntime completeReceiptData [gameDrive]
    "Z9Y8X7" 2000 (Or.inl (by decide)) (by decide) (by decide)

/-! ## Validation and failures in the handlers -/

theorem docIdOf_ofOptStr_none (s : Option String) (h : s = none ∨ s = some "") :
    docIdOf (JSVal.ofOptStr s) = none := by
  rcases h with h | h <;> rw [h] <;> rfl

/-- C26. Validation rejects before any side effect. `/create-checkout-session`
answers 400 with an error message and leaves the world as it was, so no
gateway session is created and nothing is written to the store, whenever
`userId` is missing or `items` is missing, not an array or empty;
`/verify-payment` answers 400 and leaves the world as it was whenever
`sessionId` is missing; `/send-receipt-email` answers 400 and leaves the world
as it was, so no gateway call is made and no e-mail is sent, whenever `email`
or `sessionId` is missing. The world holds the store and the trace of gateway
calls, store writes and e-mails. -/
theorem validation_rejects_before_side_effects (env : Env) (w : World) :
    (∀ req : CheckoutRequest, req.userId.truthy = false ∨ hasItems req.items = false →
      ∃ message, message ∈ ["Missing userId", "Missing amount", "Missing items"] ∧
        createCheckoutSession env req w = (w, CheckoutResponse.badRequest message)) ∧
    (∀ req : VerifyRequest, req.sessionId = none ∨ req.sessionId = some "" →
      verifyPayment env req w = (w, VerifyResponse.badRequest "Session ID is required")) ∧
    (∀ req : ReceiptRequest,
      (req.email = none ∨ req.email = some "") ∨
        (req.sessionId = none ∨ req.sessionId = some "") →
      sendReceiptEmailRoute env req w =
        (w, ReceiptResponse.badRequest "Email and session ID are required")) := by
  refine ⟨fun req h => ?_, fun req h => ?_, fun req h => ?_⟩
  · unfold createCheckoutSession validateCheckout
    rcases h with h | h
    · exact ⟨"Missing userId", by simp, by simp [h]⟩
    · cases hu : req.userId.truthy
      · exact ⟨"Missing userId", by simp, by simp⟩
      · by_cases ha : req.amount = JSVal.undefined ∨ req.amount = JSVal.null
        · exact ⟨"Missing amount", by simp, by simp [h, ha]⟩
        · exact ⟨"Missing items", by simp, by simp [h, ha]⟩
  · unfold verifyPayment
    rw [docIdOf_ofOptStr_none _ h]
  · unfold sendReceiptEmailRoute
    rcases h with h | h
    · rw [docIdOf_ofOptStr_none _ h]
    · rw [docIdOf_ofOptStr_none _ h]
      cases docIdOf (JSVal.ofOptStr req.email) <;> rfl

/-- A checkout request without items, a verification request without a session
id and a receipt request without an e-mail address are each answered 400, and
the world stays as it was. -/
theorem validation_rejects_before_side_effects_witness :
    (∃ message,
      createCheckoutSession sampleEnv { sampleCheckoutRequest with items := some [] }
          (sampleWorld (awaitingDoc none) []) =
        (sampleWorld (awaitingDoc none) [], CheckoutResponse.badRequest message)) ∧
    verifyPayment sampleEnv { sampleVerifyRequest with sessionId := none }
        (sampleWorld (awaitingDoc none) []) =
      (sampleWorld (awaitingDoc none) [],
        VerifyResponse.badRequest "Session ID is required") ∧
    sendReceiptEmailRoute sampleEnv { sampleReceiptRequest with email := none }
        (sampleWorld (awaitingDoc none) []) =
      (sampleWorld (awaitingDoc none) [],
        ReceiptResponse.badRequest "Email and session ID are required") :=
  ⟨((validation_rejects_before_side_effects sampleEnv (sampleWorld (awaitingDoc none) [])).1
      { sampleCheckoutRequest with items := some [] } (Or.inr rfl)).imp fun _ h => h.2,
    (validation_rejects_before_side_effects sampleEnv (sampleWorld (awaitingDoc none) [])).2.1
      { sampleVerifyRequest with sessionId := none } (Or.inl rfl),
    (validation_rejects_before_side_effects sampleEnv (sampleWorld (awaitingDoc none) [])).2.2
      { sampleReceiptRequest with email := none } (Or.inl (Or.inl rfl))⟩

theorem sendReceiptEmailRoute_paid_eq (env : Env) (req : ReceiptRequest) (w : World)
    (email sid : String) (session : StripeSession)
    (hemail : req.email = some email) (he : email ≠ "")
    (hsid : req.sessionId = some sid) (hs : sid ≠ "")
    (hret : env.retrieve sid = some session) (hpaid : session.payment_status = "paid") :
    sendReceiptEmailRoute env req w =
      sendReceiptPaid env email req.name sid req.checkoutId session
        (w.emit (Event.gatewayRetrieve sid)) := by
  unfold sendReceiptEmailRoute
  simp [hemail, hsid, JSVal.ofOptStr, docIdOf, he, hs, hret, hpaid]

/-- C27. No success state on delivery failure. For every `/send-receipt-email`
request with an e-mail address and a session id whose gateway session is paid,
if `generateReceiptHtml` throws on the booking data and items of the request,
or the e-mail transport rejects, the answer is 500 with `success: false`, the
store stays as it was, and no store write is attempted: the calls added to the
trace are the gateway retrieval and, when the receipt was rendered, the e-mail
handed to the transport. So `receiptSent`, `customerEmail` and `customerName`
are not set and no `sentReceipts` record is added. -/
theorem delivery_failure_records_no_success (env : Env) (req : ReceiptRequest) (w : World)
    (email sid : String) (session : StripeSession)
    (hemail : req.email = some email) (he : email ≠ "")
    (hsid : req.sessionId = some sid) (hs : sid ≠ "")
    (hret : env.retrieve sid = some session) (hpaid : session.payment_status = "paid")
    (hfail :
      env.generateReceiptHtml
          (receiptBookingData env email req.name sid
            (savedCheckoutIdOf req.checkoutId session) session)
          (receiptItemsOf env req.checkoutId session (w.emit (Event.gatewayRetrieve sid))) =
        none ∨
      env.fails Op.srSend = true) :
    (sendReceiptEmailRoute env req w).2 = ReceiptResponse.serverError ∧
    (sendReceiptEmailRoute env req w).1.store = w.store ∧
    ∃ events, (sendReceiptEmailRoute env req w).1.trace = w.trace ++ events ∧
      ∀ e ∈ events, e.isStoreWrite = false := by
  rw [sendReceiptEmailRoute_paid_eq env req w email sid session hemail he hsid hs hret hpaid]
  unfold sendReceiptPaid
  unfold receiptItemsOf at hfail
  dsimp only
  cases hgen : env.generateReceiptHtml
      (receiptBookingData env email req.name sid
        (savedCheckoutIdOf req.checkoutId session) session)
      (if (purchasedItemsOf session).length > 0 then purchasedItemsOf session
        else receiptFirebaseItems env (savedCheckoutIdOf req.checkoutId session)
          (w.emit (Event.gatewayRetrieve sid))) with
  | none =>
    refine ⟨rfl, rfl, [Event.gatewayRetrieve sid], rfl, ?_⟩
    simp [Event.isStoreWrite]
  | some html =>
    rw [hgen] at hfail
    have hsend : env.fails Op.srSend = true := by
      rcases hfail with h | h
      · cases h
      · exact h
    dsimp only
    rw [if_pos hsend]
    refine ⟨rfl, rfl, [Event.gatewayRetrieve sid, Event.receiptEmail email html
      (receiptBookingData env email req.name sid (savedCheckoutIdOf req.checkoutId session)
        session)], ?_, ?_⟩
    · simp [World.emit]
    · simp [Event.isStoreWrite]

/-- A paid session whose receipt cannot be delivered, once because the transport
rejects and once because the renderer throws: the answer is 500 and the store
is as it was. -/
theorem delivery_failure_records_no_success_witness :
    ((sendReceiptEmailRoute (allFailEnv (paidSession [])) sampleReceiptRequest
        (sampleWorld (completedDoc (some [gameDrive])) [])).2 = ReceiptResponse.serverError ∧
      (sendReceiptEmailRoute (allFailEnv (paidSession [])) sampleReceiptRequest
          (sampleWorld (completedDoc (some [gameDrive])) [])).1.store =
        (sampleWorld (completedDoc (some [gameDrive])) []).store) ∧
    ((sendReceiptEmailRoute (renderFailsEnv (paidSession [])) sampleReceiptRequest
        (sampleWorld (completedDoc (some [gameDrive])) [])).2 = ReceiptResponse.serverError ∧
      (sendReceiptEmailRoute (renderFailsEnv (paidSession [])) sampleReceiptRequest
          (sampleWorld (completedDoc (some [gameDrive])) [])).1.store =
        (sampleWorld (completedDoc (some [gameDrive])) []).store) :=
  have h := delivery_failure_records_no_success (allFailEnv (paidSession []))
    sampleReceiptRequest (sampleWorld (completedDoc (some [gameDrive])) []) "ada@example.com"
    "cs_test_1" (paidSession []) rfl (by decide) rfl (by decide) rfl rfl (Or.inr rfl)
  have g := delivery_failure_records_no_success (renderFailsEnv (paidSession []))
    sampleReceiptRequest (sampleWorld (completedDoc (some [gameDrive])) []) "ada@example.com"
    "cs_test_1" (paidSession []) rfl (by decide) rfl (by decide) rfl rfl (Or.inl rfl)
  ⟨⟨h.1, h.2.1⟩, ⟨g.1, g.2.1⟩⟩

/-- C28. Store and notification failures do not block the paid result. For
every request whose gateway session is paid, whatever store operations and
whichever notification reject (all of them included), `/verify-payment` answers
`paid: true` with the amounts, the coupon code and the booking id derived from
the gateway session. When the read of the supplementary items rejects, the
merged item list of the answer is the list of the gateway line items. -/
theorem store_failures_do_not_block_paid_result (env : Env) (req : VerifyRequest) (w : World)
    (sid : String) (session : StripeSession)
    (hsid : req.sessionId = some sid) (hne : sid ≠ "")
    (hret : env.retrieve sid = some session) (hpaid : session.payment_status = "paid") :
    ∃ r, (verifyPayment env req w).2 = VerifyResponse.paid r ∧
      r.amount = JSVal.num ((session.amount_total : ℚ) / 100) ∧
      r.finalAmount = JSVal.num ((session.amount_total : ℚ) / 100) ∧
      r.originalAmount = originalAmountOf env session ∧
      r.discountAmount = discountAmountOf env session ∧
      r.couponCode = couponCodeOf session ∧
      r.bookingId = verifyBookingId env session ∧
      r.metadata = session.metadata ∧
      (env.fails Op.vpGetItems = true → r.items = purchasedItemsOf session) := by
  rw [verifyPayment_paid_eq env req w sid session hsid hne hret hpaid]
  unfold verifyPaid
  refine ⟨_, rfl, rfl, rfl, rfl, rfl, rfl, rfl, rfl, fun hf => ?_⟩
  dsimp only
  have hitems : ∀ w1, verifyFirebaseItems env (savedCheckoutIdOf req.checkoutSessionId session)
      w1 = [] := by
    intro w1
    unfold verifyFirebaseItems
    cases docIdOf (savedCheckoutIdOf req.checkoutSessionId session) with
    | none => rfl
    | some cid =>
      dsimp only
      rw [if_pos hf]
      split <;> rfl
  rw [hitems]
  rfl

/-- A paid session of 100.00 verified while every store operation and the admin
notification reject: the answer is the paid one, with the gateway's amount, the
booking id of the metadata and the gateway line item as only item. -/
theorem store_failures_do_not_block_paid_result_witness :
    ∃ r, (verifyPayment (allFailEnv (paidSession [("bookingId", "KOB-OLD123")]))
        sampleVerifyRequest (sampleWorld (awaitingDoc (some [gameDrive])) [gameDrive])).2 =
          VerifyResponse.paid r ∧
      r.amount = JSVal.num 100 ∧
      r.bookingId = JSVal.str "KOB-OLD123" ∧
      r.items = purchasedItemsOf (paidSession [("bookingId", "KOB-OLD123")]) := by
  obtain ⟨r, hr, hamount, -, -, -, -, hid, -, hitems⟩ :=
    store_failures_do_not_block_paid_result (allFailEnv (paidSession [("bookingId", "KOB-OLD123")]))
      sampleVerifyRequest (sampleWorld (awaitingDoc (some [gameDrive])) [gameDrive]) "cs_test_1"
      (paidSession [("bookingId", "KOB-OLD123")]) rfl (by decide) rfl rfl
  exact ⟨r, hr, hamount.trans (by norm_num [paidSession]), hid.trans (by decide), hitems rfl⟩

/-! ## The calculated amount and the merge of an itemized purchase -/

theorem foldl_plus_times (rt : Runtime) (price quantity : Item → Nat) (items : List Item)
    (acc : Nat)
    (h : ∀ item ∈ items,
      item.price = JSVal.num (price item : ℚ) ∧ item.quantity = JSVal.num (quantity item : ℚ) ∧
        price item ≤ 2 ^ 53 ∧ quantity item ≤ 2 ^ 53)
    (hsum : acc + (items.map (fun item => price item * quantity item)).sum ≤ 2 ^ 53) :
    List.foldl (fun acc (item : Item) => plus acc (times rt item.price item.quantity))
        (JSVal.num (acc : ℚ)) items =
      JSVal.num ((acc + (items.map (fun item => price item * quantity item)).sum : Nat) : ℚ) := by
  induction items generalizing acc with
  | nil => simp
  | cons item rest ih =>
    obtain ⟨hp, hq, hpb, hqb⟩ := h item (List.mem_cons_self _ _)
    simp only [List.map_cons, List.sum_cons] at hsum
    have hr := ih (acc + price item * quantity item)
      (fun i hi => h i (List.mem_cons_of_mem _ hi)) (by omega)
    simp only [List.foldl_cons, List.map_cons, List.sum_cons]
    have hstep : plus (JSVal.num (acc : ℚ)) (times rt item.price item.quantity) =
        JSVal.num ((acc + price item * quantity item : Nat) : ℚ) := by
      rw [hp, hq, times_natCast rt _ _ hpb hqb (by omega)]
      exact plus_natCast _ _ (by omega) (by omega) (by omega)
    rw [hstep, hr, Nat.add_assoc]

set_option maxRecDepth 100000 in
/-- C29 (counterexample). One item with price 0.1 and quantity 3, no amount: the
request passes validation and the calculated amount is 0.30000000000000004,
which is neither the sum 0.3 nor the double nearest to it
(0.299999999999999988...). The price is first the double nearest to 0.1, and
the product is rounded again. -/
theorem calculated_amount_is_a_rounded_sum :
    validateCheckout (pricedRequest (mkRat 1 10) 3) = none ∧
    calculatedAmountOf sampleRuntime (pricedRequest (mkRat 1 10) 3) =
      JSVal.num (mkRat 1351079888211149 4503599627370496) ∧
    JSVal.num (mkRat 1351079888211149 4503599627370496) ≠ JSVal.num (mkRat 3 10) ∧
    toDouble (mkRat 3 10) = JSVal.num (mkRat 5404319552844595 18014398509481984) ∧
    JSVal.num (mkRat 1351079888211149 4503599627370496) ≠ toDouble (mkRat 3 10) := by
  decide

/-- C29 (amended). Amount computed from items. For every
`/create-checkout-session` request with a `userId`, no `amount` (`undefined` or
`null`) and a non-empty list of items, the request passes validation and the
calculated amount is the sum over the items, in order and from 0, of
`price * quantity` in the arithmetic of the code: every product and every
partial sum is rounded to the nearest double. When the prices and quantities
are whole numbers up to `2 ^ 53` and the exact total is at most `2 ^ 53`,
nothing is rounded and the calculated amount is the exact total
`Σ price × quantity`. When an amount is supplied, 0 included, the calculated
amount is that amount. For the one item "Game Drive" with price 50 and
quantity 2 the calculated amount is 100. For one item of any price and
quantity it is the product of their Number values `x1` and `y1`, rounded. -/
theorem calculated_amount_from_items (rt : Runtime) (req : CheckoutRequest) :
    (∀ (item : Item) (rest : List Item),
      req.userId.truthy = true → (req.amount = JSVal.undefined ∨ req.amount = JSVal.null) →
      req.items = some (item :: rest) →
      validateCheckout req = none ∧
      calculatedAmountOf rt req =
        List.foldl plus (JSVal.num 0)
          ((item :: rest).map (fun i => times rt i.price i.quantity)) ∧
      ∀ price quantity : Item → Nat,
        (∀ i ∈ item :: rest,
          i.price = JSVal.num (price i : ℚ) ∧ i.quantity = JSVal.num (quantity i : ℚ) ∧
            price i ≤ 2 ^ 53 ∧ quantity i ≤ 2 ^ 53) →
        ((item :: rest).map (fun i => price i * quantity i)).sum ≤ 2 ^ 53 →
        calculatedAmountOf rt req =
          JSVal.num ((((item :: rest).map (fun i => price i * quantity i)).sum : Nat) : ℚ)) ∧
    (req.amount ≠ JSVal.undefined → req.amount ≠ JSVal.null →
      calculatedAmountOf rt req = req.amount) ∧
    (req.amount = JSVal.num 0 → calculatedAmountOf rt req = JSVal.num 0) ∧
    (∀ activityId : JSVal,
      (req.amount = JSVal.undefined ∨ req.amount = JSVal.null) →
      req.items = some [{ activityId := activityId, title := JSVal.str "Game Drive",
                          price := JSVal.num 50, quantity := JSVal.num 2 }] →
      calculatedAmountOf rt req = JSVal.num 100) ∧
    (∀ (activityId title : JSVal) (x y x1 y1 p : ℚ),
      (req.amount = JSVal.undefined ∨ req.amount = JSVal.null) →
      req.items = some [{ activityId := activityId, title := title,
                          price := JSVal.num x, quantity := JSVal.num y }] →
      toDouble x = JSVal.num x1 → toDouble y = JSVal.num y1 →
      toDouble (x1 * y1) = JSVal.num p →
      calculatedAmountOf rt req = JSVal.num p) := by
  have hsum : ∀ (items : List Item) (price quantity : Item → Nat),
      (req.amount = JSVal.undefined ∨ req.amount = JSVal.null) → req.items = some items →
      (∀ i ∈ items, i.price = JSVal.num (price i : ℚ) ∧ i.quantity = JSVal.num (quantity i : ℚ) ∧
        price i ≤ 2 ^ 53 ∧ quantity i ≤ 2 ^ 53) →
      (items.map (fun i => price i * quantity i)).sum ≤ 2 ^ 53 →
      calculatedAmountOf rt req =
        JSVal.num (((items.map (fun i => price i * quantity i)).sum : Nat) : ℚ) := by
    intro items price quantity ha hitems hnum hbound
    unfold calculatedAmountOf
    rw [if_pos ha, hitems]
    have := foldl_plus_times rt price quantity items 0 hnum (by omega)
    simpa using this
  refine ⟨fun item rest hu ha hitems => ⟨?_, ?_, fun price quantity hnum hbound =>
      hsum _ price quantity ha hitems hnum hbound⟩, fun h1 h2 => ?_, fun h0 => ?_,
    fun activityId ha hitems => ?_,
    fun activityId title x y x1 y1 p ha hitems hx hy hp => ?_⟩
  · unfold validateCheckout
    simp [hu, hitems, hasItems]
  · unfold calculatedAmountOf
    rw [if_pos ha, hitems, List.foldl_map]
  · unfold calculatedAmountOf
    rw [if_neg (fun h => h.elim h1 h2)]
  · unfold calculatedAmountOf
    rw [if_neg (by rw [h0]; simp)]
    exact h0
  · have := hsum _ (fun _ => 50) (fun _ => 2) ha hitems (by simp) (by simp)
    rw [this]
    norm_num
  · unfold calculatedAmountOf
    rw [if_pos ha, hitems]
    simp only [List.foldl_cons, List.foldl_nil]
    rw [times_num rt x y x1 y1 hx hy, hp,
      plus_num 0 p 0 p toDouble_zero (toDouble_fixed _ _ hp), zero_add]
    exact toDouble_fixed _ _ hp

/-- The sample checkout request, one item "Game Drive" at 50 with quantity 2
and no amount: it passes validation and its calculated amount is 100; with the
amount 0 supplied the calculated amount is 0. -/
theorem calculated_amount_from_items_witness :
    validateCheckout sampleCheckoutRequest = none ∧
    calculatedAmountOf sampleRuntime sampleCheckoutRequest = JSVal.num 100 ∧
    calculatedAmountOf sampleRuntime { sampleCheckoutRequest with amount := JSVal.num 0 } =
      JSVal.num 0 :=
  ⟨((calculated_amount_from_items sampleRuntime sampleCheckoutRequest).1 gameDrive []
      (by decide) (Or.inl rfl) rfl).1,
    (calculated_amount_from_items sampleRuntime sampleCheckoutRequest).2.2.2.1
      (JSVal.str "act-1") (Or.inl rfl) rfl,
    (calculated_amount_from_items sampleRuntime
      { sampleCheckoutRequest with amount := JSVal.num 0 }).2.2.1 rfl⟩

theorem purchasedItemOf_itemized (t : String) (p : ℚ) (q : Nat) (total : Int)
    (ht : t ≠ "") (hq : 1 ≤ q) (htotal : (total : ℚ) = 100 * p * q) :
    purchasedItemOf { description := some t, amount_total := total, quantity := some q } =
      { activityId := JSVal.undefined
        title := JSVal.str t
        price := JSVal.num (p * q)
        quantity := JSVal.num q } := by
  have hq0 : (q : ℚ) ≠ 0 := by
    have : q ≠ 0 := by omega
    exact_mod_cast this
  have hprice : (total : ℚ) / 100 = p * q := by
    rw [htotal]
    ring
  unfold purchasedItemOf
  simp [JSVal.or, JSVal.ofOptStr, JSVal.truthy, ht, hq0, hprice]

/-- C30 (the code at the failing input). A store item `{t, p, q}` that the
gateway itemized as the line `{description t, quantity q, amount_total 100·p·q}`
is represented in the gateway list with the line total `p·q` as its price. The
merge compares that price with the unit price `p` of the store item, so for
`q ≥ 2` and `p ≠ 0` the store item does not count as represented and is
appended: the merged list has two entries for the one purchase. Only for
`q = 1` is it left out. In the scenario, store item `{"Game Drive", 50, 2}` and
gateway line `{"Game Drive", amount_total 10000, quantity 2}`, the merged list
and the `items` of the `/verify-payment` answer have length 2. -/
theorem itemized_store_item_is_appended_again :
    (∀ (t : String) (p : ℚ) (q : Nat) (total : Int) (activityId : JSVal),
      t ≠ "" → 2 ≤ q → p ≠ 0 → (total : ℚ) = 100 * p * q →
      mergeItems
          [purchasedItemOf { description := some t, amount_total := total, quantity := some q }]
          [{ activityId := activityId, title := JSVal.str t, price := JSVal.num p,
             quantity := JSVal.num q }] =
        [{ activityId := JSVal.undefined, title := JSVal.str t, price := JSVal.num (p * q),
           quantity := JSVal.num q },
         { activityId := JSVal.undefined, title := JSVal.str t, price := JSVal.num p,
           quantity := JSVal.num q }]) ∧
    (∀ (t : String) (p : ℚ) (total : Int) (activityId : JSVal),
      t ≠ "" → (total : ℚ) = 100 * p * 1 →
      mergeItems
          [purchasedItemOf { description := some t, amount_total := total, quantity := some 1 }]
          [{ activityId := activityId, title := JSVal.str t, price := JSVal.num p,
             quantity := JSVal.num 1 }] =
        [{ activityId := JSVal.undefined, title := JSVal.str t, price := JSVal.num p,
           quantity := JSVal.num 1 }]) ∧
    mergeItems (purchasedItemsOf (paidSession [])) [gameDrive] =
      [gatewayGameDrive, mergedGameDrive] ∧
    (mergeItems (purchasedItemsOf (paidSession [])) [gameDrive]).length = 2 ∧
    ∃ r, (verifyPayment (gatewayEnv (paidSession [])) sampleVerifyRequest
        (sampleWorld (awaitingDoc (some [gameDrive])) [gameDrive])).2 =
          VerifyResponse.paid r ∧
      r.items = [gatewayGameDrive, mergedGameDrive] ∧ r.items.length = 2 := by
  have hgeneral : ∀ (t : String) (p : ℚ) (q : Nat) (total : Int) (activityId : JSVal),
      t ≠ "" → 2 ≤ q → p ≠ 0 → (total : ℚ) = 100 * p * q →
      mergeItems
          [purchasedItemOf { description := some t, amount_total := total, quantity := some q }]
          [{ activityId := activityId, title := JSVal.str t, price := JSVal.num p,
             quantity := JSVal.num q }] =
        [{ activityId := JSVal.undefined, title := JSVal.str t, price := JSVal.num (p * q),
           quantity := JSVal.num q },
         { activityId := JSVal.undefined, title := JSVal.str t, price := JSVal.num p,
           quantity := JSVal.num q }] := by
    intro t p q total activityId ht hq hp htotal
    rw [purchasedItemOf_itemized t p q total ht (by omega) htotal]
    have hq0 : (q : ℚ) ≠ 0 := by
      have : q ≠ 0 := by omega
      exact_mod_cast this
    have hne : p * q ≠ p := by
      intro h
      have h1 : p * ((q : ℚ) - 1) = 0 := by rw [mul_sub, h, mul_one, sub_self]
      rcases mul_eq_zero.mp h1 with h2 | h2
      · exact hp h2
      · have h3 : (q : ℚ) = 1 := by linarith
        have h4 : q = 1 := by exact_mod_cast h3
        omega
    simp [mergeItems, itemExists, JSVal.strictEq, appendedItemOf, JSVal.or, JSVal.truthy, hne,
      hq0]
  have hscenario : mergeItems (purchasedItemsOf (paidSession [])) [gameDrive] =
      [gatewayGameDrive, mergedGameDrive] := by
    have h := hgeneral "Game Drive" 50 2 10000 (JSVal.str "act-1") (by decide) (by norm_num)
      (by norm_num) (by norm_num)
    have hg : purchasedItemsOf (paidSession []) =
        [purchasedItemOf { description := some "Game Drive", amount_total := 10000,
                           quantity := some 2 }] := rfl
    rw [hg]
    refine h.trans ?_
    simp only [gatewayGameDrive, mergedGameDrive]
    norm_num
  refine ⟨hgeneral, ?_, hscenario, by rw [hscenario]; rfl, ?_⟩
  · intro t p total activityId ht htotal
    have h := purchasedItemOf_itemized t p 1 total ht (by omega) (by simpa using htotal)
    rw [h]
    simp [mergeItems, itemExists, JSVal.strictEq]
  · rw [verifyPayment_paid_eq (gatewayEnv (paidSession [])) sampleVerifyRequest _ "cs_test_1"
      (paidSession []) rfl (by decide) rfl rfl]
    have hstore : verifyFirebaseItems (gatewayEnv (paidSession []))
        (savedCheckoutIdOf sampleVerifyRequest.checkoutSessionId (paidSession []))
        (verifyProcess (gatewayEnv (paidSession []))
          (savedCheckoutIdOf sampleVerifyRequest.checkoutSessionId (paidSession []))
          (paidSession [])
          ((sampleWorld (awaitingDoc (some [gameDrive])) [gameDrive]).emit
            (Event.gatewayRetrieve "cs_test_1"))) = [gameDrive] := by
      decide
    refine ⟨_, rfl, ?_, ?_⟩
    · show mergeItems (purchasedItemsOf (paidSession [])) _ = _
      rw [hstore, hscenario]
    · show (mergeItems (purchasedItemsOf (paidSession [])) _).length = 2
      rw [hstore, hscenario]
      rfl

/-- The scenario: the store item "Game Drive" at 50 with quantity 2, itemized by
the gateway with the line total 10000, gives a merged list of two entries. -/
theorem itemized_store_item_is_appended_again_witness :
    mergeItems
        [purchasedItemOf { description := some "Game Drive", amount_total := 10000,
                           quantity := some 2 }]
        [gameDrive] =
      [gatewayGameDrive, mergedGameDrive] :=
  (itemized_store_item_is_appended_again.1 "Game Drive" 50 2 10000 (JSVal.str "act-1")
    (by decide) (by norm_num) (by norm_num) (by norm_num)).trans
    (by simp only [gatewayGameDrive, mergedGameDrive]; norm_num)

end UpgradesPayment
